import Mathlib

/-!
# ASI programmable logic card adapter (`DeviceAdapters/ASITiger/ASIPLogic.cpp`)

A shallow embedding of the `CPLogic` device adapter.  The adapter is stateful C++; here every
member function is a pure function from the adapter state to a return code and a new state.

* The serial hub (`hub_`, class `ASIHub`) is an external collaborator: it is a parameter
  (`Hub σ`), an arbitrary transition system over a hub state `σ`.
* The host property framework (`CDeviceBase`, `MM::PropertyBase`) is not part of
  `ASIPLogic.cpp`; the few operations the adapter calls are modelled below and marked as such.
* Every command handed to `hub_->QueryCommandVerify` is appended to the ghost field `sent`, so
  that statements about "which bus commands were issued" can be written down.
-/

namespace ASIPLogic

/-! ## Constants and host types -/

/-- Modelled from the spec: the return code `DEVICE_OK` (`MMDeviceConstants.h` is not among
the sources; `if (!ret)` in `Initialize` shows that it is 0). -/
abbrev DEVICE_OK : Int := 0

/-- Modelled from the spec: the return code `DEVICE_INVALID_PROPERTY` of the host
(`MMDeviceConstants.h` is not among the sources). -/
abbrev DEVICE_INVALID_PROPERTY : Int := 2

/-- Modelled from the spec: the return code `DEVICE_INVALID_PROPERTY_VALUE`, the
invalid-value failure of section 7 (`MMDeviceConstants.h` is not among the sources). -/
abbrev DEVICE_INVALID_PROPERTY_VALUE : Int := 3

/-- Modelled from the spec: the return code `DEVICE_DUPLICATE_PROPERTY` of the host
(`MMDeviceConstants.h` is not among the sources). -/
abbrev DEVICE_DUPLICATE_PROPERTY : Int := 4

/-- Modelled from the spec: the return code `DEVICE_NO_PROPERTY_DATA` of the host
(`MMDeviceConstants.h` is not among the sources). -/
abbrev DEVICE_NO_PROPERTY_DATA : Int := 19

/-- The addresses of the card (`#define`s at the top of `ASIPLogic.cpp`). -/
abbrev PLOGIC_NUM_ADDRESSES : Nat := 128
abbrev PLOGIC_INVERT_ADDRESS : Nat := 64
abbrev PLOGIC_FRONTPANEL_START_ADDRESS : Nat := 33
abbrev PLOGIC_FRONTPANEL_END_ADDRESS : Nat := 40
abbrev PLOGIC_BACKPLANE_START_ADDRESS : Nat := 41
abbrev PLOGIC_BACKPLANE_END_ADDRESS : Nat := 48

/-- Modelled from the spec: the action a property handler is invoked for (`MM::ActionType`,
declared in `MMDevice.h`, which is not among the sources): `BeforeGet` for a read,
`AfterSet` for a write, and the others, for which the handlers of this file do nothing. -/
inductive ActionType
  | NoAction
  | BeforeGet
  | AfterSet
  | IsSequenceable
  | AfterLoadSequence
  | StartSequence
  | StopSequence
  deriving DecidableEq, Repr

/-- Modelled from the spec: the string constants `g_...` that `ASIPLogic.cpp` uses as property
values; they are declared in `ASITiger.h`, which is not among the sources.  The model keeps
their identity only: two different names stand for two different strings. -/
inductive Str
  | g_NoState
  | g_YesState
  | g_SaveSettingsX
  | g_SaveSettingsY
  | g_SaveSettingsZ
  | g_SaveSettingsOrig
  | g_SaveSettingsDone
  | g_SourceCode0
  | g_SourceCode1
  | g_SourceCode2
  | g_SourceCode3
  | g_SourceCode4
  | g_TypeCode0
  | g_TypeCode1
  | g_TypeCode2
  | g_TypeCode3
  | g_TypeCode4
  | g_TypeCode5
  | g_TypeCode6
  | g_TypeCode7
  | g_TypeCode8
  | g_TypeCode9
  deriving DecidableEq, Repr

/-- The suffix argument of `GetCellPropertyName`. -/
inductive CellSuffix
  | _Type
  | _Config
  | _InputX
  | _InputY
  | _InputZ
  | _InputF
  deriving DecidableEq, Repr

/-- Modelled from the spec: the names of the properties.  The named ones are the constants
`g_...PropertyName` of `ASITiger.h` (not among the sources); `Cell index suffix`,
`Frontpanel index` and `Backplane index` stand for the strings that `GetCellPropertyName`,
`GetIOFrontpanelPropertyName` and `GetIOBackplanePropertyName` print, which determine the
index (and suffix) they were printed from. -/
inductive PropName
  | g_AxisLetterPropertyName
  | g_Keyword_Description
  | g_FirmwareBuildPropertyName
  | g_NumLogicCellsPropertyName
  | g_PointerPositionPropertyName
  | g_PLogicOutputStatePropertyName
  | g_FrontpanelOutputStatePropertyName
  | g_BackplaneOutputStatePropertyName
  | g_TriggerSourcePropertyName
  | g_RefreshPropValsPropertyName
  | g_SaveSettingsPropertyName
  | g_AdvancedPropertiesPropertyName
  | Cell (index : Int) (suffix : CellSuffix)
  | Frontpanel (index : Int)
  | Backplane (index : Int)
  deriving DecidableEq, Repr

/-- The member functions that `Initialize` and `OnAdvancedProperties` bind to properties
(`CPropertyAction` and, with an index, `CPropertyActionEx`). -/
inductive Handler
  | OnPointerPosition
  | OnPLogicOutputState
  | OnFrontpanelOutputState
  | OnBackplaneOutputState
  | OnTriggerSource
  | OnRefreshProperties
  | OnSaveCardSettings
  | OnAdvancedProperties
  | OnCellType (index : Int)
  | OnCellConfig (index : Int)
  | OnInputX (index : Int)
  | OnInputY (index : Int)
  | OnInputZ (index : Int)
  | OnInputF (index : Int)
  | OnIOSourceAddress (index : Int)
  deriving DecidableEq, Repr

/-- The value a property holds: one of the string constants, free text, or a `long`. -/
inductive Value
  | str (c : Str)
  | text (t : String)
  | int (n : Int)
  deriving DecidableEq, Repr

/-- Modelled from the spec: a property object of the host (`MM::Property`), which is not among
the sources: its current value, the read-only flag and action given to `CreateProperty`, and
the table built by `AddAllowedValue` (value, associated data). -/
structure Property where
  value : Value
  readOnly : Bool
  action : Option Handler
  allowed : List (Str × Int)
  deriving DecidableEq, Repr

/-- One call of `hub_->QueryCommandVerify(command, expected, delay)`, together with the value
the cached pointer `currentPosition_` had when the call was made (ghost, for the record). -/
structure BusCommand where
  command : String
  expected : String
  delayMs : Nat
  position : Nat
  deriving DecidableEq, Repr

/-- The hub (`ASIHub`), the external collaborator that owns the serial line.  It is a
parameter of the model: `σ` is its state (serial port, last answer), and each member used by
`ASIPLogic.cpp` is a function of that state.  A parser returns the code and the value it
writes through its reference argument (meaningful only when the code is `DEVICE_OK`). -/
structure Hub (σ : Type) where
  QueryCommandVerify : σ → String → String → Nat → Int × σ
  ParseAnswerAfterEquals : σ → Int × Int
  ParseAnswerAfterPosition2 : σ → Int × Nat
  ParseAnswerAfterUnderscore : σ → Int × Nat
  SetLastSerialAnswer : σ → String → σ

/-- The state of one `CPLogic` object: the members it inherits from `ASIPeripheralBase`
(`hub_`, `addressChar_`, `addressString_`, `refreshProps_`, `initialized_`), its own members
(`axisLetter_`, `numCells_`, `currentPosition_`), the function-local `static bool justSet` of
`OnPointerPosition`, the property collection of the host, and the ghost list `sent` of the
bus commands issued so far (oldest first). -/
structure CPLogic (σ : Type) where
  hub_ : σ
  addressChar_ : Char
  addressString_ : String
  axisLetter_ : String
  numCells_ : Nat
  currentPosition_ : Nat
  refreshProps_ : Bool
  initialized_ : Bool
  justSet : Bool
  properties_ : PropName → Option Property
  sent : List BusCommand

variable {σ : Type}

/-- Conversion of a `long` to `unsigned int` (the argument conversion at every
`SetPosition(index)` call): reduction modulo `2^32`. -/
def toUnsigned (index : Int) : Nat := (index % 4294967296).toNat

/-- The macro `RETURN_ON_MM_ERROR(result)`: leave the function with the code of `result` when
it is not `DEVICE_OK`, otherwise go on (with the state `result` produced). -/
def RETURN_ON_MM_ERROR (result : Int × CPLogic σ) (next : CPLogic σ → Int × CPLogic σ) :
    Int × CPLogic σ :=
  if result.1 ≠ DEVICE_OK then result else next result.2

/-- The call `hub_->QueryCommandVerify(command, expected, delay)` as seen from the adapter: the
hub moves to its next state, and the command is recorded in `sent`. -/
def QueryCommandVerify (hub : Hub σ) (s : CPLogic σ) (command expected : String)
    (delayMs : Nat) : Int × CPLogic σ :=
  let r := hub.QueryCommandVerify s.hub_ command expected delayMs
  (r.1, { s with hub_ := r.2,
                 sent := s.sent ++ [⟨command, expected, delayMs, s.currentPosition_⟩] })

/-! ## The host property framework, as far as the adapter calls it -/

/-- Modelled from the spec: the call `pProp->Set(v)` on the property named `pProp`
(`MM::Property::Set` is not among the sources): it stores the value and yields `true`; for a
property object of the matching type it never refuses.  (The host hands a handler the object
of an existing property; for a name without property there is nothing to store.) -/
def PropSet (s : CPLogic σ) (pProp : PropName) (v : Value) : Bool × CPLogic σ :=
  match s.properties_ pProp with
  | some p => (true, { s with properties_ := Function.update s.properties_ pProp
                                (some { p with value := v }) })
  | none => (true, s)

/-- The current value of a property (what an observer of the device sees), `none` when no such
property exists. -/
def PropValue (s : CPLogic σ) (name : PropName) : Option Value :=
  (s.properties_ name).map Property.value

/-- Modelled from the spec: the call `pProp->Get(long&)` (`MM::Property::Get` is not among
the sources): the `long` held by an integer property.  The handlers that use it are bound to
integer properties only; for any other value the model reads 0. -/
def PropGetLong (s : CPLogic σ) (pProp : PropName) : Int :=
  match PropValue s pProp with
  | some (Value.int n) => n
  | _ => 0

/-- Modelled from the spec: the call `pProp->Get(string&)` (`MM::Property::Get` is not among
the sources) on a property holding one of the string constants; `none` stands for a string
that is none of them. -/
def PropGetStr (s : CPLogic σ) (pProp : PropName) : Option Str :=
  match PropValue s pProp with
  | some (Value.str c) => some c
  | _ => none

/-- Modelled from the spec: `CDeviceBase::CreateProperty(name, value, type, readOnly, pAct)`,
not among the sources.  A new property is added; a name already in use is refused with
`DEVICE_DUPLICATE_PROPERTY` and the existing property stays. -/
def CreateProperty (s : CPLogic σ) (name : PropName) (value : Value) (readOnly : Bool)
    (pAct : Option Handler) : Int × CPLogic σ :=
  match s.properties_ name with
  | some _ => (DEVICE_DUPLICATE_PROPERTY, s)
  | none => (DEVICE_OK, { s with properties_ := Function.update s.properties_ name
                                   (some ⟨value, readOnly, pAct, []⟩) })

/-- Modelled from the spec: `CDeviceBase::AddAllowedValue(name, value, data)`, not among the
sources.  The pair is entered in the table of the property unless the value is already there. -/
def AddAllowedValue (s : CPLogic σ) (name : PropName) (value : Str) (data : Int) :
    Int × CPLogic σ :=
  match s.properties_ name with
  | none => (DEVICE_INVALID_PROPERTY, s)
  | some p =>
    if (p.allowed.lookup value).isSome then (DEVICE_OK, s)
    else (DEVICE_OK, { s with properties_ := Function.update s.properties_ name
                                (some { p with allowed := p.allowed ++ [(value, data)] }) })

/-- Modelled from the spec: whether the host lets a value be written to a property (not among
the sources): anything when no allowed value was declared, else only a declared string
constant. -/
def IsAllowed (p : Property) (v : Value) : Bool :=
  match p.allowed, v with
  | [], _ => true
  | _ :: _, Value.str c => (p.allowed.lookup c).isSome
  | _ :: _, _ => false

/-- Modelled from the spec: `CDeviceBase::SetProperty(name, value)`, not among the sources.
Following section 4.3 of the specification (the pointer move "best-effort writes back the
corresponding externally visible pointer position property") it writes the value into the
property object and does nothing else: it issues no bus command, changes no member of the
adapter, and does not run the action bound to the property. -/
def SetProperty (s : CPLogic σ) (name : PropName) (value : Value) : Int × CPLogic σ :=
  match s.properties_ name with
  | none => (DEVICE_INVALID_PROPERTY, s)
  | some p =>
    if p.readOnly then (DEVICE_OK, s)
    else if IsAllowed p value then (DEVICE_OK, (PropSet s name value).2)
    else (DEVICE_INVALID_PROPERTY_VALUE, s)

/-- Modelled from the spec: `CDeviceBase::GetCurrentPropertyData(name, data)`, not among the
sources: the data that `AddAllowedValue` associated with the current value of the property. -/
def GetCurrentPropertyData (s : CPLogic σ) (name : PropName) : Int × Int :=
  match s.properties_ name with
  | none => (DEVICE_INVALID_PROPERTY, 0)
  | some p =>
    match p.value with
    | Value.str c =>
      match p.allowed.lookup c with
      | some data => (DEVICE_OK, data)
      | none => (DEVICE_NO_PROPERTY_DATA, 0)
    | _ => (DEVICE_NO_PROPERTY_DATA, 0)

/-! ## The pointer register -/

/-- The member function `CPLogic::SetPosition(unsigned int position)`. -/
def SetPosition (hub : Hub σ) (s : CPLogic σ) (position : Nat) : Int × CPLogic σ :=
  if position = s.currentPosition_ then (DEVICE_OK, s)
  else
    RETURN_ON_MM_ERROR
      (QueryCommandVerify hub s ("M " ++ s.axisLetter_ ++ "=" ++ toString position) ":A" 0)
      fun s1 =>
        let s2 := { s1 with currentPosition_ := position }
        let s3 := (SetProperty s2 PropName.g_PointerPositionPropertyName
                    (Value.int position)).2
        (DEVICE_OK, s3)

/-- The member function `CPLogic::RefreshCurrentPosition()`. -/
def RefreshCurrentPosition (hub : Hub σ) (s : CPLogic σ) : Int × CPLogic σ :=
  RETURN_ON_MM_ERROR (QueryCommandVerify hub s ("W " ++ s.axisLetter_) ":A" 0) fun s1 =>
    let p := hub.ParseAnswerAfterPosition2 s1.hub_
    if p.1 ≠ DEVICE_OK then (p.1, s1)
    else (DEVICE_OK, { s1 with currentPosition_ := p.2 })

/-! ## Action handlers that do not call back into the property framework -/

/-- A parser call under `RETURN_ON_MM_ERROR`: leave with the parser's code when it is not
`DEVICE_OK` (the adapter state is the one at the call), otherwise go on with the value the
parser wrote through its reference argument. -/
def RETURN_ON_MM_ERROR_parse {α : Type} (result : Int × α) (s : CPLogic σ)
    (next : α → Int × CPLogic σ) : Int × CPLogic σ :=
  if result.1 ≠ DEVICE_OK then (result.1, s) else next result.2

/-- The tail `if (!pProp->Set(v)) return DEVICE_INVALID_PROPERTY_VALUE;` followed by what comes
after the `if`. -/
def SetOrInvalid (r : Bool × CPLogic σ) (next : CPLogic σ → Int × CPLogic σ) :
    Int × CPLogic σ :=
  if !r.1 then (DEVICE_INVALID_PROPERTY_VALUE, r.2) else next r.2

/-- The member function `CPLogic::OnPLogicOutputState`. -/
def OnPLogicOutputState (hub : Hub σ) (s : CPLogic σ) (pProp : PropName)
    (eAct : ActionType) : Int × CPLogic σ :=
  if eAct = ActionType.BeforeGet ∨ eAct = ActionType.AfterSet then
    RETURN_ON_MM_ERROR
      (QueryCommandVerify hub s (String.singleton s.addressChar_ ++ "RDADC Z?") ":A" 0)
      fun s1 =>
    RETURN_ON_MM_ERROR_parse (hub.ParseAnswerAfterPosition2 s1.hub_) s1 fun val =>
    SetOrInvalid (PropSet s1 pProp (Value.int val)) fun s2 => (DEVICE_OK, s2)
  else (DEVICE_OK, s)

/-- The member function `CPLogic::OnFrontpanelOutputState`. -/
def OnFrontpanelOutputState (hub : Hub σ) (s : CPLogic σ) (pProp : PropName)
    (eAct : ActionType) : Int × CPLogic σ :=
  if eAct = ActionType.BeforeGet ∨ eAct = ActionType.AfterSet then
    RETURN_ON_MM_ERROR
      (QueryCommandVerify hub s (String.singleton s.addressChar_ ++ "RDADC X?") ":A" 0)
      fun s1 =>
    RETURN_ON_MM_ERROR_parse (hub.ParseAnswerAfterPosition2 s1.hub_) s1 fun val =>
    SetOrInvalid (PropSet s1 pProp (Value.int val)) fun s2 => (DEVICE_OK, s2)
  else (DEVICE_OK, s)

/-- The member function `CPLogic::OnBackplaneOutputState`. -/
def OnBackplaneOutputState (hub : Hub σ) (s : CPLogic σ) (pProp : PropName)
    (eAct : ActionType) : Int × CPLogic σ :=
  if eAct = ActionType.BeforeGet ∨ eAct = ActionType.AfterSet then
    RETURN_ON_MM_ERROR
      (QueryCommandVerify hub s (String.singleton s.addressChar_ ++ "RDADC Y?") ":A" 0)
      fun s1 =>
    RETURN_ON_MM_ERROR_parse (hub.ParseAnswerAfterPosition2 s1.hub_) s1 fun val =>
    SetOrInvalid (PropSet s1 pProp (Value.int val)) fun s2 => (DEVICE_OK, s2)
  else (DEVICE_OK, s)

/-- The `switch (tmp)` of `OnTriggerSource`: `pProp->Set(g_SourceCodeN)` for `N` in `0..4`,
`success = 0` otherwise. -/
def SetSourceCode (s : CPLogic σ) (pProp : PropName) (tmp : Int) : Bool × CPLogic σ :=
  if tmp = 0 then PropSet s pProp (Value.str Str.g_SourceCode0)
  else if tmp = 1 then PropSet s pProp (Value.str Str.g_SourceCode1)
  else if tmp = 2 then PropSet s pProp (Value.str Str.g_SourceCode2)
  else if tmp = 3 then PropSet s pProp (Value.str Str.g_SourceCode3)
  else if tmp = 4 then PropSet s pProp (Value.str Str.g_SourceCode4)
  else (false, s)

/-- The member function `CPLogic::OnTriggerSource`. -/
def OnTriggerSource (hub : Hub σ) (s : CPLogic σ) (pProp : PropName)
    (eAct : ActionType) : Int × CPLogic σ :=
  if eAct = ActionType.BeforeGet then
    if !s.refreshProps_ && s.initialized_ then (DEVICE_OK, s)
    else
      RETURN_ON_MM_ERROR
        (QueryCommandVerify hub s ("PM " ++ s.axisLetter_ ++ "?") s.axisLetter_ 0) fun s1 =>
      RETURN_ON_MM_ERROR_parse (hub.ParseAnswerAfterEquals s1.hub_) s1 fun tmp =>
      SetOrInvalid (SetSourceCode s1 pProp tmp) fun s2 => (DEVICE_OK, s2)
  else if eAct = ActionType.AfterSet then
    RETURN_ON_MM_ERROR_parse
      (GetCurrentPropertyData s PropName.g_TriggerSourcePropertyName) s fun tmp =>
    RETURN_ON_MM_ERROR
      (QueryCommandVerify hub s ("PM " ++ s.axisLetter_ ++ "=" ++ toString tmp) ":A" 0)
      fun s1 => (DEVICE_OK, s1)
  else (DEVICE_OK, s)

/-- The `BeforeGet` branch of `CPLogic::OnPointerPosition`; the `AfterSet` branch ends by
calling it, so it is defined first.  The result of `RefreshCurrentPosition()` is not looked
at. -/
def OnPointerPosition_BeforeGet (hub : Hub σ) (s : CPLogic σ) (pProp : PropName) :
    Int × CPLogic σ :=
  if !s.refreshProps_ && s.initialized_ && !s.justSet then (DEVICE_OK, s)
  else
    let s1 := (RefreshCurrentPosition hub s).2
    SetOrInvalid (PropSet s1 pProp (Value.int s1.currentPosition_)) fun s2 =>
      (DEVICE_OK, { s2 with justSet := false })

/-- The member function `CPLogic::OnPointerPosition`. -/
def OnPointerPosition (hub : Hub σ) (s : CPLogic σ) (pProp : PropName)
    (eAct : ActionType) : Int × CPLogic σ :=
  if eAct = ActionType.BeforeGet then OnPointerPosition_BeforeGet hub s pProp
  else if eAct = ActionType.AfterSet then
    let val := PropGetLong s pProp
    RETURN_ON_MM_ERROR
      (QueryCommandVerify hub s ("M " ++ s.axisLetter_ ++ "=" ++ toString val) ":A" 0)
      fun s1 =>
        OnPointerPosition_BeforeGet hub { s1 with justSet := true } pProp
  else (DEVICE_OK, s)

/-- The member function `CPLogic::OnSaveCardSettings`. When the value is none of the five
constants the command is sent as `"<addr>SS "` with no letter, as in the source. -/
def OnSaveCardSettings (hub : Hub σ) (s : CPLogic σ) (pProp : PropName)
    (eAct : ActionType) : Int × CPLogic σ :=
  if eAct = ActionType.AfterSet then
    let command := String.singleton s.addressChar_ ++ "SS "
    let tmpstr := PropGetStr s pProp
    if tmpstr = some Str.g_SaveSettingsOrig then (DEVICE_OK, s)
    else if tmpstr = some Str.g_SaveSettingsDone then (DEVICE_OK, s)
    else
      let command :=
        if tmpstr = some Str.g_SaveSettingsX then command ++ "X"
        else if tmpstr = some Str.g_SaveSettingsY then command ++ "X"
        else if tmpstr = some Str.g_SaveSettingsZ then command ++ "Z"
        else command
      RETURN_ON_MM_ERROR (QueryCommandVerify hub s command ":A" 200) fun s1 =>
        (DEVICE_OK, (PropSet s1 pProp (Value.str Str.g_SaveSettingsDone)).2)
  else (DEVICE_OK, s)

/-- The member function `CPLogic::OnRefreshProperties`. -/
def OnRefreshProperties (s : CPLogic σ) (pProp : PropName) (eAct : ActionType) :
    Int × CPLogic σ :=
  if eAct = ActionType.AfterSet then
    if PropGetStr s pProp = some Str.g_YesState then (DEVICE_OK, { s with refreshProps_ := true })
    else (DEVICE_OK, { s with refreshProps_ := false })
  else (DEVICE_OK, s)

/-- The member function `CPLogic::GetCellPropertyName(index, suffix, name)`: the name
`Cell_<index><suffix>`. -/
def GetCellPropertyName (index : Int) (suffix : CellSuffix) : PropName :=
  PropName.Cell index suffix

/-- The member function `CPLogic::GetIOFrontpanelPropertyName(index, name)`: the name
`SourceAddress_Frontpanel_<index - PLOGIC_FRONTPANEL_START_ADDRESS + 1>`. -/
def GetIOFrontpanelPropertyName (index : Int) : PropName :=
  PropName.Frontpanel (index - PLOGIC_FRONTPANEL_START_ADDRESS + 1)

/-- The member function `CPLogic::GetIOBackplanePropertyName(index, name)`: the name
`SourceAddress_Backplane_<index - PLOGIC_BACKPLANE_START_ADDRESS>`. -/
def GetIOBackplanePropertyName (index : Int) : PropName :=
  PropName.Backplane (index - PLOGIC_BACKPLANE_START_ADDRESS)

/-! ## Cell and IO handlers -/

/-- The `switch (tmp)` of `OnCellType`: `pProp->Set(g_TypeCodeN)` for `N` in `0..9`,
`success = 0` otherwise. -/
def SetTypeCode (s : CPLogic σ) (pProp : PropName) (tmp : Int) : Bool × CPLogic σ :=
  if tmp = 0 then PropSet s pProp (Value.str Str.g_TypeCode0)
  else if tmp = 1 then PropSet s pProp (Value.str Str.g_TypeCode1)
  else if tmp = 2 then PropSet s pProp (Value.str Str.g_TypeCode2)
  else if tmp = 3 then PropSet s pProp (Value.str Str.g_TypeCode3)
  else if tmp = 4 then PropSet s pProp (Value.str Str.g_TypeCode4)
  else if tmp = 5 then PropSet s pProp (Value.str Str.g_TypeCode5)
  else if tmp = 6 then PropSet s pProp (Value.str Str.g_TypeCode6)
  else if tmp = 7 then PropSet s pProp (Value.str Str.g_TypeCode7)
  else if tmp = 8 then PropSet s pProp (Value.str Str.g_TypeCode8)
  else if tmp = 9 then PropSet s pProp (Value.str Str.g_TypeCode9)
  else (false, s)

/-- The `BeforeGet` branch of `CPLogic::OnCellType`.  It is defined on its own because the
`AfterSet` branch goes through `UpdateProperty`, which runs `BeforeGet` branches. -/
def OnCellType_BeforeGet (hub : Hub σ) (s : CPLogic σ) (pProp : PropName) (index : Int) :
    Int × CPLogic σ :=
  if !s.refreshProps_ && s.initialized_ then (DEVICE_OK, s)
  else
    RETURN_ON_MM_ERROR (SetPosition hub s (toUnsigned index)) fun s1 =>
    RETURN_ON_MM_ERROR
      (QueryCommandVerify hub s1 (String.singleton s1.addressChar_ ++ "CCA Y?") ":A" 0)
      fun s2 =>
    RETURN_ON_MM_ERROR_parse (hub.ParseAnswerAfterEquals s2.hub_) s2 fun tmp =>
    SetOrInvalid (SetTypeCode s2 pProp tmp) fun s3 => (DEVICE_OK, s3)

/-- The member function `CPLogic::OnCellConfig`. -/
def OnCellConfig (hub : Hub σ) (s : CPLogic σ) (pProp : PropName) (eAct : ActionType)
    (index : Int) : Int × CPLogic σ :=
  if eAct = ActionType.BeforeGet then
    if !s.refreshProps_ && s.initialized_ then (DEVICE_OK, s)
    else
      RETURN_ON_MM_ERROR (SetPosition hub s (toUnsigned index)) fun s1 =>
      RETURN_ON_MM_ERROR
        (QueryCommandVerify hub s1 (String.singleton s1.addressChar_ ++ "CCA Z?") ":A" 0)
        fun s2 =>
      RETURN_ON_MM_ERROR_parse (hub.ParseAnswerAfterEquals s2.hub_) s2 fun tmp =>
      SetOrInvalid (PropSet s2 pProp (Value.int tmp)) fun s3 => (DEVICE_OK, s3)
  else if eAct = ActionType.AfterSet then
    let tmp := PropGetLong s pProp
    RETURN_ON_MM_ERROR (SetPosition hub s (toUnsigned index)) fun s1 =>
    RETURN_ON_MM_ERROR
      (QueryCommandVerify hub s1
        (String.singleton s1.addressChar_ ++ "CCA Z=" ++ toString tmp) ":A" 0)
      fun s2 => (DEVICE_OK, s2)
  else (DEVICE_OK, s)

/-- The member function `CPLogic::OnInputX`. -/
def OnInputX (hub : Hub σ) (s : CPLogic σ) (pProp : PropName) (eAct : ActionType)
    (index : Int) : Int × CPLogic σ :=
  if eAct = ActionType.BeforeGet then
    if !s.refreshProps_ && s.initialized_ then (DEVICE_OK, s)
    else
      RETURN_ON_MM_ERROR (SetPosition hub s (toUnsigned index)) fun s1 =>
      RETURN_ON_MM_ERROR
        (QueryCommandVerify hub s1 (String.singleton s1.addressChar_ ++ "CCB X?") ":A" 0)
        fun s2 =>
      RETURN_ON_MM_ERROR_parse (hub.ParseAnswerAfterEquals s2.hub_) s2 fun tmp =>
      SetOrInvalid (PropSet s2 pProp (Value.int tmp)) fun s3 => (DEVICE_OK, s3)
  else if eAct = ActionType.AfterSet then
    let tmp := PropGetLong s pProp
    RETURN_ON_MM_ERROR (SetPosition hub s (toUnsigned index)) fun s1 =>
    RETURN_ON_MM_ERROR
      (QueryCommandVerify hub s1
        (String.singleton s1.addressChar_ ++ "CCB X=" ++ toString tmp) ":A" 0)
      fun s2 => (DEVICE_OK, s2)
  else (DEVICE_OK, s)

/-- The member function `CPLogic::OnInputY`. -/
def OnInputY (hub : Hub σ) (s : CPLogic σ) (pProp : PropName) (eAct : ActionType)
    (index : Int) : Int × CPLogic σ :=
  if eAct = ActionType.BeforeGet then
    if !s.refreshProps_ && s.initialized_ then (DEVICE_OK, s)
    else
      RETURN_ON_MM_ERROR (SetPosition hub s (toUnsigned index)) fun s1 =>
      RETURN_ON_MM_ERROR
        (QueryCommandVerify hub s1 (String.singleton s1.addressChar_ ++ "CCB Y?") ":A" 0)
        fun s2 =>
      RETURN_ON_MM_ERROR_parse (hub.ParseAnswerAfterEquals s2.hub_) s2 fun tmp =>
      SetOrInvalid (PropSet s2 pProp (Value.int tmp)) fun s3 => (DEVICE_OK, s3)
  else if eAct = ActionType.AfterSet then
    let tmp := PropGetLong s pProp
    RETURN_ON_MM_ERROR (SetPosition hub s (toUnsigned index)) fun s1 =>
    RETURN_ON_MM_ERROR
      (QueryCommandVerify hub s1
        (String.singleton s1.addressChar_ ++ "CCB Y=" ++ toString tmp) ":A" 0)
      fun s2 => (DEVICE_OK, s2)
  else (DEVICE_OK, s)

/-- The member function `CPLogic::OnInputZ`. -/
def OnInputZ (hub : Hub σ) (s : CPLogic σ) (pProp : PropName) (eAct : ActionType)
    (index : Int) : Int × CPLogic σ :=
  if eAct = ActionType.BeforeGet then
    if !s.refreshProps_ && s.initialized_ then (DEVICE_OK, s)
    else
      RETURN_ON_MM_ERROR (SetPosition hub s (toUnsigned index)) fun s1 =>
      RETURN_ON_MM_ERROR
        (QueryCommandVerify hub s1 (String.singleton s1.addressChar_ ++ "CCB Z?") ":A" 0)
        fun s2 =>
      RETURN_ON_MM_ERROR_parse (hub.ParseAnswerAfterEquals s2.hub_) s2 fun tmp =>
      SetOrInvalid (PropSet s2 pProp (Value.int tmp)) fun s3 => (DEVICE_OK, s3)
  else if eAct = ActionType.AfterSet then
    let tmp := PropGetLong s pProp
    RETURN_ON_MM_ERROR (SetPosition hub s (toUnsigned index)) fun s1 =>
    RETURN_ON_MM_ERROR
      (QueryCommandVerify hub s1
        (String.singleton s1.addressChar_ ++ "CCB Z=" ++ toString tmp) ":A" 0)
      fun s2 => (DEVICE_OK, s2)
  else (DEVICE_OK, s)

/-- The member function `CPLogic::OnInputF`. -/
def OnInputF (hub : Hub σ) (s : CPLogic σ) (pProp : PropName) (eAct : ActionType)
    (index : Int) : Int × CPLogic σ :=
  if eAct = ActionType.BeforeGet then
    if !s.refreshProps_ && s.initialized_ then (DEVICE_OK, s)
    else
      RETURN_ON_MM_ERROR (SetPosition hub s (toUnsigned index)) fun s1 =>
      RETURN_ON_MM_ERROR
        (QueryCommandVerify hub s1 (String.singleton s1.addressChar_ ++ "CCB F?") ":A" 0)
        fun s2 =>
      RETURN_ON_MM_ERROR_parse (hub.ParseAnswerAfterEquals s2.hub_) s2 fun tmp =>
      SetOrInvalid (PropSet s2 pProp (Value.int tmp)) fun s3 => (DEVICE_OK, s3)
  else if eAct = ActionType.AfterSet then
    let tmp := PropGetLong s pProp
    RETURN_ON_MM_ERROR (SetPosition hub s (toUnsigned index)) fun s1 =>
    RETURN_ON_MM_ERROR
      (QueryCommandVerify hub s1
        (String.singleton s1.addressChar_ ++ "CCB F=" ++ toString tmp) ":A" 0)
      fun s2 => (DEVICE_OK, s2)
  else (DEVICE_OK, s)

/-- The member function `CPLogic::OnIOSourceAddress`. -/
def OnIOSourceAddress (hub : Hub σ) (s : CPLogic σ) (pProp : PropName) (eAct : ActionType)
    (index : Int) : Int × CPLogic σ :=
  if eAct = ActionType.BeforeGet then
    if !s.refreshProps_ && s.initialized_ then (DEVICE_OK, s)
    else
      RETURN_ON_MM_ERROR (SetPosition hub s (toUnsigned index)) fun s1 =>
      RETURN_ON_MM_ERROR
        (QueryCommandVerify hub s1 (String.singleton s1.addressChar_ ++ "CCA Z?") ":A" 0)
        fun s2 =>
      RETURN_ON_MM_ERROR_parse (hub.ParseAnswerAfterEquals s2.hub_) s2 fun tmp =>
      SetOrInvalid (PropSet s2 pProp (Value.int tmp)) fun s3 => (DEVICE_OK, s3)
  else if eAct = ActionType.AfterSet then
    let tmp := PropGetLong s pProp
    RETURN_ON_MM_ERROR (SetPosition hub s (toUnsigned index)) fun s1 =>
    RETURN_ON_MM_ERROR
      (QueryCommandVerify hub s1
        (String.singleton s1.addressChar_ ++ "CCA Z=" ++ toString tmp) ":A" 0)
      fun s2 => (DEVICE_OK, s2)
  else (DEVICE_OK, s)

/-! ## Reading a property through the host, and the handlers that rely on it -/

/-- What the action object bound to a property does for `MM::BeforeGet`: it calls the member
function it was made from (with the stored index, for a `CPropertyActionEx`).
`OnAdvancedProperties` and `OnRefreshProperties` do nothing for `BeforeGet`. -/
def ExecuteBeforeGet (hub : Hub σ) (s : CPLogic σ) (pProp : PropName) :
    Handler → Int × CPLogic σ
  | Handler.OnPointerPosition => OnPointerPosition hub s pProp ActionType.BeforeGet
  | Handler.OnPLogicOutputState => OnPLogicOutputState hub s pProp ActionType.BeforeGet
  | Handler.OnFrontpanelOutputState => OnFrontpanelOutputState hub s pProp ActionType.BeforeGet
  | Handler.OnBackplaneOutputState => OnBackplaneOutputState hub s pProp ActionType.BeforeGet
  | Handler.OnTriggerSource => OnTriggerSource hub s pProp ActionType.BeforeGet
  | Handler.OnRefreshProperties => OnRefreshProperties s pProp ActionType.BeforeGet
  | Handler.OnSaveCardSettings => OnSaveCardSettings hub s pProp ActionType.BeforeGet
  | Handler.OnAdvancedProperties => (DEVICE_OK, s)
  | Handler.OnCellType index => OnCellType_BeforeGet hub s pProp index
  | Handler.OnCellConfig index => OnCellConfig hub s pProp ActionType.BeforeGet index
  | Handler.OnInputX index => OnInputX hub s pProp ActionType.BeforeGet index
  | Handler.OnInputY index => OnInputY hub s pProp ActionType.BeforeGet index
  | Handler.OnInputZ index => OnInputZ hub s pProp ActionType.BeforeGet index
  | Handler.OnInputF index => OnInputF hub s pProp ActionType.BeforeGet index
  | Handler.OnIOSourceAddress index => OnIOSourceAddress hub s pProp ActionType.BeforeGet index

/-- Modelled from the spec: `CDeviceBase::UpdateProperty(name)`, not among the sources: the
host reads the property, that is, it runs the action bound to it with `MM::BeforeGet` and
hands back its code (`DEVICE_INVALID_PROPERTY` when there is no such property, `DEVICE_OK`
when the property has no action). -/
def UpdateProperty (hub : Hub σ) (s : CPLogic σ) (name : PropName) : Int × CPLogic σ :=
  match s.properties_ name with
  | none => (DEVICE_INVALID_PROPERTY, s)
  | some p =>
    match p.action with
    | none => (DEVICE_OK, s)
    | some h => ExecuteBeforeGet hub s name h

/-- The member function `CPLogic::RefreshCellPropertyValues(index)`. The codes of the five
`UpdateProperty` calls are dropped, and the function returns `DEVICE_OK`. -/
def RefreshCellPropertyValues (hub : Hub σ) (s : CPLogic σ) (index : Int) :
    Int × CPLogic σ :=
  let refreshPropsOriginal := s.refreshProps_
  let s0 := { s with refreshProps_ := true }
  let s1 := (UpdateProperty hub s0 (GetCellPropertyName index CellSuffix._Config)).2
  let s2 := (UpdateProperty hub s1 (GetCellPropertyName index CellSuffix._InputX)).2
  let s3 := (UpdateProperty hub s2 (GetCellPropertyName index CellSuffix._InputY)).2
  let s4 := (UpdateProperty hub s3 (GetCellPropertyName index CellSuffix._InputZ)).2
  let s5 := (UpdateProperty hub s4 (GetCellPropertyName index CellSuffix._InputF)).2
  (DEVICE_OK, { s5 with refreshProps_ := refreshPropsOriginal })

/-- The member function `CPLogic::OnCellType`. -/
def OnCellType (hub : Hub σ) (s : CPLogic σ) (pProp : PropName) (eAct : ActionType)
    (index : Int) : Int × CPLogic σ :=
  if eAct = ActionType.BeforeGet then OnCellType_BeforeGet hub s pProp index
  else if eAct = ActionType.AfterSet then
    let propName := GetCellPropertyName index CellSuffix._Type
    RETURN_ON_MM_ERROR_parse (GetCurrentPropertyData s propName) s fun tmp =>
    RETURN_ON_MM_ERROR (SetPosition hub s (toUnsigned index)) fun s1 =>
    RETURN_ON_MM_ERROR
      (QueryCommandVerify hub s1
        (String.singleton s1.addressChar_ ++ "CCA Y=" ++ toString tmp) ":A" 0)
      fun s2 =>
    RETURN_ON_MM_ERROR (RefreshCellPropertyValues hub s2 index) fun s3 => (DEVICE_OK, s3)
  else (DEVICE_OK, s)

/-- The body of the first loop of `OnAdvancedProperties`, for cell `i`: the six properties of
the cell are created and each is read once. -/
def AdvancedCell (hub : Hub σ) (s : CPLogic σ) (i : Nat) : CPLogic σ :=
  -- logic cell type
  let propName := GetCellPropertyName i CellSuffix._Type
  let s := (CreateProperty s propName (Value.str Str.g_TypeCode0) false
             (some (Handler.OnCellType i))).2
  let s := (AddAllowedValue s propName Str.g_TypeCode0 0).2
  let s := (AddAllowedValue s propName Str.g_TypeCode1 1).2
  let s := (AddAllowedValue s propName Str.g_TypeCode2 2).2
  let s := (AddAllowedValue s propName Str.g_TypeCode3 3).2
  let s := (AddAllowedValue s propName Str.g_TypeCode4 4).2
  let s := (AddAllowedValue s propName Str.g_TypeCode5 5).2
  let s := (AddAllowedValue s propName Str.g_TypeCode6 6).2
  let s := (AddAllowedValue s propName Str.g_TypeCode7 7).2
  let s := (AddAllowedValue s propName Str.g_TypeCode8 8).2
  let s := (AddAllowedValue s propName Str.g_TypeCode9 9).2
  let s := (UpdateProperty hub s propName).2
  -- logic cell CCA Z code
  let propName := GetCellPropertyName i CellSuffix._Config
  let s := (CreateProperty s propName (Value.int 0) false (some (Handler.OnCellConfig i))).2
  let s := (UpdateProperty hub s propName).2
  -- logic cell input X code
  let propName := GetCellPropertyName i CellSuffix._InputX
  let s := (CreateProperty s propName (Value.int 0) false (some (Handler.OnInputX i))).2
  let s := (UpdateProperty hub s propName).2
  -- logic cell input Y code
  let propName := GetCellPropertyName i CellSuffix._InputY
  let s := (CreateProperty s propName (Value.int 0) false (some (Handler.OnInputY i))).2
  let s := (UpdateProperty hub s propName).2
  -- logic cell input Z code
  let propName := GetCellPropertyName i CellSuffix._InputZ
  let s := (CreateProperty s propName (Value.int 0) false (some (Handler.OnInputZ i))).2
  let s := (UpdateProperty hub s propName).2
  -- logic cell input F code
  let propName := GetCellPropertyName i CellSuffix._InputF
  let s := (CreateProperty s propName (Value.int 0) false (some (Handler.OnInputF i))).2
  (UpdateProperty hub s propName).2

/-- The body of the second loop of `OnAdvancedProperties` (front panel), for address `i`. -/
def AdvancedFrontpanel (hub : Hub σ) (s : CPLogic σ) (i : Nat) : CPLogic σ :=
  let propName := GetIOFrontpanelPropertyName i
  let s := (CreateProperty s propName (Value.int 0) false
             (some (Handler.OnIOSourceAddress i))).2
  (UpdateProperty hub s propName).2

/-- The body of the third loop of `OnAdvancedProperties` (backplane), for address `i`. -/
def AdvancedBackplane (hub : Hub σ) (s : CPLogic σ) (i : Nat) : CPLogic σ :=
  let propName := GetIOBackplanePropertyName i
  let s := (CreateProperty s propName (Value.int 0) false
             (some (Handler.OnIOSourceAddress i))).2
  (UpdateProperty hub s propName).2

/-- The member function `CPLogic::OnAdvancedProperties`. The three `for` loops run over
`1..numCells_`, `33..40` and `41..48` (the first one is taken for `numCells_ < 2^32 - 1`, where
the `unsigned int` counter does not wrap). -/
def OnAdvancedProperties (hub : Hub σ) (s : CPLogic σ) (pProp : PropName)
    (eAct : ActionType) : Int × CPLogic σ :=
  if eAct = ActionType.BeforeGet then (DEVICE_OK, s)
  else if eAct = ActionType.AfterSet then
    if PropGetStr s pProp = some Str.g_YesState then
      let refreshPropsOriginal := s.refreshProps_
      let s0 := { s with refreshProps_ := true }
      let s1 := (List.range' 1 s0.numCells_).foldl (AdvancedCell hub) s0
      let s2 := (List.range' PLOGIC_FRONTPANEL_START_ADDRESS
                  (PLOGIC_FRONTPANEL_END_ADDRESS - PLOGIC_FRONTPANEL_START_ADDRESS + 1)).foldl
                  (AdvancedFrontpanel hub) s1
      let s3 := (List.range' PLOGIC_BACKPLANE_START_ADDRESS
                  (PLOGIC_BACKPLANE_END_ADDRESS - PLOGIC_BACKPLANE_START_ADDRESS + 1)).foldl
                  (AdvancedBackplane hub) s2
      (DEVICE_OK, { s3 with refreshProps_ := refreshPropsOriginal })
    else (DEVICE_OK, s)
  else (DEVICE_OK, s)

/-- Modelled from the spec: what `ASIPLogic.cpp` takes from code that is not among the
sources when a device is set up: the code returned by
`ASIPeripheralBase::PeripheralInitialize()`, the firmware build name that call publishes as
property `g_FirmwareBuildPropertyName`, and the text of `g_PLogicDeviceDescription`. -/
structure Peripheral where
  PeripheralInitialize : Int
  firmwareBuild : String
  g_PLogicDeviceDescription : String

/-- Modelled from the spec: `ASIPeripheralBase::PeripheralInitialize()`, not among the sources.
On success the firmware build name is there as a read-only property. -/
def PeripheralInitialize (env : Peripheral) (s : CPLogic σ) : Int × CPLogic σ :=
  if env.PeripheralInitialize ≠ DEVICE_OK then (env.PeripheralInitialize, s)
  else (DEVICE_OK, (CreateProperty s PropName.g_FirmwareBuildPropertyName
                      (Value.text env.firmwareBuild) true none).2)

/-- Modelled from the spec: `CDeviceBase::GetProperty(name, buffer)`, not among the sources:
the text of the property (the empty text when there is no such text property; the C++ buffer
is then left as it was). -/
def GetProperty (s : CPLogic σ) (name : PropName) : String :=
  match PropValue s name with
  | some (Value.text t) => t
  | _ => ""

/-- The constructor `CPLogic::CPLogic(name)`.  The device name gives the address of the card
and, when it is an extended name (`extAxis = some letter`), its axis letter; otherwise the
axis letter stays `g_EmptyAxisLetterStr` (a blank).  The base class starts with
`initialized_ = false` and `refreshProps_ = false`. -/
def CPLogic_ctor (hub_ : σ) (addressChar_ : Char) (addressString_ : String)
    (extAxis : Option String) : CPLogic σ :=
  let s : CPLogic σ :=
    { hub_ := hub_, addressChar_ := addressChar_, addressString_ := addressString_,
      axisLetter_ := " ", numCells_ := 16, currentPosition_ := 1, refreshProps_ := false,
      initialized_ := false, justSet := false, properties_ := fun _ => none, sent := [] }
  match extAxis with
  | some letter =>
    (CreateProperty { s with axisLetter_ := letter } PropName.g_AxisLetterPropertyName
      (Value.text letter) true none).2
  | none => s

/-- The first part of the body of `CPLogic::Initialize()`, after the call of
`PeripheralInitialize` (lines 80-100): the description, and the number of cells taken from
the build name. -/
def Initialize_cells (env : Peripheral) (hub : Hub σ) (s : CPLogic σ) : CPLogic σ :=
  let s := (CreateProperty s PropName.g_Keyword_Description
             (Value.text (env.g_PLogicDeviceDescription ++ " HexAddr=" ++ s.addressString_))
             true none).2
  -- try to detect the number of cells from the build name
  let buildName := GetProperty s PropName.g_FirmwareBuildPropertyName
  let s := { s with hub_ := hub.SetLastSerialAnswer s.hub_ buildName }
  let ret := hub.ParseAnswerAfterUnderscore s.hub_
  let s := if ret.1 = 0 then { s with numCells_ := ret.2 } else s
  (CreateProperty s PropName.g_NumLogicCellsPropertyName (Value.int s.numCells_)
    true none).2

/-- The second part of the body of `CPLogic::Initialize()` (lines 102-155): the properties
with an action are created and read, and `initialized_` is set. -/
def Initialize_properties (hub : Hub σ) (s : CPLogic σ) : CPLogic σ :=
  -- pointer position, this is where edits/queries are made in general
  let s := (CreateProperty s PropName.g_PointerPositionPropertyName (Value.int 0) false
             (some Handler.OnPointerPosition)).2
  let s := (UpdateProperty hub s PropName.g_PointerPositionPropertyName).2
  -- reports the output state of the logic cell array as unsigned integer
  let s := (CreateProperty s PropName.g_PLogicOutputStatePropertyName (Value.int 0) true
             (some Handler.OnPLogicOutputState)).2
  let s := (UpdateProperty hub s PropName.g_PLogicOutputStatePropertyName).2
  -- reports the output state of the BNCs as unsigned integer
  let s := (CreateProperty s PropName.g_FrontpanelOutputStatePropertyName (Value.int 0) true
             (some Handler.OnPLogicOutputState)).2
  let s := (UpdateProperty hub s PropName.g_FrontpanelOutputStatePropertyName).2
  -- reports the output state of the backplane IO as unsigned integer
  let s := (CreateProperty s PropName.g_BackplaneOutputStatePropertyName (Value.int 0) true
             (some Handler.OnPLogicOutputState)).2
  let s := (UpdateProperty hub s PropName.g_BackplaneOutputStatePropertyName).2
  -- sets the trigger source
  let s := (CreateProperty s PropName.g_TriggerSourcePropertyName (Value.text "0") false
             (some Handler.OnTriggerSource)).2
  let s := (AddAllowedValue s PropName.g_TriggerSourcePropertyName Str.g_SourceCode0 0).2
  let s := (AddAllowedValue s PropName.g_TriggerSourcePropertyName Str.g_SourceCode1 1).2
  let s := (AddAllowedValue s PropName.g_TriggerSourcePropertyName Str.g_SourceCode2 2).2
  let s := (AddAllowedValue s PropName.g_TriggerSourcePropertyName Str.g_SourceCode3 3).2
  let s := (AddAllowedValue s PropName.g_TriggerSourcePropertyName Str.g_SourceCode4 4).2
  let s := (UpdateProperty hub s PropName.g_TriggerSourcePropertyName).2
  -- refresh properties from controller every time; default is false = no refresh
  let s := (CreateProperty s PropName.g_RefreshPropValsPropertyName
             (Value.str Str.g_NoState) false (some Handler.OnRefreshProperties)).2
  let s := (AddAllowedValue s PropName.g_RefreshPropValsPropertyName Str.g_NoState 0).2
  let s := (AddAllowedValue s PropName.g_RefreshPropValsPropertyName Str.g_YesState 0).2
  -- save settings to controller if requested
  let s := (CreateProperty s PropName.g_SaveSettingsPropertyName
             (Value.str Str.g_SaveSettingsOrig) false (some Handler.OnSaveCardSettings)).2
  let s := (AddAllowedValue s PropName.g_SaveSettingsPropertyName Str.g_SaveSettingsX 0).2
  let s := (AddAllowedValue s PropName.g_SaveSettingsPropertyName Str.g_SaveSettingsY 0).2
  let s := (AddAllowedValue s PropName.g_SaveSettingsPropertyName Str.g_SaveSettingsZ 0).2
  let s := (AddAllowedValue s PropName.g_SaveSettingsPropertyName Str.g_SaveSettingsOrig 0).2
  let s := (AddAllowedValue s PropName.g_SaveSettingsPropertyName Str.g_SaveSettingsDone 0).2
  -- generates a set of additional advanced properties that are used only rarely
  let s := (CreateProperty s PropName.g_AdvancedPropertiesPropertyName
             (Value.str Str.g_NoState) false (some Handler.OnAdvancedProperties)).2
  let s := (UpdateProperty hub s PropName.g_AdvancedPropertiesPropertyName).2
  let s := (AddAllowedValue s PropName.g_AdvancedPropertiesPropertyName Str.g_NoState 0).2
  let s := (AddAllowedValue s PropName.g_AdvancedPropertiesPropertyName Str.g_YesState 0).2
  { s with initialized_ := true }

/-- The member function `CPLogic::Initialize()`: the generic initialization first, then the two
parts of the body. The codes of `CreateProperty`, `AddAllowedValue` and `UpdateProperty` are
dropped, as in the source, and the function returns `DEVICE_OK`. -/
def Initialize (env : Peripheral) (hub : Hub σ) (s : CPLogic σ) : Int × CPLogic σ :=
  -- call generic Initialize first, this gets hub
  RETURN_ON_MM_ERROR (PeripheralInitialize env s) fun s =>
    (DEVICE_OK, Initialize_properties hub (Initialize_cells env hub s))

/-! ## Vocabulary of the statements -/

/-- The bus commands issued by a step that leads from `s` to `s1`: what `s1.sent` holds beyond
`s.sent`. -/
def issued (s s1 : CPLogic σ) : List BusCommand := s1.sent.drop s.sent.length

/-- A field command: the address character followed by `CCA ` or `CCB `. -/
def isFieldCommand (b : BusCommand) : Bool :=
  "CCA ".toList.isPrefixOf (b.command.toList.drop 1) ||
    "CCB ".toList.isPrefixOf (b.command.toList.drop 1)

/-- The member function that `OnAdvancedProperties` binds to the property
`Cell_<index><suffix>`. -/
def CellHandler (index : Int) : CellSuffix → Handler
  | CellSuffix._Type => Handler.OnCellType index
  | CellSuffix._Config => Handler.OnCellConfig index
  | CellSuffix._InputX => Handler.OnInputX index
  | CellSuffix._InputY => Handler.OnInputY index
  | CellSuffix._InputZ => Handler.OnInputZ index
  | CellSuffix._InputF => Handler.OnInputF index

/-- The property `Cell_<index><suffix>`, if it exists, is bound as `OnAdvancedProperties` binds
it. -/
def BoundAt (s : CPLogic σ) (index : Int) (suffix : CellSuffix) : Bool :=
  match s.properties_ (GetCellPropertyName index suffix) with
  | none => true
  | some p => p.action == some (CellHandler index suffix)

/-- The five dependent properties of cell `index` (config and the four inputs), as far as they
exist, are bound as `OnAdvancedProperties` binds them. -/
def CellBound (s : CPLogic σ) (index : Int) : Bool :=
  BoundAt s index CellSuffix._Config && BoundAt s index CellSuffix._InputX &&
    BoundAt s index CellSuffix._InputY && BoundAt s index CellSuffix._InputZ &&
    BoundAt s index CellSuffix._InputF

/-- The table that lines 351-360 of `OnAdvancedProperties` give a cell type property: the
names of the ten type codes with their codes. -/
def CellTypeAllowed : List (Str × Int) :=
  [(Str.g_TypeCode0, 0), (Str.g_TypeCode1, 1), (Str.g_TypeCode2, 2), (Str.g_TypeCode3, 3),
   (Str.g_TypeCode4, 4), (Str.g_TypeCode5, 5), (Str.g_TypeCode6, 6), (Str.g_TypeCode7, 7),
   (Str.g_TypeCode8, 8), (Str.g_TypeCode9, 9)]

/-- The table that `Initialize` gives the trigger source property: the names of the five
source codes with their codes. -/
def SourceAllowed : List (Str × Int) :=
  [(Str.g_SourceCode0, 0), (Str.g_SourceCode1, 1), (Str.g_SourceCode2, 2),
   (Str.g_SourceCode3, 3), (Str.g_SourceCode4, 4)]

/-! ## Test doubles for the hub -/

/-- A scripted hub: its state is the list of codes that the coming `QueryCommandVerify` calls
return (`DEVICE_OK` once the list is used up); every parser returns the given code and
value. -/
def scriptHub (parseCode : Int) (value : Nat) : Hub (List Int) where
  QueryCommandVerify st _ _ _ :=
    match st with
    | [] => (DEVICE_OK, [])
    | code :: rest => (code, rest)
  ParseAnswerAfterEquals _ := (parseCode, value)
  ParseAnswerAfterPosition2 _ := (parseCode, value)
  ParseAnswerAfterUnderscore _ := (parseCode, value)
  SetLastSerialAnswer st _ := st

/-- The value of a decimal digit. -/
def digitValue (c : Char) : Option Nat :=
  if 48 ≤ c.toNat ∧ c.toNat ≤ 57 then some (c.toNat - 48) else none

/-- Reading a run of decimal digits, most significant first. -/
def parseDigits : List Char → Nat → Option Nat
  | [], acc => some acc
  | c :: cs, acc =>
    match digitValue c with
    | some d => parseDigits cs (10 * acc + d)
    | none => none

/-- Strict reading of an unsigned decimal number: one digit at least, nothing but digits. -/
def parseUnsigned (cs : List Char) : Option Nat :=
  match cs with
  | [] => none
  | _ :: _ => parseDigits cs 0

/-- Strict reading of a signed decimal number. -/
def parseLong (cs : List Char) : Option Int :=
  match cs with
  | '-' :: rest => (parseUnsigned rest).map fun n => -(n : Int)
  | _ => (parseUnsigned cs).map Int.ofNat

/-- Return code of the simulated hub for an answer it cannot use. -/
abbrev DEVICE_SERIAL_INVALID_RESPONSE : Int := 16

/-- A simulated card on a simulated hub: it stores what is written and echoes it on query.
`pointer` is the text of the last pointer move; `fields` holds, newest first, what was
written to each field (`"CCA Y"`, ...) under each pointer text; `serialAnswer` is the answer to
the last command. -/
structure SimCard where
  addressChar : Char
  axisLetter : String
  pointer : List Char
  fields : List ((List Char × String) × List Char)
  serialAnswer : List Char
  deriving DecidableEq, Repr

/-- The fields of the sub-register the pointer is at. -/
def SimCard.fieldNames : List String := ["CCA Y", "CCA Z", "CCB X", "CCB Y", "CCB Z", "CCB F"]

/-- Whether the command is the query `<addr><f>?`. -/
def SimCard.isQuery (st : SimCard) (c : List Char) (f : String) : Bool :=
  c == st.addressChar :: (f.toList ++ ['?'])

/-- The text written, when the command is the write `<addr><f>=<text>`. -/
def SimCard.writeOf (st : SimCard) (c : List Char) (f : String) :
    Option (String × List Char) :=
  if (st.addressChar :: (f.toList ++ ['='])).isPrefixOf c then
    some (f, c.drop (f.toList.length + 2))
  else none

/-- The card receives a command and answers it. -/
def SimCard.receive (st : SimCard) (command : String) : SimCard :=
  let c := command.toList
  let move := ("M " ++ st.axisLetter ++ "=").toList
  if move.isPrefixOf c then
    { st with pointer := c.drop move.length, serialAnswer := ":A".toList }
  else if c = ("W " ++ st.axisLetter).toList then
    { st with serialAnswer := ":A".toList ++ st.pointer }
  else
    match SimCard.fieldNames.find? (st.isQuery c) with
    | some f =>
      { st with serialAnswer := ":A ".toList ++ (f.toList.drop 4 ++
                  '=' :: (st.fields.lookup (st.pointer, f)).getD ['0']) }
    | none =>
      match SimCard.fieldNames.findSome? (st.writeOf c) with
      | some (f, v) =>
        { st with fields := ((st.pointer, f), v) :: st.fields, serialAnswer := ":A".toList }
      | none => { st with serialAnswer := ":N-1".toList }

/-- The code of a parser of the simulated hub. -/
def simParsed {α : Type} (zero : α) : Option α → Int × α
  | some v => (DEVICE_OK, v)
  | none => (DEVICE_SERIAL_INVALID_RESPONSE, zero)

/-- The simulated hub: a command is sent to the simulated card, and the call succeeds when
the answer begins with the expected token.  The parsers read the last answer: after the
first `=`, after the first two characters, after the last `_`. -/
def simHub : Hub SimCard where
  QueryCommandVerify st command expected _ :=
    let st1 := st.receive command
    (if expected.toList.isPrefixOf st1.serialAnswer then DEVICE_OK
      else DEVICE_SERIAL_INVALID_RESPONSE, st1)
  ParseAnswerAfterEquals st :=
    simParsed 0 (parseLong ((st.serialAnswer.dropWhile fun ch => ch != '=').drop 1))
  ParseAnswerAfterPosition2 st := simParsed 0 (parseUnsigned (st.serialAnswer.drop 2))
  ParseAnswerAfterUnderscore st :=
    if st.serialAnswer.contains '_' then
      simParsed 0 (parseUnsigned (st.serialAnswer.reverse.takeWhile fun ch => ch != '_').reverse)
    else (DEVICE_SERIAL_INVALID_RESPONSE, 0)
  SetLastSerialAnswer st answer := { st with serialAnswer := answer.toList }

/-! ## Devices of the proofs -/

/-- The call `pProp->Set(tmp)` for a `long`, as the integer field handlers do it. -/
def SetLong (s : CPLogic σ) (pProp : PropName) (tmp : Int) : Bool × CPLogic σ :=
  PropSet s pProp (Value.int tmp)

/-- The common shape of the `BeforeGet` branches of the cell and IO handlers: the query text
and the way the decoded value is stored are the only things in which they differ. -/
def FieldRead (query : String) (store : CPLogic σ → PropName → Int → Bool × CPLogic σ)
    (hub : Hub σ) (s : CPLogic σ) (pProp : PropName) (index : Int) : Int × CPLogic σ :=
  if !s.refreshProps_ && s.initialized_ then (DEVICE_OK, s)
  else
    RETURN_ON_MM_ERROR (SetPosition hub s (toUnsigned index)) fun s1 =>
    RETURN_ON_MM_ERROR
      (QueryCommandVerify hub s1 (String.singleton s1.addressChar_ ++ query) ":A" 0)
      fun s2 =>
    RETURN_ON_MM_ERROR_parse (hub.ParseAnswerAfterEquals s2.hub_) s2 fun tmp =>
    SetOrInvalid (store s2 pProp tmp) fun s3 => (DEVICE_OK, s3)

/-- The common shape of the `AfterSet` branches of the cell and IO handlers, from the call of
`SetPosition` to the write command. -/
def FieldWrite (set : String) (tmp : Int) (hub : Hub σ) (s : CPLogic σ) (index : Int) :
    Int × CPLogic σ :=
  RETURN_ON_MM_ERROR (SetPosition hub s (toUnsigned index)) fun s1 =>
  RETURN_ON_MM_ERROR
    (QueryCommandVerify hub s1 (String.singleton s1.addressChar_ ++ set ++ toString tmp)
      ":A" 0)
    fun s2 => (DEVICE_OK, s2)

/-- The relation between the state `s` before and the state `s1` after some steps of the
adapter in which every field command was issued with the cached pointer at `n`, and which
changed neither the address, the axis letter, the flags nor the binding of any property. -/
structure Steps (n : Nat) (s s1 : CPLogic σ) : Prop where
  sent : ∃ l, s1.sent = s.sent ++ l ∧ ∀ b ∈ l, isFieldCommand b = true → b.position = n
  addressChar_ : s1.addressChar_ = s.addressChar_
  axisLetter_ : s1.axisLetter_ = s.axisLetter_
  refreshProps_ : s1.refreshProps_ = s.refreshProps_
  initialized_ : s1.initialized_ = s.initialized_
  action : ∀ name, (s1.properties_ name).map Property.action =
    (s.properties_ name).map Property.action

/-- The relation between the state `s` before and the state `s1` after some steps that left
the cell count and the property `target` (value, binding, table) alone. -/
structure Untouched (target : PropName) (s s1 : CPLogic σ) : Prop where
  numCells_ : s1.numCells_ = s.numCells_
  property : s1.properties_ target = s.properties_ target

/-- The action that `Initialize` or `OnAdvancedProperties` binds to a property (`none` for a
property that is created without action). -/
def BoundHandler : PropName → Option Handler
  | PropName.g_PointerPositionPropertyName => some Handler.OnPointerPosition
  | PropName.g_PLogicOutputStatePropertyName => some Handler.OnPLogicOutputState
  | PropName.g_FrontpanelOutputStatePropertyName => some Handler.OnPLogicOutputState
  | PropName.g_BackplaneOutputStatePropertyName => some Handler.OnPLogicOutputState
  | PropName.g_TriggerSourcePropertyName => some Handler.OnTriggerSource
  | PropName.g_RefreshPropValsPropertyName => some Handler.OnRefreshProperties
  | PropName.g_SaveSettingsPropertyName => some Handler.OnSaveCardSettings
  | PropName.g_AdvancedPropertiesPropertyName => some Handler.OnAdvancedProperties
  | PropName.Cell index suffix => some (CellHandler index suffix)
  | PropName.Frontpanel k => some (Handler.OnIOSourceAddress (k + 33 - 1))
  | PropName.Backplane k => some (Handler.OnIOSourceAddress (k + 41))
  | _ => none

/-- A freshly constructed driver on the scripted hub: card address `1`, axis letter `E`,
cached pointer 1, not yet initialized; `codes` are the codes the hub will return. -/
def freshCard (codes : List Int) : CPLogic (List Int) :=
  CPLogic_ctor codes '1' "31" (some "E")

/-- What the parts of the environment are in the examples: `PeripheralInitialize` succeeds
and publishes the given firmware build name. -/
def demoPeripheral (firmwareBuild : String) : Peripheral :=
  ⟨DEVICE_OK, firmwareBuild, "ASI programmable logic card"⟩

/-- The driver of the examples after `Initialize`, on a scripted hub whose parsers return
`value`. -/
def initializedCard (value : Nat) : CPLogic (List Int) :=
  (Initialize (demoPeripheral "PLOGIC_16") (scriptHub 0 value) (freshCard [])).2

/-- The driver of the examples after `Initialize` and after the advanced properties were
switched on (the toggle holds `g_YesState` when its handler runs for `AfterSet`). -/
def advancedCard (value : Nat) : CPLogic (List Int) :=
  (OnAdvancedProperties (scriptHub 0 value)
    (PropSet (initializedCard value) PropName.g_AdvancedPropertiesPropertyName
      (Value.str Str.g_YesState)).2
    PropName.g_AdvancedPropertiesPropertyName ActionType.AfterSet).2

/-- The driver of the examples after the refresh toggle was set to `g_YesState` (the
`AfterSet` branch of `OnRefreshProperties`). -/
def refreshingCard (value : Nat) : CPLogic (List Int) :=
  (OnRefreshProperties
    (PropSet (advancedCard value) PropName.g_RefreshPropValsPropertyName
      (Value.str Str.g_YesState)).2
    PropName.g_RefreshPropValsPropertyName ActionType.AfterSet).2

/-- The simulated card of the examples: address `1`, axis letter `E`, nothing written yet. -/
def simCard0 : SimCard := ⟨'1', "E", [], [], []⟩

/-- The scripted hub is given the codes it will return next. -/
def withCodes (s : CPLogic (List Int)) (codes : List Int) : CPLogic (List Int) :=
  { s with hub_ := codes }

/-- A write of `name` to the type property of cell `index` by a user of the device: the host
stores the value in the property object and then runs the handler for `MM::AfterSet`. -/
def WriteCellType (hub : Hub σ) (s : CPLogic σ) (index : Int) (name : Str) : Int × CPLogic σ :=
  OnCellType hub (PropSet s (GetCellPropertyName index CellSuffix._Type) (Value.str name)).2
    (GetCellPropertyName index CellSuffix._Type) ActionType.AfterSet index

/-- A read of the type property of cell `index` with refresh forced: the refresh flag is on
when the handler runs for `MM::BeforeGet`. -/
def ReadCellTypeForced (hub : Hub σ) (s : CPLogic σ) (index : Int) : Int × CPLogic σ :=
  OnCellType hub { s with refreshProps_ := true }
    (GetCellPropertyName index CellSuffix._Type) ActionType.BeforeGet index

/-- The driver of the examples on the simulated hub, after `Initialize` (two cells) and
after the advanced properties were switched on. -/
def simAdvancedCard : CPLogic SimCard :=
  (OnAdvancedProperties simHub
    (PropSet (Initialize (demoPeripheral "PLOGIC_2") simHub
        (CPLogic_ctor simCard0 '1' "31" (some "E"))).2
      PropName.g_AdvancedPropertiesPropertyName (Value.str Str.g_YesState)).2
    PropName.g_AdvancedPropertiesPropertyName ActionType.AfterSet).2

/-- The relation between a state `s` of a driver on the simulated hub and a later state `s1`
when, in between, the simulated card was only queried and no pointer move was made: the
card's pointer and stored fields, the cached pointer, the address and axis letter, the
property `target` and the binding of every property are the same, and `sent` has grown. -/
structure Quiet (target : PropName) (s s1 : CPLogic SimCard) : Prop where
  pointer : s1.hub_.pointer = s.hub_.pointer
  fields : s1.hub_.fields = s.hub_.fields
  cardAddress : s1.hub_.addressChar = s.hub_.addressChar
  cardAxis : s1.hub_.axisLetter = s.hub_.axisLetter
  currentPosition_ : s1.currentPosition_ = s.currentPosition_
  addressChar_ : s1.addressChar_ = s.addressChar_
  axisLetter_ : s1.axisLetter_ = s.axisLetter_
  property : s1.properties_ target = s.properties_ target
  action : ∀ name, (s1.properties_ name).map Property.action =
    (s.properties_ name).map Property.action
  sent : ∃ l, s1.sent = s.sent ++ l

/-! ## Vocabulary of the statements on the advanced properties -/

/-- The suffixes of the six properties of a cell, in the order of creation. -/
def cellSuffixes : List CellSuffix :=
  [CellSuffix._Type, CellSuffix._Config, CellSuffix._InputX, CellSuffix._InputY,
   CellSuffix._InputZ, CellSuffix._InputF]

/-- All the properties that `OnAdvancedProperties` creates exist: the six properties of each
cell `1..numCells_` and the source address of each of the sixteen IO channels. -/
def AdvancedExist (s : CPLogic σ) : Bool :=
  (List.range' 1 s.numCells_).all (fun i =>
    cellSuffixes.all fun suffix =>
      (s.properties_ (GetCellPropertyName i suffix)).isSome) &&
  (List.range' PLOGIC_FRONTPANEL_START_ADDRESS 8).all (fun i =>
    (s.properties_ (GetIOFrontpanelPropertyName i)).isSome) &&
  (List.range' PLOGIC_BACKPLANE_START_ADDRESS 8).all (fun i =>
    (s.properties_ (GetIOBackplanePropertyName i)).isSome)

/-- The relation between the state `s` before and the state `s1` after some steps that
removed no property and changed neither the cell count nor any binding that existed. -/
structure Grows (s s1 : CPLogic σ) : Prop where
  numCells_ : s1.numCells_ = s.numCells_
  present : ∀ name, (s.properties_ name).isSome = true → (s1.properties_ name).isSome = true

/-- The relation between the state `s` before and the state `s1` after some steps that
created and removed no property and changed neither the cell count nor the binding of any
property. -/
structure SameProperties (s s1 : CPLogic σ) : Prop where
  numCells_ : s1.numCells_ = s.numCells_
  action : ∀ name, (s1.properties_ name).map Property.action =
    (s.properties_ name).map Property.action

/-- The steps from `s` to `s1` removed nothing, and the listed properties exist afterwards. -/
def GrowsWith (names : List PropName) (s s1 : CPLogic σ) : Prop :=
  Grows s s1 ∧ ∀ name ∈ names, (s1.properties_ name).isSome = true

/-! ## Basic facts about the building blocks -/

theorem RETURN_ON_MM_ERROR_ok (r : Int × CPLogic σ) (next : CPLogic σ → Int × CPLogic σ)
    (h : r.1 = DEVICE_OK) : RETURN_ON_MM_ERROR r next = next r.2 := by
  simp [RETURN_ON_MM_ERROR, h]

theorem RETURN_ON_MM_ERROR_fail (r : Int × CPLogic σ) (next : CPLogic σ → Int × CPLogic σ)
    (h : r.1 ≠ DEVICE_OK) : RETURN_ON_MM_ERROR r next = r := by
  simp [RETURN_ON_MM_ERROR, h]

theorem issued_self (s : CPLogic σ) : issued s s = [] := by
  simp [issued]

theorem issued_of_append (s s1 : CPLogic σ) (l : List BusCommand)
    (h : s1.sent = s.sent ++ l) : issued s s1 = l := by
  simp [issued, h]

theorem QueryCommandVerify_sent (hub : Hub σ) (s : CPLogic σ) (command expected : String)
    (delayMs : Nat) :
    (QueryCommandVerify hub s command expected delayMs).2.sent =
      s.sent ++ [⟨command, expected, delayMs, s.currentPosition_⟩] := rfl

theorem PropSet_frame (s : CPLogic σ) (pProp : PropName) (v : Value) :
    (PropSet s pProp v).2 = { s with properties_ := (PropSet s pProp v).2.properties_ } := by
  unfold PropSet
  cases s.properties_ pProp <;> rfl

theorem PropSet_ok (s : CPLogic σ) (pProp : PropName) (v : Value) :
    (PropSet s pProp v).1 = true := by
  unfold PropSet
  cases s.properties_ pProp <;> rfl

theorem SetProperty_frame (s : CPLogic σ) (name : PropName) (v : Value) :
    (SetProperty s name v).2 =
      { s with properties_ := (SetProperty s name v).2.properties_ } := by
  unfold SetProperty
  cases s.properties_ name with
  | none => rfl
  | some p =>
    simp only
    split
    · rfl
    · split
      · exact PropSet_frame s name v
      · rfl

theorem SetPosition_hit (hub : Hub σ) (s : CPLogic σ) (N : Nat)
    (h : s.currentPosition_ = N) : SetPosition hub s N = (DEVICE_OK, s) := by
  simp [SetPosition, h]

theorem SetPosition_fail (hub : Hub σ) (s : CPLogic σ) (N : Nat)
    (h : s.currentPosition_ ≠ N)
    (hq : (hub.QueryCommandVerify s.hub_ ("M " ++ s.axisLetter_ ++ "=" ++ toString N)
              ":A" 0).1 ≠ DEVICE_OK) :
    SetPosition hub s N =
      QueryCommandVerify hub s ("M " ++ s.axisLetter_ ++ "=" ++ toString N) ":A" 0 := by
  unfold SetPosition
  rw [if_neg (fun e => h e.symm)]
  exact RETURN_ON_MM_ERROR_fail _ _ hq

/-- The state after a pointer move that the hub acknowledged. -/
theorem SetPosition_move (hub : Hub σ) (s : CPLogic σ) (N : Nat)
    (h : s.currentPosition_ ≠ N)
    (hq : (hub.QueryCommandVerify s.hub_ ("M " ++ s.axisLetter_ ++ "=" ++ toString N)
              ":A" 0).1 = DEVICE_OK) :
    SetPosition hub s N =
      (DEVICE_OK,
        { s with
          hub_ := (hub.QueryCommandVerify s.hub_ ("M " ++ s.axisLetter_ ++ "=" ++ toString N)
                    ":A" 0).2
          sent := s.sent ++
            [⟨"M " ++ s.axisLetter_ ++ "=" ++ toString N, ":A", 0, s.currentPosition_⟩]
          currentPosition_ := N
          properties_ := (SetPosition hub s N).2.properties_ }) := by
  unfold SetPosition
  rw [if_neg (fun e => h e.symm), RETURN_ON_MM_ERROR_ok _ _ hq]
  simp only [Prod.mk.injEq, true_and]
  rw [SetProperty_frame]
  rfl

/-! ## C1: two pointer moves in a row -/

theorem Steps.refl (n : Nat) (s : CPLogic σ) : Steps n s s :=
  ⟨⟨[], by simp, by simp⟩, rfl, rfl, rfl, rfl, fun _ => rfl⟩

theorem Steps.trans {n : Nat} {s s1 s2 : CPLogic σ} (h1 : Steps n s s1)
    (h2 : Steps n s1 s2) : Steps n s s2 := by
  obtain ⟨l1, e1, f1⟩ := h1.sent
  obtain ⟨l2, e2, f2⟩ := h2.sent
  refine ⟨⟨l1 ++ l2, by rw [e2, e1, List.append_assoc], ?_⟩, ?_, ?_, ?_, ?_, ?_⟩
  · intro b hb
    rcases List.mem_append.1 hb with hb | hb
    · exact f1 b hb
    · exact f2 b hb
  · rw [h2.addressChar_, h1.addressChar_]
  · rw [h2.axisLetter_, h1.axisLetter_]
  · rw [h2.refreshProps_, h1.refreshProps_]
  · rw [h2.initialized_, h1.initialized_]
  · intro name
    rw [h2.action, h1.action]

theorem isFieldCommand_move (axis tail expected : String) (d k : Nat) :
    isFieldCommand ⟨"M " ++ axis ++ tail, expected, d, k⟩ = false := by
  simp [isFieldCommand, String.toList, String.data_append, List.isPrefixOf]

theorem Steps_query_at (hub : Hub σ) (s : CPLogic σ) (command expected : String) (d : Nat) :
    Steps s.currentPosition_ s (QueryCommandVerify hub s command expected d).2 :=
  ⟨⟨[⟨command, expected, d, s.currentPosition_⟩], rfl, by simp⟩, rfl, rfl, rfl, rfl,
    fun _ => rfl⟩

theorem Steps_query_other (n : Nat) (hub : Hub σ) (s : CPLogic σ)
    (command expected : String) (d : Nat)
    (h : isFieldCommand ⟨command, expected, d, s.currentPosition_⟩ = false) :
    Steps n s (QueryCommandVerify hub s command expected d).2 :=
  ⟨⟨[⟨command, expected, d, s.currentPosition_⟩], rfl, by simp [h]⟩, rfl, rfl, rfl, rfl,
    fun _ => rfl⟩

theorem PropSet_action (s : CPLogic σ) (pProp : PropName) (v : Value) (name : PropName) :
    ((PropSet s pProp v).2.properties_ name).map Property.action =
      (s.properties_ name).map Property.action := by
  unfold PropSet
  cases h : s.properties_ pProp with
  | none => simp
  | some p =>
    by_cases e : name = pProp
    · subst e
      simp [h]
    · simp [Function.update_noteq e]

theorem Steps_PropSet (n : Nat) (s : CPLogic σ) (pProp : PropName) (v : Value) :
    Steps n s (PropSet s pProp v).2 := by
  refine ⟨⟨[], ?_, by simp⟩, ?_, ?_, ?_, ?_, PropSet_action s pProp v⟩ <;>
    (rw [PropSet_frame]; try simp)

theorem Steps_SetProperty (n : Nat) (s : CPLogic σ) (name : PropName) (v : Value) :
    Steps n s (SetProperty s name v).2 := by
  unfold SetProperty
  cases s.properties_ name with
  | none => exact Steps.refl n s
  | some p =>
    simp only
    split
    · exact Steps.refl n s
    · split
      · exact Steps_PropSet n s name v
      · exact Steps.refl n s

theorem Steps_currentPosition (n m : Nat) (s : CPLogic σ) :
    Steps n s { s with currentPosition_ := m } :=
  ⟨⟨[], by simp, by simp⟩, rfl, rfl, rfl, rfl, fun _ => rfl⟩

theorem Steps_SetPosition (n : Nat) (hub : Hub σ) (s : CPLogic σ) (m : Nat) :
    Steps n s (SetPosition hub s m).2 := by
  unfold SetPosition
  split
  · exact Steps.refl n s
  · have hq := Steps_query_other n hub s ("M " ++ s.axisLetter_ ++ "=" ++ toString m) ":A" 0
      (by
        have := isFieldCommand_move s.axisLetter_ ("=" ++ toString m) ":A" 0
          s.currentPosition_
        simpa [String.append_assoc] using this)
    unfold RETURN_ON_MM_ERROR
    split
    · exact hq
    · exact hq.trans ((Steps_currentPosition n m _).trans (Steps_SetProperty n _ _ _))

theorem SetPosition_currentPosition (hub : Hub σ) (s : CPLogic σ) (m : Nat)
    (h : (SetPosition hub s m).1 = DEVICE_OK) : (SetPosition hub s m).2.currentPosition_ = m := by
  by_cases e : s.currentPosition_ = m
  · rw [SetPosition_hit hub s m e]
    exact e
  · by_cases hq : (hub.QueryCommandVerify s.hub_ ("M " ++ s.axisLetter_ ++ "=" ++ toString m)
        ":A" 0).1 = DEVICE_OK
    · rw [SetPosition_move hub s m e hq]
    · rw [SetPosition_fail hub s m e hq] at h
      exact absurd h hq

theorem SetOrInvalid_snd (r : Bool × CPLogic σ) :
    (SetOrInvalid r fun s3 => (DEVICE_OK, s3)).2 = r.2 := by
  unfold SetOrInvalid
  split <;> rfl

theorem OnCellConfig_BeforeGet (hub : Hub σ) (s : CPLogic σ) (pProp : PropName)
    (index : Int) :
    OnCellConfig hub s pProp ActionType.BeforeGet index =
      FieldRead "CCA Z?" SetLong hub s pProp index := rfl

theorem OnInputX_BeforeGet (hub : Hub σ) (s : CPLogic σ) (pProp : PropName) (index : Int) :
    OnInputX hub s pProp ActionType.BeforeGet index =
      FieldRead "CCB X?" SetLong hub s pProp index := rfl

theorem OnInputY_BeforeGet (hub : Hub σ) (s : CPLogic σ) (pProp : PropName) (index : Int) :
    OnInputY hub s pProp ActionType.BeforeGet index =
      FieldRead "CCB Y?" SetLong hub s pProp index := rfl

theorem OnInputZ_BeforeGet (hub : Hub σ) (s : CPLogic σ) (pProp : PropName) (index : Int) :
    OnInputZ hub s pProp ActionType.BeforeGet index =
      FieldRead "CCB Z?" SetLong hub s pProp index := rfl

theorem OnInputF_BeforeGet (hub : Hub σ) (s : CPLogic σ) (pProp : PropName) (index : Int) :
    OnInputF hub s pProp ActionType.BeforeGet index =
      FieldRead "CCB F?" SetLong hub s pProp index := rfl

theorem OnIOSourceAddress_BeforeGet (hub : Hub σ) (s : CPLogic σ) (pProp : PropName)
    (index : Int) :
    OnIOSourceAddress hub s pProp ActionType.BeforeGet index =
      FieldRead "CCA Z?" SetLong hub s pProp index := rfl

theorem OnCellConfig_AfterSet (hub : Hub σ) (s : CPLogic σ) (pProp : PropName)
    (index : Int) :
    OnCellConfig hub s pProp ActionType.AfterSet index =
      FieldWrite "CCA Z=" (PropGetLong s pProp) hub s index := rfl

theorem OnInputX_AfterSet (hub : Hub σ) (s : CPLogic σ) (pProp : PropName) (index : Int) :
    OnInputX hub s pProp ActionType.AfterSet index =
      FieldWrite "CCB X=" (PropGetLong s pProp) hub s index := rfl

theorem OnInputY_AfterSet (hub : Hub σ) (s : CPLogic σ) (pProp : PropName) (index : Int) :
    OnInputY hub s pProp ActionType.AfterSet index =
      FieldWrite "CCB Y=" (PropGetLong s pProp) hub s index := rfl

theorem OnInputZ_AfterSet (hub : Hub σ) (s : CPLogic σ) (pProp : PropName) (index : Int) :
    OnInputZ hub s pProp ActionType.AfterSet index =
      FieldWrite "CCB Z=" (PropGetLong s pProp) hub s index := rfl

theorem OnInputF_AfterSet (hub : Hub σ) (s : CPLogic σ) (pProp : PropName) (index : Int) :
    OnInputF hub s pProp ActionType.AfterSet index =
      FieldWrite "CCB F=" (PropGetLong s pProp) hub s index := rfl

theorem OnIOSourceAddress_AfterSet (hub : Hub σ) (s : CPLogic σ) (pProp : PropName)
    (index : Int) :
    OnIOSourceAddress hub s pProp ActionType.AfterSet index =
      FieldWrite "CCA Z=" (PropGetLong s pProp) hub s index := rfl

/-! The nested reads of `RefreshCellPropertyValues`. -/

theorem BoundAt_of_action {s s1 : CPLogic σ} (index : Int) (suffix : CellSuffix)
    (h : ∀ name, (s1.properties_ name).map Property.action =
      (s.properties_ name).map Property.action) :
    BoundAt s1 index suffix = BoundAt s index suffix := by
  have e := h (GetCellPropertyName index suffix)
  unfold BoundAt
  cases h1 : s1.properties_ (GetCellPropertyName index suffix) <;>
    cases h0 : s.properties_ (GetCellPropertyName index suffix) <;>
    simp_all

/-- C3, as stated, fails for the output-state properties: after `Initialize`, with the
refresh flag false, a read of the internal output-state property issues the bus command
`1RDADC Z?` and replaces the cached value 7 by the new reading 9.  It also fails for the
read of the pointer position that ends a pointer write (`justSet` is then true): that read
issues `W E` and replaces the cached pointer 7 by the reading 9. -/
theorem output_state_read_is_not_cached :
    (initializedCard 7).refreshProps_ = false ∧ (initializedCard 7).initialized_ = true ∧
    BoundHandler PropName.g_PLogicOutputStatePropertyName = some Handler.OnPLogicOutputState ∧
    PropValue (initializedCard 7) PropName.g_PLogicOutputStatePropertyName
      = some (Value.int 7) ∧
    issued (initializedCard 7)
      (ExecuteBeforeGet (scriptHub 0 9) (initializedCard 7)
        PropName.g_PLogicOutputStatePropertyName Handler.OnPLogicOutputState).2
      = [⟨"1RDADC Z?", ":A", 0, 7⟩] ∧
    PropValue
      (ExecuteBeforeGet (scriptHub 0 9) (initializedCard 7)
        PropName.g_PLogicOutputStatePropertyName Handler.OnPLogicOutputState).2
      PropName.g_PLogicOutputStatePropertyName = some (Value.int 9) ∧
    issued (initializedCard 7)
      (ExecuteBeforeGet (scriptHub 0 9) { initializedCard 7 with justSet := true }
        PropName.g_PointerPositionPropertyName Handler.OnPointerPosition).2
      = [⟨"W E", ":A", 0, 7⟩] ∧
    (ExecuteBeforeGet (scriptHub 0 9) { initializedCard 7 with justSet := true }
      PropName.g_PointerPositionPropertyName Handler.OnPointerPosition).2.currentPosition_
      = 9 := by
  decide

theorem output_state_read_issued (hub : Hub σ) (s : CPLogic σ) (pProp : PropName) :
    issued s (OnPLogicOutputState hub s pProp ActionType.BeforeGet).2 =
      [⟨String.singleton s.addressChar_ ++ "RDADC Z?", ":A", 0, s.currentPosition_⟩] := by
  apply issued_of_append
  simp only [OnPLogicOutputState, true_or, if_true]
  unfold RETURN_ON_MM_ERROR
  split
  · rfl
  · unfold RETURN_ON_MM_ERROR_parse
    dsimp only
    split
    · rfl
    · rw [SetOrInvalid_snd, PropSet_frame]
      rfl

/-- C3, amended: when the refresh flag is false, the device has completed initialization and
no pointer write is under way (`justSet` false): for every property other than the three
output-state snapshots (pointer position, trigger source, cell type, cell config, cell
inputs, IO source address, and the refresh, save-settings and advanced-properties toggles)
the read through the handler bound to the property returns `DEVICE_OK`, issues no bus
command and leaves the whole driver state as it was, cached value, refresh flag and cached
pointer included; for the three output-state properties the read issues the snapshot command
`<addr>RDADC Z?` all the same. -/
theorem cached_read_changes_nothing (hub : Hub σ) (s : CPLogic σ) (name : PropName)
    (h : Handler) (hb : BoundHandler name = some h)
    (hr : s.refreshProps_ = false) (hi : s.initialized_ = true) (hj : s.justSet = false) :
    (h ≠ Handler.OnPLogicOutputState →
      ExecuteBeforeGet hub s name h = (DEVICE_OK, s) ∧
      issued s (ExecuteBeforeGet hub s name h).2 = [] ∧
      PropValue (ExecuteBeforeGet hub s name h).2 name = PropValue s name ∧
      (ExecuteBeforeGet hub s name h).2.refreshProps_ = s.refreshProps_ ∧
      (ExecuteBeforeGet hub s name h).2.currentPosition_ = s.currentPosition_) ∧
    (h = Handler.OnPLogicOutputState →
      issued s (ExecuteBeforeGet hub s name h).2 =
        [⟨String.singleton s.addressChar_ ++ "RDADC Z?", ":A", 0, s.currentPosition_⟩]) := by
  constructor
  · intro hne
    have key : ExecuteBeforeGet hub s name h = (DEVICE_OK, s) := by
      cases name <;> simp only [BoundHandler, Option.some.injEq, reduceCtorEq] at hb
      case Cell index suffix =>
        subst hb
        cases suffix <;>
          simp [CellHandler, ExecuteBeforeGet, OnCellType_BeforeGet, OnCellConfig, OnInputX,
            OnInputY, OnInputZ, OnInputF, hr, hi]
      all_goals
        subst hb
        first
        | exact absurd rfl hne
        | simp [ExecuteBeforeGet, OnPointerPosition, OnPointerPosition_BeforeGet,
            OnTriggerSource, OnRefreshProperties, OnSaveCardSettings, OnIOSourceAddress, hr, hi,
            hj]
    rw [key]
    exact ⟨rfl, issued_self s, rfl, rfl, rfl⟩
  · intro he
    subst he
    exact output_state_read_issued hub s name

/-- C3, amended, at an instance: the read of the trigger source after `Initialize`. -/
theorem cached_read_changes_nothing_witness :
    (initializedCard 3).refreshProps_ = false ∧ (initializedCard 3).initialized_ = true ∧
    ExecuteBeforeGet (scriptHub 0 9) (initializedCard 3) PropName.g_TriggerSourcePropertyName
      Handler.OnTriggerSource = (DEVICE_OK, initializedCard 3) :=
  ⟨by decide, by decide,
    ((cached_read_changes_nothing (scriptHub 0 9) (initializedCard 3)
      PropName.g_TriggerSourcePropertyName Handler.OnTriggerSource rfl
      (by decide) (by decide) (by decide)).1 (by decide)).1⟩

/-! ## C4: decoding of enumerated fields -/

theorem PropSet_properties_ne (s : CPLogic σ) (pProp : PropName) (v : Value)
    (name : PropName) (h : name ≠ pProp) :
    (PropSet s pProp v).2.properties_ name = s.properties_ name := by
  unfold PropSet
  cases s.properties_ pProp with
  | none => rfl
  | some p => exact Function.update_noteq h _ _

theorem PropSet_value (s : CPLogic σ) (pProp : PropName) (v : Value)
    (h : (s.properties_ pProp).isSome = true) :
    PropValue (PropSet s pProp v).2 pProp = some v := by
  unfold PropSet PropValue
  cases hp : s.properties_ pProp with
  | none => rw [hp] at h; cases h
  | some p => simp

theorem SetProperty_properties_ne (s : CPLogic σ) (pProp : PropName) (v : Value)
    (name : PropName) (h : name ≠ pProp) :
    (SetProperty s pProp v).2.properties_ name = s.properties_ name := by
  unfold SetProperty
  cases s.properties_ pProp with
  | none => rfl
  | some p =>
    dsimp only
    split
    · rfl
    · split
      · exact PropSet_properties_ne s pProp v name h
      · rfl

theorem SetPosition_properties_ne (hub : Hub σ) (s : CPLogic σ) (n : Nat) (name : PropName)
    (h : name ≠ PropName.g_PointerPositionPropertyName) :
    (SetPosition hub s n).2.properties_ name = s.properties_ name := by
  unfold SetPosition
  split
  · rfl
  · unfold RETURN_ON_MM_ERROR
    split
    · rfl
    · exact SetProperty_properties_ne _ _ _ name h

theorem SetSourceCode_of_entry (s : CPLogic σ) (pProp : PropName) (entry : Str × Int)
    (h : entry ∈ SourceAllowed) :
    SetSourceCode s pProp entry.2 = PropSet s pProp (Value.str entry.1) := by
  simp only [SourceAllowed, List.mem_cons, List.mem_singleton, List.not_mem_nil,
    or_false] at h
  rcases h with rfl | rfl | rfl | rfl | rfl <;> rfl

theorem SetSourceCode_of_mem (s : CPLogic σ) (pProp : PropName) (code : Int) (name : Str)
    (h : (name, code) ∈ SourceAllowed) :
    SetSourceCode s pProp code = PropSet s pProp (Value.str name) :=
  SetSourceCode_of_entry s pProp (name, code) h

theorem SetSourceCode_out_of_range (s : CPLogic σ) (pProp : PropName) (code : Int)
    (h : ¬(0 ≤ code ∧ code ≤ 4)) : SetSourceCode s pProp code = (false, s) := by
  unfold SetSourceCode
  have h0 : code ≠ 0 := by omega
  have h1 : code ≠ 1 := by omega
  have h2 : code ≠ 2 := by omega
  have h3 : code ≠ 3 := by omega
  have h4 : code ≠ 4 := by omega
  simp [h0, h1, h2, h3, h4]

theorem SetTypeCode_of_entry (s : CPLogic σ) (pProp : PropName) (entry : Str × Int)
    (h : entry ∈ CellTypeAllowed) :
    SetTypeCode s pProp entry.2 = PropSet s pProp (Value.str entry.1) := by
  simp only [CellTypeAllowed, List.mem_cons, List.mem_singleton, List.not_mem_nil,
    or_false] at h
  rcases h with rfl | rfl | rfl | rfl | rfl | rfl | rfl | rfl | rfl | rfl <;> rfl

theorem SetTypeCode_of_mem (s : CPLogic σ) (pProp : PropName) (code : Int) (name : Str)
    (h : (name, code) ∈ CellTypeAllowed) :
    SetTypeCode s pProp code = PropSet s pProp (Value.str name) :=
  SetTypeCode_of_entry s pProp (name, code) h

theorem SetTypeCode_out_of_range (s : CPLogic σ) (pProp : PropName) (code : Int)
    (h : ¬(0 ≤ code ∧ code ≤ 9)) : SetTypeCode s pProp code = (false, s) := by
  unfold SetTypeCode
  have h0 : code ≠ 0 := by omega
  have h1 : code ≠ 1 := by omega
  have h2 : code ≠ 2 := by omega
  have h3 : code ≠ 3 := by omega
  have h4 : code ≠ 4 := by omega
  have h5 : code ≠ 5 := by omega
  have h6 : code ≠ 6 := by omega
  have h7 : code ≠ 7 := by omega
  have h8 : code ≠ 8 := by omega
  have h9 : code ≠ 9 := by omega
  simp [h0, h1, h2, h3, h4, h5, h6, h7, h8, h9]

theorem SourceAllowed_range (code : Int) :
    (∃ name, (name, code) ∈ SourceAllowed) ↔ (0 ≤ code ∧ code ≤ 4) := by
  constructor
  · rintro ⟨name, h⟩
    simp only [SourceAllowed, List.mem_cons, Prod.mk.injEq, List.mem_singleton,
      List.not_mem_nil, or_false] at h
    omega
  · rintro ⟨h0, h4⟩
    interval_cases code
    · exact ⟨Str.g_SourceCode0, by decide⟩
    · exact ⟨Str.g_SourceCode1, by decide⟩
    · exact ⟨Str.g_SourceCode2, by decide⟩
    · exact ⟨Str.g_SourceCode3, by decide⟩
    · exact ⟨Str.g_SourceCode4, by decide⟩

theorem CellTypeAllowed_range (code : Int) :
    (∃ name, (name, code) ∈ CellTypeAllowed) ↔ (0 ≤ code ∧ code ≤ 9) := by
  constructor
  · rintro ⟨name, h⟩
    simp only [CellTypeAllowed, List.mem_cons, Prod.mk.injEq, List.mem_singleton,
      List.not_mem_nil, or_false] at h
    omega
  · rintro ⟨h0, h9⟩
    interval_cases code
    · exact ⟨Str.g_TypeCode0, by decide⟩
    · exact ⟨Str.g_TypeCode1, by decide⟩
    · exact ⟨Str.g_TypeCode2, by decide⟩
    · exact ⟨Str.g_TypeCode3, by decide⟩
    · exact ⟨Str.g_TypeCode4, by decide⟩
    · exact ⟨Str.g_TypeCode5, by decide⟩
    · exact ⟨Str.g_TypeCode6, by decide⟩
    · exact ⟨Str.g_TypeCode7, by decide⟩
    · exact ⟨Str.g_TypeCode8, by decide⟩
    · exact ⟨Str.g_TypeCode9, by decide⟩

theorem SetOrInvalid_PropSet (s : CPLogic σ) (pProp : PropName) (v : Value) :
    (SetOrInvalid (PropSet s pProp v) fun s3 => (DEVICE_OK, s3)) =
      (DEVICE_OK, (PropSet s pProp v).2) := by
  simp [SetOrInvalid, PropSet_ok]

theorem SetOrInvalid_refused (s : CPLogic σ) :
    (SetOrInvalid ((false, s) : Bool × CPLogic σ) fun s3 => (DEVICE_OK, s3)) =
      (DEVICE_INVALID_PROPERTY_VALUE, s) := by
  simp [SetOrInvalid]

/-- The forced read of the trigger source, once the query is acknowledged and the answer
parsed. -/
theorem OnTriggerSource_read (hub : Hub σ) (s : CPLogic σ) (pProp : PropName) (code : Int)
    (hforce : (!s.refreshProps_ && s.initialized_) = false)
    (hq : (hub.QueryCommandVerify s.hub_ ("PM " ++ s.axisLetter_ ++ "?") s.axisLetter_ 0).1
      = DEVICE_OK)
    (hp : hub.ParseAnswerAfterEquals
      (hub.QueryCommandVerify s.hub_ ("PM " ++ s.axisLetter_ ++ "?") s.axisLetter_ 0).2
      = (DEVICE_OK, code)) :
    OnTriggerSource hub s pProp ActionType.BeforeGet =
      SetOrInvalid
        (SetSourceCode
          (QueryCommandVerify hub s ("PM " ++ s.axisLetter_ ++ "?") s.axisLetter_ 0).2
          pProp code)
        fun s3 => (DEVICE_OK, s3) := by
  have hq1 : (QueryCommandVerify hub s ("PM " ++ s.axisLetter_ ++ "?") s.axisLetter_ 0).1
      = DEVICE_OK := hq
  have hp1 : hub.ParseAnswerAfterEquals
      (QueryCommandVerify hub s ("PM " ++ s.axisLetter_ ++ "?") s.axisLetter_ 0).2.hub_
      = (DEVICE_OK, code) := hp
  simp only [OnTriggerSource, if_true, hforce, Bool.false_eq_true, if_false]
  rw [RETURN_ON_MM_ERROR_ok _ _ hq1]
  simp [RETURN_ON_MM_ERROR_parse, hp1]

/-- The forced read of a cell type, once the pointer is in place, the query is acknowledged
and the answer parsed. -/
theorem OnCellType_read (hub : Hub σ) (s : CPLogic σ) (pProp : PropName) (index code : Int)
    (hforce : (!s.refreshProps_ && s.initialized_) = false)
    (hm : (SetPosition hub s (toUnsigned index)).1 = DEVICE_OK)
    (hq : (hub.QueryCommandVerify (SetPosition hub s (toUnsigned index)).2.hub_
      (String.singleton s.addressChar_ ++ "CCA Y?") ":A" 0).1 = DEVICE_OK)
    (hp : hub.ParseAnswerAfterEquals
      (hub.QueryCommandVerify (SetPosition hub s (toUnsigned index)).2.hub_
        (String.singleton s.addressChar_ ++ "CCA Y?") ":A" 0).2 = (DEVICE_OK, code)) :
    OnCellType hub s pProp ActionType.BeforeGet index =
      SetOrInvalid
        (SetTypeCode
          (QueryCommandVerify hub (SetPosition hub s (toUnsigned index)).2
            (String.singleton s.addressChar_ ++ "CCA Y?") ":A" 0).2
          pProp code)
        fun s3 => (DEVICE_OK, s3) := by
  have ha := (Steps_SetPosition 0 hub s (toUnsigned index)).addressChar_
  have hq1 : (QueryCommandVerify hub (SetPosition hub s (toUnsigned index)).2
      (String.singleton s.addressChar_ ++ "CCA Y?") ":A" 0).1 = DEVICE_OK := hq
  have hp1 : hub.ParseAnswerAfterEquals
      (QueryCommandVerify hub (SetPosition hub s (toUnsigned index)).2
        (String.singleton s.addressChar_ ++ "CCA Y?") ":A" 0).2.hub_ = (DEVICE_OK, code) := hp
  simp only [OnCellType, if_true, OnCellType_BeforeGet, hforce, Bool.false_eq_true, if_false]
  rw [RETURN_ON_MM_ERROR_ok _ _ hm, ha, RETURN_ON_MM_ERROR_ok _ _ hq1]
  simp [RETURN_ON_MM_ERROR_parse, hp1]

/-- C4: on a forced read, once the hardware has answered with the integer `code`: the read of
the trigger source succeeds if and only if `code` is in `0..4`, and then the property holds
the name of `code`; the read of a cell type succeeds if and only if `code` is in `0..9`, and
then the property holds the name of `code`; for any other code the read returns
`DEVICE_INVALID_PROPERTY_VALUE` and the property keeps the value it had. -/
theorem enumerated_read_decodes_or_rejects (hub : Hub σ) (s : CPLogic σ) (index code : Int)
    (hforce : (!s.refreshProps_ && s.initialized_) = false) :
    ((s.properties_ PropName.g_TriggerSourcePropertyName).isSome = true →
      (hub.QueryCommandVerify s.hub_ ("PM " ++ s.axisLetter_ ++ "?") s.axisLetter_ 0).1
        = DEVICE_OK →
      hub.ParseAnswerAfterEquals
        (hub.QueryCommandVerify s.hub_ ("PM " ++ s.axisLetter_ ++ "?") s.axisLetter_ 0).2
        = (DEVICE_OK, code) →
      ((OnTriggerSource hub s PropName.g_TriggerSourcePropertyName ActionType.BeforeGet).1
          = DEVICE_OK ↔ (0 ≤ code ∧ code ≤ 4)) ∧
      (∀ name, (name, code) ∈ SourceAllowed →
        PropValue
          (OnTriggerSource hub s PropName.g_TriggerSourcePropertyName ActionType.BeforeGet).2
          PropName.g_TriggerSourcePropertyName = some (Value.str name)) ∧
      (¬(0 ≤ code ∧ code ≤ 4) →
        (OnTriggerSource hub s PropName.g_TriggerSourcePropertyName ActionType.BeforeGet).1
          = DEVICE_INVALID_PROPERTY_VALUE ∧
        PropValue
          (OnTriggerSource hub s PropName.g_TriggerSourcePropertyName ActionType.BeforeGet).2
          PropName.g_TriggerSourcePropertyName
          = PropValue s PropName.g_TriggerSourcePropertyName)) ∧
    ((s.properties_ (GetCellPropertyName index CellSuffix._Type)).isSome = true →
      (SetPosition hub s (toUnsigned index)).1 = DEVICE_OK →
      (hub.QueryCommandVerify (SetPosition hub s (toUnsigned index)).2.hub_
        (String.singleton s.addressChar_ ++ "CCA Y?") ":A" 0).1 = DEVICE_OK →
      hub.ParseAnswerAfterEquals
        (hub.QueryCommandVerify (SetPosition hub s (toUnsigned index)).2.hub_
          (String.singleton s.addressChar_ ++ "CCA Y?") ":A" 0).2 = (DEVICE_OK, code) →
      ((OnCellType hub s (GetCellPropertyName index CellSuffix._Type) ActionType.BeforeGet
          index).1 = DEVICE_OK ↔ (0 ≤ code ∧ code ≤ 9)) ∧
      (∀ name, (name, code) ∈ CellTypeAllowed →
        PropValue
          (OnCellType hub s (GetCellPropertyName index CellSuffix._Type) ActionType.BeforeGet
            index).2
          (GetCellPropertyName index CellSuffix._Type) = some (Value.str name)) ∧
      (¬(0 ≤ code ∧ code ≤ 9) →
        (OnCellType hub s (GetCellPropertyName index CellSuffix._Type) ActionType.BeforeGet
          index).1 = DEVICE_INVALID_PROPERTY_VALUE ∧
        PropValue
          (OnCellType hub s (GetCellPropertyName index CellSuffix._Type) ActionType.BeforeGet
            index).2
          (GetCellPropertyName index CellSuffix._Type)
          = PropValue s (GetCellPropertyName index CellSuffix._Type))) := by
  constructor
  · intro hex hq hp
    rw [OnTriggerSource_read hub s _ code hforce hq hp]
    have hin : ∀ name, (name, code) ∈ SourceAllowed →
        (SetOrInvalid (SetSourceCode
          (QueryCommandVerify hub s ("PM " ++ s.axisLetter_ ++ "?") s.axisLetter_ 0).2
          PropName.g_TriggerSourcePropertyName code) fun s3 => (DEVICE_OK, s3)) =
        (DEVICE_OK, (PropSet
          (QueryCommandVerify hub s ("PM " ++ s.axisLetter_ ++ "?") s.axisLetter_ 0).2
          PropName.g_TriggerSourcePropertyName (Value.str name)).2) := by
      intro name hn
      rw [SetSourceCode_of_mem _ _ code name hn, SetOrInvalid_PropSet]
    have hout : ¬(0 ≤ code ∧ code ≤ 4) →
        (SetOrInvalid (SetSourceCode
          (QueryCommandVerify hub s ("PM " ++ s.axisLetter_ ++ "?") s.axisLetter_ 0).2
          PropName.g_TriggerSourcePropertyName code) fun s3 => (DEVICE_OK, s3)) =
        (DEVICE_INVALID_PROPERTY_VALUE,
          (QueryCommandVerify hub s ("PM " ++ s.axisLetter_ ++ "?") s.axisLetter_ 0).2) := by
      intro hn
      rw [SetSourceCode_out_of_range _ _ code hn, SetOrInvalid_refused]
    refine ⟨⟨?_, ?_⟩, ?_, ?_⟩
    · intro hok
      by_contra hn
      rw [hout hn] at hok
      have h3 : (DEVICE_INVALID_PROPERTY_VALUE : Int) ≠ DEVICE_OK := by decide
      exact h3 hok
    · intro hr
      obtain ⟨name, hn⟩ := (SourceAllowed_range code).2 hr
      rw [hin name hn]
    · intro name hn
      rw [hin name hn]
      exact PropSet_value _ _ _ hex
    · intro hn
      rw [hout hn]
      exact ⟨rfl, rfl⟩
  · intro hex hm hq hp
    rw [OnCellType_read hub s _ index code hforce hm hq hp]
    have hex1 : ((QueryCommandVerify hub (SetPosition hub s (toUnsigned index)).2
        (String.singleton s.addressChar_ ++ "CCA Y?") ":A" 0).2.properties_
        (GetCellPropertyName index CellSuffix._Type)).isSome = true := by
      have : (QueryCommandVerify hub (SetPosition hub s (toUnsigned index)).2
        (String.singleton s.addressChar_ ++ "CCA Y?") ":A" 0).2.properties_
        (GetCellPropertyName index CellSuffix._Type) =
          s.properties_ (GetCellPropertyName index CellSuffix._Type) :=
        SetPosition_properties_ne hub s _ _ (by simp [GetCellPropertyName])
      rw [this]
      exact hex
    have hin : ∀ name, (name, code) ∈ CellTypeAllowed →
        (SetOrInvalid (SetTypeCode
          (QueryCommandVerify hub (SetPosition hub s (toUnsigned index)).2
            (String.singleton s.addressChar_ ++ "CCA Y?") ":A" 0).2
          (GetCellPropertyName index CellSuffix._Type) code) fun s3 => (DEVICE_OK, s3)) =
        (DEVICE_OK, (PropSet
          (QueryCommandVerify hub (SetPosition hub s (toUnsigned index)).2
            (String.singleton s.addressChar_ ++ "CCA Y?") ":A" 0).2
          (GetCellPropertyName index CellSuffix._Type) (Value.str name)).2) := by
      intro name hn
      rw [SetTypeCode_of_mem _ _ code name hn, SetOrInvalid_PropSet]
    have hout : ¬(0 ≤ code ∧ code ≤ 9) →
        (SetOrInvalid (SetTypeCode
          (QueryCommandVerify hub (SetPosition hub s (toUnsigned index)).2
            (String.singleton s.addressChar_ ++ "CCA Y?") ":A" 0).2
          (GetCellPropertyName index CellSuffix._Type) code) fun s3 => (DEVICE_OK, s3)) =
        (DEVICE_INVALID_PROPERTY_VALUE,
          (QueryCommandVerify hub (SetPosition hub s (toUnsigned index)).2
            (String.singleton s.addressChar_ ++ "CCA Y?") ":A" 0).2) := by
      intro hn
      rw [SetTypeCode_out_of_range _ _ code hn, SetOrInvalid_refused]
    refine ⟨⟨?_, ?_⟩, ?_, ?_⟩
    · intro hok
      by_contra hn
      rw [hout hn] at hok
      have h3 : (DEVICE_INVALID_PROPERTY_VALUE : Int) ≠ DEVICE_OK := by decide
      exact h3 hok
    · intro hr
      obtain ⟨name, hn⟩ := (CellTypeAllowed_range code).2 hr
      rw [hin name hn]
    · intro name hn
      rw [hin name hn]
      exact PropSet_value _ _ _ hex1
    · intro hn
      rw [hout hn]
      refine ⟨rfl, ?_⟩
      unfold PropValue
      have : (QueryCommandVerify hub (SetPosition hub s (toUnsigned index)).2
        (String.singleton s.addressChar_ ++ "CCA Y?") ":A" 0).2.properties_
        (GetCellPropertyName index CellSuffix._Type) =
          s.properties_ (GetCellPropertyName index CellSuffix._Type) :=
        SetPosition_properties_ne hub s _ _ (by simp [GetCellPropertyName])
      rw [this]

set_option maxRecDepth 100000 in
/-- C4 at an instance: with the refresh flag on, the hardware answers 7 to both queries; the
trigger source read (codes `0..4`) is refused and the property keeps its value, the read of
the type of cell 2 (codes `0..9`) succeeds and the property holds `g_TypeCode7`. -/
theorem enumerated_read_decodes_or_rejects_witness :
    ((OnTriggerSource (scriptHub 0 7) (refreshingCard 3) PropName.g_TriggerSourcePropertyName
        ActionType.BeforeGet).1 = DEVICE_INVALID_PROPERTY_VALUE ∧
      PropValue
        (OnTriggerSource (scriptHub 0 7) (refreshingCard 3)
          PropName.g_TriggerSourcePropertyName ActionType.BeforeGet).2
        PropName.g_TriggerSourcePropertyName
        = PropValue (refreshingCard 3) PropName.g_TriggerSourcePropertyName) ∧
    PropValue
      (OnCellType (scriptHub 0 7) (refreshingCard 3)
        (GetCellPropertyName 2 CellSuffix._Type) ActionType.BeforeGet 2).2
      (GetCellPropertyName 2 CellSuffix._Type) = some (Value.str Str.g_TypeCode7) :=
  have h := enumerated_read_decodes_or_rejects (scriptHub 0 7) (refreshingCard 3) 2 7
    (by decide)
  ⟨(h.1 (by decide) (by decide) (by decide)).2.2 (by decide),
    (h.2 (by decide) (by decide) (by decide) (by decide)).2.1 Str.g_TypeCode7 (by decide)⟩

/-! ## C5: writing an axis-save state twice -/

/-- C5, as stated, fails: after `Initialize`, writing `g_SaveSettingsZ` to the save-settings
property twice in a row (the host stores the value, then runs the handler for `AfterSet`)
sends the save command twice, although the first write has flipped the property to
`g_SaveSettingsDone`. -/
theorem save_twice_sends_twice :
    PropValue
      (OnSaveCardSettings (scriptHub 0 0)
        (PropSet (initializedCard 3) PropName.g_SaveSettingsPropertyName
          (Value.str Str.g_SaveSettingsZ)).2
        PropName.g_SaveSettingsPropertyName ActionType.AfterSet).2
      PropName.g_SaveSettingsPropertyName = some (Value.str Str.g_SaveSettingsDone) ∧
    issued (initializedCard 3)
      (OnSaveCardSettings (scriptHub 0 0)
        (PropSet
          (OnSaveCardSettings (scriptHub 0 0)
            (PropSet (initializedCard 3) PropName.g_SaveSettingsPropertyName
              (Value.str Str.g_SaveSettingsZ)).2
            PropName.g_SaveSettingsPropertyName ActionType.AfterSet).2
          PropName.g_SaveSettingsPropertyName (Value.str Str.g_SaveSettingsZ)).2
        PropName.g_SaveSettingsPropertyName ActionType.AfterSet).2
      = [⟨"1SS Z", ":A", 200, 3⟩, ⟨"1SS Z", ":A", 200, 3⟩] := by
  decide

theorem PropGetStr_PropSet (s : CPLogic σ) (pProp : PropName) (c : Str)
    (h : (s.properties_ pProp).isSome = true) :
    PropGetStr (PropSet s pProp (Value.str c)).2 pProp = some c := by
  unfold PropGetStr
  rw [PropSet_value s pProp _ h]

theorem PropSet_isSome (s : CPLogic σ) (pProp : PropName) (v : Value) (name : PropName) :
    ((PropSet s pProp v).2.properties_ name).isSome = (s.properties_ name).isSome := by
  have h := PropSet_action s pProp v name
  cases h1 : (PropSet s pProp v).2.properties_ name <;> cases h0 : s.properties_ name <;>
    simp_all

/-- One write of an axis-save state: the property holds `v` when the handler runs. -/
theorem OnSaveCardSettings_write (hub : Hub σ) (s : CPLogic σ) (pProp : PropName) (v : Str)
    (hv : v = Str.g_SaveSettingsX ∨ v = Str.g_SaveSettingsY ∨ v = Str.g_SaveSettingsZ)
    (hval : PropGetStr s pProp = some v)
    (hq : (hub.QueryCommandVerify s.hub_
      (String.singleton s.addressChar_ ++ "SS " ++
        (if v = Str.g_SaveSettingsZ then "Z" else "X")) ":A" 200).1 = DEVICE_OK) :
    OnSaveCardSettings hub s pProp ActionType.AfterSet =
      (DEVICE_OK,
        (PropSet
          (QueryCommandVerify hub s
            (String.singleton s.addressChar_ ++ "SS " ++
              (if v = Str.g_SaveSettingsZ then "Z" else "X")) ":A" 200).2
          pProp (Value.str Str.g_SaveSettingsDone)).2) := by
  rcases hv with rfl | rfl | rfl <;>
    · simp only [reduceCtorEq, if_false, if_true] at hq ⊢
      simp only [OnSaveCardSettings, if_true, hval, Option.some.injEq, reduceCtorEq, if_false]
      rw [RETURN_ON_MM_ERROR_ok _ _ hq]

/-- What one write of an axis-save state does to the driver. -/
theorem save_write_facts (hub : Hub σ) (s : CPLogic σ) (v : Str)
    (hv : v = Str.g_SaveSettingsX ∨ v = Str.g_SaveSettingsY ∨ v = Str.g_SaveSettingsZ)
    (hex : (s.properties_ PropName.g_SaveSettingsPropertyName).isSome = true)
    (hq : (hub.QueryCommandVerify s.hub_
      (String.singleton s.addressChar_ ++ "SS " ++
        (if v = Str.g_SaveSettingsZ then "Z" else "X")) ":A" 200).1 = DEVICE_OK) :
    (OnSaveCardSettings hub
      (PropSet s PropName.g_SaveSettingsPropertyName (Value.str v)).2
      PropName.g_SaveSettingsPropertyName ActionType.AfterSet).1 = DEVICE_OK ∧
    (OnSaveCardSettings hub
      (PropSet s PropName.g_SaveSettingsPropertyName (Value.str v)).2
      PropName.g_SaveSettingsPropertyName ActionType.AfterSet).2.sent =
      s.sent ++ [⟨String.singleton s.addressChar_ ++ "SS " ++
        (if v = Str.g_SaveSettingsZ then "Z" else "X"), ":A", 200, s.currentPosition_⟩] ∧
    (OnSaveCardSettings hub
      (PropSet s PropName.g_SaveSettingsPropertyName (Value.str v)).2
      PropName.g_SaveSettingsPropertyName ActionType.AfterSet).2.hub_ =
      (hub.QueryCommandVerify s.hub_
        (String.singleton s.addressChar_ ++ "SS " ++
          (if v = Str.g_SaveSettingsZ then "Z" else "X")) ":A" 200).2 ∧
    (OnSaveCardSettings hub
      (PropSet s PropName.g_SaveSettingsPropertyName (Value.str v)).2
      PropName.g_SaveSettingsPropertyName ActionType.AfterSet).2.addressChar_ =
      s.addressChar_ ∧
    (OnSaveCardSettings hub
      (PropSet s PropName.g_SaveSettingsPropertyName (Value.str v)).2
      PropName.g_SaveSettingsPropertyName ActionType.AfterSet).2.currentPosition_ =
      s.currentPosition_ ∧
    PropValue
      (OnSaveCardSettings hub
        (PropSet s PropName.g_SaveSettingsPropertyName (Value.str v)).2
        PropName.g_SaveSettingsPropertyName ActionType.AfterSet).2
      PropName.g_SaveSettingsPropertyName = some (Value.str Str.g_SaveSettingsDone) ∧
    ((OnSaveCardSettings hub
      (PropSet s PropName.g_SaveSettingsPropertyName (Value.str v)).2
      PropName.g_SaveSettingsPropertyName ActionType.AfterSet).2.properties_
      PropName.g_SaveSettingsPropertyName).isSome = true := by
  have f1 := PropSet_frame s PropName.g_SaveSettingsPropertyName (Value.str v)
  have e1 := OnSaveCardSettings_write hub
    (PropSet s PropName.g_SaveSettingsPropertyName (Value.str v)).2
    PropName.g_SaveSettingsPropertyName v hv (PropGetStr_PropSet s _ v hex)
    (by rw [f1]; exact hq)
  have a1 : (PropSet s PropName.g_SaveSettingsPropertyName (Value.str v)).2.addressChar_
      = s.addressChar_ := by rw [f1]
  rw [a1] at e1
  rw [e1]
  have hex1 : ((QueryCommandVerify hub
      (PropSet s PropName.g_SaveSettingsPropertyName (Value.str v)).2
      (String.singleton s.addressChar_ ++ "SS " ++
        (if v = Str.g_SaveSettingsZ then "Z" else "X")) ":A" 200).2.properties_
      PropName.g_SaveSettingsPropertyName).isSome = true := by
    show ((PropSet s PropName.g_SaveSettingsPropertyName (Value.str v)).2.properties_
      PropName.g_SaveSettingsPropertyName).isSome = true
    rw [PropSet_isSome]
    exact hex
  refine ⟨rfl, ?_, ?_, ?_, ?_, PropSet_value _ _ _ hex1, ?_⟩
  · rw [PropSet_frame]
    show (PropSet s PropName.g_SaveSettingsPropertyName (Value.str v)).2.sent ++ _ = _
    rw [f1]
  · rw [PropSet_frame]
    show (hub.QueryCommandVerify
      (PropSet s PropName.g_SaveSettingsPropertyName (Value.str v)).2.hub_ _ _ _).2 = _
    rw [f1]
  · rw [PropSet_frame]
    exact a1
  · rw [PropSet_frame]
    show (PropSet s PropName.g_SaveSettingsPropertyName (Value.str v)).2.currentPosition_ = _
    rw [f1]
  · rw [PropSet_isSome]
    exact hex1

/-- C5, amended: for every axis-save state `v` (save X, save Y, save Z), each write of `v` to
the save-settings property, with the transport acknowledging, issues the save command
`<addr>SS <letter>` (expected answer `:A`, delay 200 ms) and flips the property to the
completed sentinel `g_SaveSettingsDone`; the second write of `v` issues the command again, so
that two writes in a row issue it twice. -/
theorem save_settings_each_write_sends (hub : Hub σ) (s : CPLogic σ) (v : Str)
    (hv : v = Str.g_SaveSettingsX ∨ v = Str.g_SaveSettingsY ∨ v = Str.g_SaveSettingsZ)
    (hex : (s.properties_ PropName.g_SaveSettingsPropertyName).isSome = true)
    (hq1 : (hub.QueryCommandVerify s.hub_
      (String.singleton s.addressChar_ ++ "SS " ++
        (if v = Str.g_SaveSettingsZ then "Z" else "X")) ":A" 200).1 = DEVICE_OK)
    (hq2 : (hub.QueryCommandVerify
      (hub.QueryCommandVerify s.hub_
        (String.singleton s.addressChar_ ++ "SS " ++
          (if v = Str.g_SaveSettingsZ then "Z" else "X")) ":A" 200).2
      (String.singleton s.addressChar_ ++ "SS " ++
        (if v = Str.g_SaveSettingsZ then "Z" else "X")) ":A" 200).1 = DEVICE_OK) :
    (OnSaveCardSettings hub
      (PropSet s PropName.g_SaveSettingsPropertyName (Value.str v)).2
      PropName.g_SaveSettingsPropertyName ActionType.AfterSet).1 = DEVICE_OK ∧
    PropValue
      (OnSaveCardSettings hub
        (PropSet s PropName.g_SaveSettingsPropertyName (Value.str v)).2
        PropName.g_SaveSettingsPropertyName ActionType.AfterSet).2
      PropName.g_SaveSettingsPropertyName = some (Value.str Str.g_SaveSettingsDone) ∧
    (OnSaveCardSettings hub
      (PropSet
        (OnSaveCardSettings hub
          (PropSet s PropName.g_SaveSettingsPropertyName (Value.str v)).2
          PropName.g_SaveSettingsPropertyName ActionType.AfterSet).2
        PropName.g_SaveSettingsPropertyName (Value.str v)).2
      PropName.g_SaveSettingsPropertyName ActionType.AfterSet).1 = DEVICE_OK ∧
    issued s
      (OnSaveCardSettings hub
        (PropSet
          (OnSaveCardSettings hub
            (PropSet s PropName.g_SaveSettingsPropertyName (Value.str v)).2
            PropName.g_SaveSettingsPropertyName ActionType.AfterSet).2
          PropName.g_SaveSettingsPropertyName (Value.str v)).2
        PropName.g_SaveSettingsPropertyName ActionType.AfterSet).2
      = [⟨String.singleton s.addressChar_ ++ "SS " ++
            (if v = Str.g_SaveSettingsZ then "Z" else "X"), ":A", 200, s.currentPosition_⟩,
         ⟨String.singleton s.addressChar_ ++ "SS " ++
            (if v = Str.g_SaveSettingsZ then "Z" else "X"), ":A", 200, s.currentPosition_⟩] ∧
    PropValue
      (OnSaveCardSettings hub
        (PropSet
          (OnSaveCardSettings hub
            (PropSet s PropName.g_SaveSettingsPropertyName (Value.str v)).2
            PropName.g_SaveSettingsPropertyName ActionType.AfterSet).2
          PropName.g_SaveSettingsPropertyName (Value.str v)).2
        PropName.g_SaveSettingsPropertyName ActionType.AfterSet).2
      PropName.g_SaveSettingsPropertyName = some (Value.str Str.g_SaveSettingsDone) := by
  obtain ⟨k1, ks, kh, ka, kc, kv, ke⟩ := save_write_facts hub s v hv hex hq1
  obtain ⟨m1, ms, _, _, _, mv, _⟩ := save_write_facts hub
    (OnSaveCardSettings hub
      (PropSet s PropName.g_SaveSettingsPropertyName (Value.str v)).2
      PropName.g_SaveSettingsPropertyName ActionType.AfterSet).2 v hv ke
    (by rw [kh, ka]; exact hq2)
  refine ⟨k1, kv, m1, ?_, mv⟩
  apply issued_of_append
  rw [ms, ks, ka, kc, List.append_assoc]
  rfl

/-- C5, amended, at an instance: two writes of `g_SaveSettingsX` after `Initialize`. -/
theorem save_settings_each_write_sends_witness :
    issued (initializedCard 3)
      (OnSaveCardSettings (scriptHub 0 0)
        (PropSet
          (OnSaveCardSettings (scriptHub 0 0)
            (PropSet (initializedCard 3) PropName.g_SaveSettingsPropertyName
              (Value.str Str.g_SaveSettingsX)).2
            PropName.g_SaveSettingsPropertyName ActionType.AfterSet).2
          PropName.g_SaveSettingsPropertyName (Value.str Str.g_SaveSettingsX)).2
        PropName.g_SaveSettingsPropertyName ActionType.AfterSet).2
      = [⟨"1SS X", ":A", 200, 3⟩, ⟨"1SS X", ":A", 200, 3⟩] :=
  (save_settings_each_write_sends (scriptHub 0 0) (initializedCard 3) Str.g_SaveSettingsX
    (by decide) (by decide) (by decide) (by decide)).2.2.2.1

/-! ## Steps that leave a property and the cell count alone -/

theorem Untouched.same (target : PropName) (s : CPLogic σ) : Untouched target s s :=
  ⟨rfl, rfl⟩

theorem Untouched.andThen {target : PropName} {s s1 s2 : CPLogic σ}
    (h1 : Untouched target s s1) (h2 : Untouched target s1 s2) : Untouched target s s2 :=
  ⟨by rw [h2.numCells_, h1.numCells_], by rw [h2.property, h1.property]⟩

theorem Untouched_query (target : PropName) (hub : Hub σ) (s : CPLogic σ)
    (command expected : String) (d : Nat) :
    Untouched target s (QueryCommandVerify hub s command expected d).2 :=
  ⟨rfl, rfl⟩

theorem Untouched_PropSet {target : PropName} (s : CPLogic σ) (pProp : PropName) (v : Value)
    (h : target ≠ pProp) : Untouched target s (PropSet s pProp v).2 :=
  ⟨by rw [PropSet_frame], PropSet_properties_ne s pProp v target h⟩

theorem Untouched_SetProperty {target : PropName} (s : CPLogic σ) (name : PropName)
    (v : Value) (h : target ≠ name) : Untouched target s (SetProperty s name v).2 :=
  ⟨by rw [SetProperty_frame], SetProperty_properties_ne s name v target h⟩

theorem Untouched_CreateProperty {target : PropName} (s : CPLogic σ) (name : PropName)
    (v : Value) (readOnly : Bool) (pAct : Option Handler) (h : target ≠ name) :
    Untouched target s (CreateProperty s name v readOnly pAct).2 := by
  unfold CreateProperty
  cases s.properties_ name with
  | some p => exact Untouched.same target s
  | none => exact ⟨rfl, Function.update_noteq h _ _⟩

theorem Untouched_AddAllowedValue {target : PropName} (s : CPLogic σ) (name : PropName)
    (value : Str) (data : Int) (h : target ≠ name) :
    Untouched target s (AddAllowedValue s name value data).2 := by
  unfold AddAllowedValue
  cases s.properties_ name with
  | none => exact Untouched.same target s
  | some p =>
    dsimp only
    split
    · exact Untouched.same target s
    · exact ⟨rfl, Function.update_noteq h _ _⟩

theorem SetProperty_numCells (s : CPLogic σ) (name : PropName) (v : Value) :
    (SetProperty s name v).2.numCells_ = s.numCells_ := by
  rw [SetProperty_frame]

theorem Untouched_SetPosition {target : PropName} (hub : Hub σ) (s : CPLogic σ) (n : Nat)
    (h : target ≠ PropName.g_PointerPositionPropertyName) :
    Untouched target s (SetPosition hub s n).2 := by
  refine ⟨?_, SetPosition_properties_ne hub s n target h⟩
  unfold SetPosition
  split
  · rfl
  · unfold RETURN_ON_MM_ERROR
    split
    · rfl
    · exact SetProperty_numCells _ _ _

theorem Untouched_RefreshCurrentPosition (target : PropName) (hub : Hub σ) (s : CPLogic σ) :
    Untouched target s (RefreshCurrentPosition hub s).2 := by
  unfold RefreshCurrentPosition RETURN_ON_MM_ERROR
  split
  · exact ⟨rfl, rfl⟩
  · dsimp only
    split <;> exact ⟨rfl, rfl⟩

theorem Untouched_SetLong {target : PropName} (s : CPLogic σ) (pProp : PropName) (tmp : Int)
    (h : target ≠ pProp) : Untouched target s (SetLong s pProp tmp).2 :=
  Untouched_PropSet s pProp _ h

theorem Untouched_SetTypeCode {target : PropName} (s : CPLogic σ) (pProp : PropName)
    (tmp : Int) (h : target ≠ pProp) : Untouched target s (SetTypeCode s pProp tmp).2 := by
  unfold SetTypeCode
  repeat' split
  all_goals first | exact Untouched_PropSet s pProp _ h | exact Untouched.same target s

theorem Untouched_SetSourceCode {target : PropName} (s : CPLogic σ) (pProp : PropName)
    (tmp : Int) (h : target ≠ pProp) : Untouched target s (SetSourceCode s pProp tmp).2 := by
  unfold SetSourceCode
  repeat' split
  all_goals first | exact Untouched_PropSet s pProp _ h | exact Untouched.same target s

theorem Untouched_FieldRead {target : PropName} (query : String)
    (store : CPLogic σ → PropName → Int → Bool × CPLogic σ)
    (hub : Hub σ) (s : CPLogic σ) (pProp : PropName) (index : Int)
    (hstore : ∀ s tmp, Untouched target s (store s pProp tmp).2)
    (hp : target ≠ PropName.g_PointerPositionPropertyName) :
    Untouched target s (FieldRead query store hub s pProp index).2 := by
  unfold FieldRead
  split
  · exact Untouched.same target s
  · have h1 := Untouched_SetPosition hub s (toUnsigned index) hp
    unfold RETURN_ON_MM_ERROR
    split
    · exact h1
    · dsimp only
      have h2 := h1.andThen (Untouched_query target hub (SetPosition hub s (toUnsigned index)).2
        (String.singleton (SetPosition hub s (toUnsigned index)).2.addressChar_ ++ query)
        ":A" 0)
      split
      · exact h2
      · unfold RETURN_ON_MM_ERROR_parse
        dsimp only
        split
        · exact h2
        · rw [SetOrInvalid_snd]
          exact h2.andThen (hstore _ _)

theorem Untouched_output_state {target : PropName} (hub : Hub σ) (s : CPLogic σ)
    (pProp : PropName) (command : String) (h : target ≠ pProp) :
    Untouched target s
      (RETURN_ON_MM_ERROR (QueryCommandVerify hub s command ":A" 0) fun s1 =>
        RETURN_ON_MM_ERROR_parse (hub.ParseAnswerAfterPosition2 s1.hub_) s1 fun val =>
        SetOrInvalid (PropSet s1 pProp (Value.int val)) fun s2 => (DEVICE_OK, s2)).2 := by
  unfold RETURN_ON_MM_ERROR
  split
  · exact Untouched_query target hub s _ _ _
  · unfold RETURN_ON_MM_ERROR_parse
    dsimp only
    split
    · exact Untouched_query target hub s _ _ _
    · rw [SetOrInvalid_snd]
      exact (Untouched_query target hub s _ _ _).andThen (Untouched_PropSet _ pProp _ h)

theorem Untouched_OnPointerPosition_BeforeGet {target : PropName} (hub : Hub σ)
    (s : CPLogic σ) (pProp : PropName) (h : target ≠ pProp) :
    Untouched target s (OnPointerPosition_BeforeGet hub s pProp).2 := by
  unfold OnPointerPosition_BeforeGet
  split
  · exact Untouched.same target s
  · dsimp only
    unfold SetOrInvalid
    have h1 := (Untouched_RefreshCurrentPosition target hub s).andThen
      (Untouched_PropSet (RefreshCurrentPosition hub s).2 pProp
        (Value.int (RefreshCurrentPosition hub s).2.currentPosition_) h)
    split
    · exact h1
    · exact ⟨h1.numCells_, h1.property⟩

theorem Untouched_OnTriggerSource_BeforeGet {target : PropName} (hub : Hub σ)
    (s : CPLogic σ) (pProp : PropName) (h : target ≠ pProp) :
    Untouched target s (OnTriggerSource hub s pProp ActionType.BeforeGet).2 := by
  simp only [OnTriggerSource, if_true]
  split
  · exact Untouched.same target s
  · unfold RETURN_ON_MM_ERROR
    split
    · exact Untouched_query target hub s _ _ _
    · unfold RETURN_ON_MM_ERROR_parse
      dsimp only
      split
      · exact Untouched_query target hub s _ _ _
      · rw [SetOrInvalid_snd]
        exact (Untouched_query target hub s _ _ _).andThen (Untouched_SetSourceCode _ pProp _ h)

theorem Untouched_ExecuteBeforeGet {target : PropName} (hub : Hub σ) (s : CPLogic σ)
    (pProp : PropName) (h : Handler) (hne : target ≠ pProp)
    (hp : target ≠ PropName.g_PointerPositionPropertyName) :
    Untouched target s (ExecuteBeforeGet hub s pProp h).2 := by
  cases h with
  | OnPointerPosition => exact Untouched_OnPointerPosition_BeforeGet hub s pProp hne
  | OnPLogicOutputState => exact Untouched_output_state hub s pProp _ hne
  | OnFrontpanelOutputState => exact Untouched_output_state hub s pProp _ hne
  | OnBackplaneOutputState => exact Untouched_output_state hub s pProp _ hne
  | OnTriggerSource => exact Untouched_OnTriggerSource_BeforeGet hub s pProp hne
  | OnRefreshProperties => exact Untouched.same target s
  | OnSaveCardSettings => exact Untouched.same target s
  | OnAdvancedProperties => exact Untouched.same target s
  | OnCellType index =>
    exact Untouched_FieldRead "CCA Y?" SetTypeCode hub s pProp index
      (fun s tmp => Untouched_SetTypeCode s pProp tmp hne) hp
  | OnCellConfig index =>
    exact Untouched_FieldRead "CCA Z?" SetLong hub s pProp index
      (fun s tmp => Untouched_SetLong s pProp tmp hne) hp
  | OnInputX index =>
    exact Untouched_FieldRead "CCB X?" SetLong hub s pProp index
      (fun s tmp => Untouched_SetLong s pProp tmp hne) hp
  | OnInputY index =>
    exact Untouched_FieldRead "CCB Y?" SetLong hub s pProp index
      (fun s tmp => Untouched_SetLong s pProp tmp hne) hp
  | OnInputZ index =>
    exact Untouched_FieldRead "CCB Z?" SetLong hub s pProp index
      (fun s tmp => Untouched_SetLong s pProp tmp hne) hp
  | OnInputF index =>
    exact Untouched_FieldRead "CCB F?" SetLong hub s pProp index
      (fun s tmp => Untouched_SetLong s pProp tmp hne) hp
  | OnIOSourceAddress index =>
    exact Untouched_FieldRead "CCA Z?" SetLong hub s pProp index
      (fun s tmp => Untouched_SetLong s pProp tmp hne) hp

theorem Untouched_UpdateProperty {target : PropName} (hub : Hub σ) (s : CPLogic σ)
    (name : PropName) (hne : target ≠ name)
    (hp : target ≠ PropName.g_PointerPositionPropertyName) :
    Untouched target s (UpdateProperty hub s name).2 := by
  unfold UpdateProperty
  cases s.properties_ name with
  | none => exact Untouched.same target s
  | some p =>
    dsimp only
    cases p.action with
    | none => exact Untouched.same target s
    | some h => exact Untouched_ExecuteBeforeGet hub s name h hne hp

/-! ## C6: the command behind each output-state property -/

/-- C6 at the failing input: after `Initialize`, the read of the front-panel output-state
property and the read of the backplane output-state property both issue `1RDADC Z?`, the
snapshot command of the internal outputs, because `Initialize` binds `OnPLogicOutputState`
to all three properties; `OnFrontpanelOutputState` (`RDADC X?`) and `OnBackplaneOutputState`
(`RDADC Y?`) are bound to no property. -/
theorem output_state_reads_all_issue_Z :
    issued (initializedCard 3)
      (UpdateProperty (scriptHub 0 5) (initializedCard 3)
        PropName.g_PLogicOutputStatePropertyName).2 = [⟨"1RDADC Z?", ":A", 0, 3⟩] ∧
    issued (initializedCard 3)
      (UpdateProperty (scriptHub 0 5) (initializedCard 3)
        PropName.g_FrontpanelOutputStatePropertyName).2 = [⟨"1RDADC Z?", ":A", 0, 3⟩] ∧
    issued (initializedCard 3)
      (UpdateProperty (scriptHub 0 5) (initializedCard 3)
        PropName.g_BackplaneOutputStatePropertyName).2 = [⟨"1RDADC Z?", ":A", 0, 3⟩] ∧
    issued (initializedCard 3)
      (OnFrontpanelOutputState (scriptHub 0 5) (initializedCard 3)
        PropName.g_FrontpanelOutputStatePropertyName ActionType.BeforeGet).2
      = [⟨"1RDADC X?", ":A", 0, 3⟩] ∧
    issued (initializedCard 3)
      (OnBackplaneOutputState (scriptHub 0 5) (initializedCard 3)
        PropName.g_BackplaneOutputStatePropertyName ActionType.BeforeGet).2
      = [⟨"1RDADC Y?", ":A", 0, 3⟩] ∧
    PropValue
      (UpdateProperty (scriptHub 0 5) (initializedCard 3)
        PropName.g_FrontpanelOutputStatePropertyName).2
      PropName.g_FrontpanelOutputStatePropertyName = some (Value.int 5) := by
  decide

/-! ## C7: the cell count found by `Initialize` -/

theorem Untouched_initialized (target : PropName) (s : CPLogic σ) :
    Untouched target s { s with initialized_ := true } := ⟨rfl, rfl⟩

theorem Untouched_Initialize_properties (hub : Hub σ) (s : CPLogic σ) :
    Untouched PropName.g_NumLogicCellsPropertyName s (Initialize_properties hub s) := by
  unfold Initialize_properties
  dsimp only
  refine Untouched.andThen ?_ (Untouched_initialized _ _)
  repeat
    first
    | refine Untouched.andThen ?_ (Untouched_UpdateProperty _ _ _ (by decide) (by decide))
    | refine Untouched.andThen ?_ (Untouched_CreateProperty _ _ _ _ _ (by decide))
    | refine Untouched.andThen ?_ (Untouched_AddAllowedValue _ _ _ _ (by decide))
  exact Untouched.same _ _

/-- The first part of `Initialize` on a freshly constructed driver: the cell count is the
parsed number when the parse succeeds and stays 16 otherwise, and the number-of-cells
property is created with that count. -/
theorem Initialize_cells_spec (env : Peripheral) (hub : Hub σ) (hub0 : σ) (a : Char)
    (as : String) (ax : Option String) (hok : env.PeripheralInitialize = DEVICE_OK) :
    (Initialize_cells env hub
        (PeripheralInitialize env (CPLogic_ctor hub0 a as ax)).2).numCells_
      = (if (hub.ParseAnswerAfterUnderscore
              (hub.SetLastSerialAnswer hub0 env.firmwareBuild)).1 = 0
          then (hub.ParseAnswerAfterUnderscore
              (hub.SetLastSerialAnswer hub0 env.firmwareBuild)).2 else 16) ∧
    PropValue
      (Initialize_cells env hub (PeripheralInitialize env (CPLogic_ctor hub0 a as ax)).2)
      PropName.g_NumLogicCellsPropertyName
      = some (Value.int (Initialize_cells env hub
          (PeripheralInitialize env (CPLogic_ctor hub0 a as ax)).2).numCells_) := by
  by_cases hc : (hub.ParseAnswerAfterUnderscore
      (hub.SetLastSerialAnswer hub0 env.firmwareBuild)).1 = 0 <;> cases ax <;>
    simp [Initialize_cells, PeripheralInitialize, hok, CPLogic_ctor, CreateProperty, GetProperty,
      PropValue, Function.update, hc]

/-- C7: `Initialize` on a freshly constructed driver (cell count 16), for every firmware build
name: when the generic initialization succeeds, `Initialize` returns `DEVICE_OK` whatever the
after-underscore parse of the build name gives; if that parse fails the cell count is still
16 afterwards, and if it succeeds with value `n` the cell count is `n`; in both cases the
number-of-cells property shows the cell count. -/
theorem Initialize_cell_count (env : Peripheral) (hub : Hub σ) (hub0 : σ) (a : Char)
    (as : String) (ax : Option String) (hok : env.PeripheralInitialize = DEVICE_OK) :
    (Initialize env hub (CPLogic_ctor hub0 a as ax)).1 = DEVICE_OK ∧
    ((hub.ParseAnswerAfterUnderscore (hub.SetLastSerialAnswer hub0 env.firmwareBuild)).1 ≠ 0 →
      (Initialize env hub (CPLogic_ctor hub0 a as ax)).2.numCells_ = 16 ∧
      PropValue (Initialize env hub (CPLogic_ctor hub0 a as ax)).2
        PropName.g_NumLogicCellsPropertyName = some (Value.int 16)) ∧
    ((hub.ParseAnswerAfterUnderscore (hub.SetLastSerialAnswer hub0 env.firmwareBuild)).1 = 0 →
      (Initialize env hub (CPLogic_ctor hub0 a as ax)).2.numCells_ =
        (hub.ParseAnswerAfterUnderscore (hub.SetLastSerialAnswer hub0 env.firmwareBuild)).2 ∧
      PropValue (Initialize env hub (CPLogic_ctor hub0 a as ax)).2
        PropName.g_NumLogicCellsPropertyName = some (Value.int
          (hub.ParseAnswerAfterUnderscore
            (hub.SetLastSerialAnswer hub0 env.firmwareBuild)).2)) := by
  have hP : (PeripheralInitialize env (CPLogic_ctor hub0 a as ax)).1 = DEVICE_OK := by
    simp [PeripheralInitialize, hok]
  have hI : Initialize env hub (CPLogic_ctor hub0 a as ax) =
      (DEVICE_OK, Initialize_properties hub (Initialize_cells env hub
        (PeripheralInitialize env (CPLogic_ctor hub0 a as ax)).2)) := by
    unfold Initialize
    rw [RETURN_ON_MM_ERROR_ok _ _ hP]
  obtain ⟨hn, hv⟩ := Initialize_cells_spec env hub hub0 a as ax hok
  have hU := Untouched_Initialize_properties hub (Initialize_cells env hub
    (PeripheralInitialize env (CPLogic_ctor hub0 a as ax)).2)
  have hv2 : PropValue (Initialize env hub (CPLogic_ctor hub0 a as ax)).2
      PropName.g_NumLogicCellsPropertyName =
      some (Value.int (Initialize env hub (CPLogic_ctor hub0 a as ax)).2.numCells_) := by
    rw [hI]
    unfold PropValue
    dsimp only
    rw [hU.property, hU.numCells_]
    exact hv
  have hn2 : (Initialize env hub (CPLogic_ctor hub0 a as ax)).2.numCells_ =
      (if (hub.ParseAnswerAfterUnderscore
              (hub.SetLastSerialAnswer hub0 env.firmwareBuild)).1 = 0
          then (hub.ParseAnswerAfterUnderscore
              (hub.SetLastSerialAnswer hub0 env.firmwareBuild)).2 else 16) := by
    rw [hI]
    dsimp only
    rw [hU.numCells_]
    exact hn
  refine ⟨by rw [hI], ?_, ?_⟩
  · intro hc
    rw [hv2, hn2, if_neg hc]
    exact ⟨rfl, rfl⟩
  · intro hc
    rw [hv2, hn2, if_pos hc]
    exact ⟨rfl, rfl⟩

/-- C7 at two instances, on the simulated hub (whose after-underscore parser reads the digits
after the last underscore): the build name `PLOGIC_build_24` gives 24 cells, and the build
name `PLOGIC`, which has no numeric suffix, leaves the 16 cells of the constructor. -/
theorem Initialize_cell_count_witness :
    ((Initialize (demoPeripheral "PLOGIC_build_24") simHub
        (CPLogic_ctor simCard0 '1' "31" (some "E"))).1 = DEVICE_OK ∧
      (Initialize (demoPeripheral "PLOGIC_build_24") simHub
        (CPLogic_ctor simCard0 '1' "31" (some "E"))).2.numCells_ = 24 ∧
      PropValue (Initialize (demoPeripheral "PLOGIC_build_24") simHub
        (CPLogic_ctor simCard0 '1' "31" (some "E"))).2
        PropName.g_NumLogicCellsPropertyName = some (Value.int 24)) ∧
    ((Initialize (demoPeripheral "PLOGIC") simHub
        (CPLogic_ctor simCard0 '1' "31" (some "E"))).1 = DEVICE_OK ∧
      (Initialize (demoPeripheral "PLOGIC") simHub
        (CPLogic_ctor simCard0 '1' "31" (some "E"))).2.numCells_ = 16 ∧
      PropValue (Initialize (demoPeripheral "PLOGIC") simHub
        (CPLogic_ctor simCard0 '1' "31" (some "E"))).2
        PropName.g_NumLogicCellsPropertyName = some (Value.int 16)) :=
  have h := Initialize_cell_count (demoPeripheral "PLOGIC_build_24") simHub simCard0 '1' "31"
    (some "E") rfl
  have k := Initialize_cell_count (demoPeripheral "PLOGIC") simHub simCard0 '1' "31"
    (some "E") rfl
  ⟨⟨h.1, h.2.2 (by decide)⟩, ⟨k.1, k.2.1 (by decide)⟩⟩

/-! ## C8: failures that are not handed on -/

set_option maxRecDepth 100000 in
/-- C8 at the failing inputs.  With the refresh flag on and a hub that fails the coming
command with code 14: (1) `RefreshCurrentPosition` returns 14, yet the read of the pointer
position (`OnPointerPosition` for `BeforeGet`), which calls it, returns `DEVICE_OK`;
(2) `RefreshCellPropertyValues(2)` returns `DEVICE_OK` although its first bus command
failed, and it issues five more bus commands after the failed one; (3) a write of the type
of cell 2 whose re-read `1CCA Z?` fails returns `DEVICE_OK` and goes on with four more
queries. -/
theorem failure_dropped_by_pointer_read_and_refresh :
    ((RefreshCurrentPosition (scriptHub 0 5) (withCodes (refreshingCard 3) [14])).1 = 14 ∧
      (OnPointerPosition (scriptHub 0 5) (withCodes (refreshingCard 3) [14])
        PropName.g_PointerPositionPropertyName ActionType.BeforeGet).1 = DEVICE_OK) ∧
    ((QueryCommandVerify (scriptHub 0 5) (withCodes (advancedCard 3) [14]) "M E=2" ":A"
        0).1 = 14 ∧
      (RefreshCellPropertyValues (scriptHub 0 5) (withCodes (advancedCard 3) [14]) 2).1
        = DEVICE_OK ∧
      (issued (advancedCard 3)
        (RefreshCellPropertyValues (scriptHub 0 5) (withCodes (advancedCard 3) [14])
          2).2).map BusCommand.command
        = ["M E=2", "M E=2", "1CCB X?", "1CCB Y?", "1CCB Z?", "1CCB F?"]) ∧
    ((OnCellType (scriptHub 0 5)
        (PropSet (withCodes (advancedCard 3) [0, 0, 14])
          (GetCellPropertyName 2 CellSuffix._Type) (Value.str Str.g_TypeCode3)).2
        (GetCellPropertyName 2 CellSuffix._Type) ActionType.AfterSet 2).1 = DEVICE_OK ∧
      (issued (advancedCard 3)
        (OnCellType (scriptHub 0 5)
          (PropSet (withCodes (advancedCard 3) [0, 0, 14])
            (GetCellPropertyName 2 CellSuffix._Type) (Value.str Str.g_TypeCode3)).2
          (GetCellPropertyName 2 CellSuffix._Type) ActionType.AfterSet 2).2).map
          BusCommand.command
        = ["M E=2", "1CCA Y=3", "1CCA Z?", "1CCB X?", "1CCB Y?", "1CCB Z?", "1CCB F?"]) := by
  decide

/-! ## C9: a failed read leaves the property as it was -/

theorem SetLong_refusal (s : CPLogic σ) (pProp : PropName) (tmp : Int)
    (h : (SetLong s pProp tmp).1 = false) : (SetLong s pProp tmp).2 = s := by
  rw [SetLong, PropSet_ok] at h
  cases h

theorem SetTypeCode_refusal (s : CPLogic σ) (pProp : PropName) (tmp : Int)
    (h : (SetTypeCode s pProp tmp).1 = false) : (SetTypeCode s pProp tmp).2 = s := by
  unfold SetTypeCode at h ⊢
  repeat' split at h
  all_goals first
    | (rw [PropSet_ok] at h; cases h)
    | (simp only [*, if_false])

theorem SetSourceCode_refusal (s : CPLogic σ) (pProp : PropName) (tmp : Int)
    (h : (SetSourceCode s pProp tmp).1 = false) : (SetSourceCode s pProp tmp).2 = s := by
  unfold SetSourceCode at h ⊢
  repeat' split at h
  all_goals first
    | (rw [PropSet_ok] at h; cases h)
    | (simp only [*, if_false])

theorem SetOrInvalid_fail (r : Bool × CPLogic σ)
    (h : (SetOrInvalid r fun s3 => (DEVICE_OK, s3)).1 ≠ DEVICE_OK) : r.1 = false := by
  unfold SetOrInvalid at h
  cases hr : r.1 with
  | false => rfl
  | true => simp [hr] at h

theorem FieldRead_fail_keeps (query : String)
    (store : CPLogic σ → PropName → Int → Bool × CPLogic σ)
    (hub : Hub σ) (s : CPLogic σ) (pProp : PropName) (index : Int)
    (hp : pProp ≠ PropName.g_PointerPositionPropertyName)
    (hstore : ∀ s tmp, (store s pProp tmp).1 = false → (store s pProp tmp).2 = s)
    (hf : (FieldRead query store hub s pProp index).1 ≠ DEVICE_OK) :
    (FieldRead query store hub s pProp index).2.properties_ pProp = s.properties_ pProp := by
  have hm := SetPosition_properties_ne hub s (toUnsigned index) pProp hp
  unfold FieldRead at hf ⊢
  split at hf
  · exact absurd rfl hf
  · rename_i hc
    rw [if_neg hc]
    by_cases h1 : (SetPosition hub s (toUnsigned index)).1 = DEVICE_OK
    · rw [RETURN_ON_MM_ERROR_ok _ _ h1] at hf ⊢
      by_cases h2 : (QueryCommandVerify hub (SetPosition hub s (toUnsigned index)).2
          (String.singleton (SetPosition hub s (toUnsigned index)).2.addressChar_ ++ query)
          ":A" 0).1 = DEVICE_OK
      · rw [RETURN_ON_MM_ERROR_ok _ _ h2] at hf ⊢
        unfold RETURN_ON_MM_ERROR_parse at hf ⊢
        split at hf
        · rename_i h3
          rw [if_pos h3]
          exact hm
        · rename_i h3
          rw [if_neg h3]
          have hr := SetOrInvalid_fail _ hf
          rw [SetOrInvalid_snd, hstore _ _ hr]
          exact hm
      · rw [RETURN_ON_MM_ERROR_fail _ _ h2]
        exact hm
    · rw [RETURN_ON_MM_ERROR_fail _ _ h1]
      exact hm

theorem output_state_fail_keeps (hub : Hub σ) (s : CPLogic σ) (pProp : PropName)
    (command : String)
    (hf : (RETURN_ON_MM_ERROR (QueryCommandVerify hub s command ":A" 0) fun s1 =>
        RETURN_ON_MM_ERROR_parse (hub.ParseAnswerAfterPosition2 s1.hub_) s1 fun val =>
        SetOrInvalid (PropSet s1 pProp (Value.int val)) fun s2 => (DEVICE_OK, s2)).1
        ≠ DEVICE_OK) :
    (RETURN_ON_MM_ERROR (QueryCommandVerify hub s command ":A" 0) fun s1 =>
        RETURN_ON_MM_ERROR_parse (hub.ParseAnswerAfterPosition2 s1.hub_) s1 fun val =>
        SetOrInvalid (PropSet s1 pProp (Value.int val)) fun s2 => (DEVICE_OK, s2)).2.properties_
      pProp = s.properties_ pProp := by
  by_cases h2 : (QueryCommandVerify hub s command ":A" 0).1 = DEVICE_OK
  · rw [RETURN_ON_MM_ERROR_ok _ _ h2] at hf ⊢
    unfold RETURN_ON_MM_ERROR_parse at hf ⊢
    split at hf
    · rename_i h3
      rw [if_pos h3]
      rfl
    · rename_i h3
      have hr := SetOrInvalid_fail _ hf
      rw [PropSet_ok] at hr
      cases hr
  · rw [RETURN_ON_MM_ERROR_fail _ _ h2]
    rfl

theorem OnTriggerSource_fail_keeps (hub : Hub σ) (s : CPLogic σ) (pProp : PropName)
    (hf : (OnTriggerSource hub s pProp ActionType.BeforeGet).1 ≠ DEVICE_OK) :
    (OnTriggerSource hub s pProp ActionType.BeforeGet).2.properties_ pProp
      = s.properties_ pProp := by
  simp only [OnTriggerSource, if_true] at hf ⊢
  split at hf
  · exact absurd rfl hf
  · rename_i hc
    rw [if_neg hc]
    by_cases h2 : (QueryCommandVerify hub s ("PM " ++ s.axisLetter_ ++ "?") s.axisLetter_
        0).1 = DEVICE_OK
    · rw [RETURN_ON_MM_ERROR_ok _ _ h2] at hf ⊢
      unfold RETURN_ON_MM_ERROR_parse at hf ⊢
      split at hf
      · rename_i h3
        rw [if_pos h3]
        rfl
      · rename_i h3
        rw [if_neg h3]
        have hr := SetOrInvalid_fail _ hf
        rw [SetOrInvalid_snd, SetSourceCode_refusal _ _ _ hr]
        rfl
    · rw [RETURN_ON_MM_ERROR_fail _ _ h2]
      rfl

theorem OnPointerPosition_BeforeGet_ok (hub : Hub σ) (s : CPLogic σ) (pProp : PropName) :
    (OnPointerPosition_BeforeGet hub s pProp).1 = DEVICE_OK := by
  unfold OnPointerPosition_BeforeGet
  split
  · rfl
  · simp [SetOrInvalid, PropSet_ok]

/-- C9: for every read (`BeforeGet`) handler of the driver, every property it is run for (the
pointer position property being read through `OnPointerPosition`, as `Initialize` binds it)
and every behaviour of the hub: if the read returns a failure, the value of the property
after the call is its value before the call. -/
theorem failed_read_keeps_value (hub : Hub σ) (s : CPLogic σ) (name : PropName) (h : Handler)
    (hpp : name = PropName.g_PointerPositionPropertyName → h = Handler.OnPointerPosition)
    (hf : (ExecuteBeforeGet hub s name h).1 ≠ DEVICE_OK) :
    PropValue (ExecuteBeforeGet hub s name h).2 name = PropValue s name := by
  have key : (ExecuteBeforeGet hub s name h).2.properties_ name = s.properties_ name := by
    cases h with
    | OnPointerPosition => exact absurd (OnPointerPosition_BeforeGet_ok hub s name) hf
    | OnPLogicOutputState => exact output_state_fail_keeps hub s name _ hf
    | OnFrontpanelOutputState => exact output_state_fail_keeps hub s name _ hf
    | OnBackplaneOutputState => exact output_state_fail_keeps hub s name _ hf
    | OnTriggerSource => exact OnTriggerSource_fail_keeps hub s name hf
    | OnRefreshProperties => exact absurd rfl hf
    | OnSaveCardSettings => exact absurd rfl hf
    | OnAdvancedProperties => exact absurd rfl hf
    | OnCellType index =>
      exact FieldRead_fail_keeps "CCA Y?" SetTypeCode hub s name index
        (fun e => by cases hpp e) (fun s tmp => SetTypeCode_refusal s name tmp) hf
    | OnCellConfig index =>
      exact FieldRead_fail_keeps "CCA Z?" SetLong hub s name index
        (fun e => by cases hpp e) (fun s tmp => SetLong_refusal s name tmp) hf
    | OnInputX index =>
      exact FieldRead_fail_keeps "CCB X?" SetLong hub s name index
        (fun e => by cases hpp e) (fun s tmp => SetLong_refusal s name tmp) hf
    | OnInputY index =>
      exact FieldRead_fail_keeps "CCB Y?" SetLong hub s name index
        (fun e => by cases hpp e) (fun s tmp => SetLong_refusal s name tmp) hf
    | OnInputZ index =>
      exact FieldRead_fail_keeps "CCB Z?" SetLong hub s name index
        (fun e => by cases hpp e) (fun s tmp => SetLong_refusal s name tmp) hf
    | OnInputF index =>
      exact FieldRead_fail_keeps "CCB F?" SetLong hub s name index
        (fun e => by cases hpp e) (fun s tmp => SetLong_refusal s name tmp) hf
    | OnIOSourceAddress index =>
      exact FieldRead_fail_keeps "CCA Z?" SetLong hub s name index
        (fun e => by cases hpp e) (fun s tmp => SetLong_refusal s name tmp) hf
  unfold PropValue
  rw [key]

set_option maxRecDepth 100000 in
/-- C9 at an instance: with the refresh flag on, the query of the trigger source fails with
code 14; the read returns 14 and the property still holds `g_SourceCode3`. -/
theorem failed_read_keeps_value_witness :
    (ExecuteBeforeGet (scriptHub 0 1) (withCodes (refreshingCard 3) [14])
      PropName.g_TriggerSourcePropertyName Handler.OnTriggerSource).1 = 14 ∧
    PropValue (withCodes (refreshingCard 3) [14]) PropName.g_TriggerSourcePropertyName
      = some (Value.str Str.g_SourceCode3) ∧
    PropValue
      (ExecuteBeforeGet (scriptHub 0 1) (withCodes (refreshingCard 3) [14])
        PropName.g_TriggerSourcePropertyName Handler.OnTriggerSource).2
      PropName.g_TriggerSourcePropertyName
      = PropValue (withCodes (refreshingCard 3) [14]) PropName.g_TriggerSourcePropertyName :=
  ⟨by decide, by decide,
    failed_read_keeps_value (scriptHub 0 1) (withCodes (refreshingCard 3) [14])
      PropName.g_TriggerSourcePropertyName Handler.OnTriggerSource (by decide) (by decide)⟩

/-! ## C10: write and read back a cell type on the simulated card -/

theorem toList_singleton_append (a : Char) (t : String) :
    (String.singleton a ++ t).toList = a :: t.toList := by
  simp [String.toList, String.data_append, String.singleton]

theorem SimCard.receive_move (st : SimCard) (x : String) :
    st.receive ("M " ++ st.axisLetter ++ "=" ++ x) =
      { st with pointer := x.toList, serialAnswer := ":A".toList } := by
  unfold SimCard.receive
  have h : (("M " ++ st.axisLetter ++ "=").toList).isPrefixOf
      ("M " ++ st.axisLetter ++ "=" ++ x).toList = true := by
    simp [String.toList, String.data_append]
  have hd : List.drop (("M " ++ st.axisLetter ++ "=").toList).length
      ("M " ++ st.axisLetter ++ "=" ++ x).toList = x.toList := by
    have e : ("M " ++ st.axisLetter ++ "=" ++ x).toList =
        ("M " ++ st.axisLetter ++ "=").toList ++ x.toList := by
      simp only [String.toList, String.data_append]
    rw [e, List.drop_left]
  simp only [h, if_true, hd]

theorem SimCard.receive_write_type (st : SimCard) (x : String) :
    st.receive (String.singleton st.addressChar ++ "CCA Y=" ++ x) =
      { st with fields := ((st.pointer, "CCA Y"), x.toList) :: st.fields,
                serialAnswer := ":A".toList } := by
  unfold SimCard.receive
  simp [String.toList, String.data_append, String.singleton, List.isPrefixOf,
    SimCard.fieldNames, SimCard.isQuery, SimCard.writeOf]

theorem SimCard.receive_query_type (st : SimCard) :
    st.receive (String.singleton st.addressChar ++ "CCA Y?") =
      { st with serialAnswer := ":A Y=".toList ++
                  (st.fields.lookup (st.pointer, "CCA Y")).getD ['0'] } := by
  unfold SimCard.receive
  simp [String.toList, String.data_append, String.singleton, List.isPrefixOf,
    SimCard.fieldNames, SimCard.isQuery, SimCard.writeOf]

/-- A query of one of the other five fields changes the answer only. -/
theorem SimCard.receive_query_other (st : SimCard) (q : String)
    (hq : q ∈ ["CCA Z?", "CCB X?", "CCB Y?", "CCB Z?", "CCB F?"]) :
    ∃ answer, st.receive (String.singleton st.addressChar ++ q) =
      { st with serialAnswer := answer } := by
  simp only [List.mem_cons, List.mem_singleton, List.not_mem_nil, or_false] at hq
  rcases hq with rfl | rfl | rfl | rfl | rfl <;>
    · unfold SimCard.receive
      simp [String.toList, String.data_append, String.singleton, List.isPrefixOf,
        SimCard.fieldNames, SimCard.isQuery, SimCard.writeOf]

theorem Quiet.unchanged (target : PropName) (s : CPLogic SimCard) : Quiet target s s :=
  ⟨rfl, rfl, rfl, rfl, rfl, rfl, rfl, rfl, fun _ => rfl, ⟨[], by simp⟩⟩

theorem Quiet.followedBy {target : PropName} {s s1 s2 : CPLogic SimCard}
    (h1 : Quiet target s s1) (h2 : Quiet target s1 s2) : Quiet target s s2 := by
  obtain ⟨l1, e1⟩ := h1.sent
  obtain ⟨l2, e2⟩ := h2.sent
  exact ⟨by rw [h2.pointer, h1.pointer], by rw [h2.fields, h1.fields],
    by rw [h2.cardAddress, h1.cardAddress], by rw [h2.cardAxis, h1.cardAxis],
    by rw [h2.currentPosition_, h1.currentPosition_], by rw [h2.addressChar_, h1.addressChar_],
    by rw [h2.axisLetter_, h1.axisLetter_], by rw [h2.property, h1.property],
    fun name => by rw [h2.action, h1.action],
    ⟨l1 ++ l2, by rw [e2, e1, List.append_assoc]⟩⟩

theorem Quiet_PropSet {target : PropName} (s : CPLogic SimCard) (pProp : PropName)
    (v : Value) (h : target ≠ pProp) : Quiet target s (PropSet s pProp v).2 := by
  have f := PropSet_frame s pProp v
  refine ⟨?_, ?_, ?_, ?_, ?_, ?_, ?_, PropSet_properties_ne s pProp v target h,
    PropSet_action s pProp v, ⟨[], ?_⟩⟩ <;> (rw [f]; try simp)

/-- A query of one of the five dependent fields, sent while the card is the driver's card. -/
theorem Quiet_query_other (target : PropName) (s : CPLogic SimCard) (q : String)
    (hq : q ∈ ["CCA Z?", "CCB X?", "CCB Y?", "CCB Z?", "CCB F?"])
    (ha : s.hub_.addressChar = s.addressChar_) :
    Quiet target s
      (QueryCommandVerify simHub s (String.singleton s.addressChar_ ++ q) ":A" 0).2 := by
  obtain ⟨answer, e⟩ := SimCard.receive_query_other s.hub_ q hq
  rw [ha] at e
  have eh : (QueryCommandVerify simHub s (String.singleton s.addressChar_ ++ q) ":A" 0).2.hub_
      = s.hub_.receive (String.singleton s.addressChar_ ++ q) := rfl
  refine ⟨?_, ?_, ?_, ?_, rfl, rfl, rfl, rfl, fun _ => rfl, ⟨_, rfl⟩⟩ <;>
    (rw [eh, e]; try exact ha.symm)

theorem Quiet_FieldRead {target : PropName} (q : String)
    (hq : q ∈ ["CCA Z?", "CCB X?", "CCB Y?", "CCB Z?", "CCB F?"])
    (s : CPLogic SimCard) (pProp : PropName) (index : Int) (h : target ≠ pProp)
    (ha : s.hub_.addressChar = s.addressChar_)
    (hc : s.currentPosition_ = toUnsigned index) :
    Quiet target s (FieldRead q SetLong simHub s pProp index).2 := by
  unfold FieldRead
  split
  · exact Quiet.unchanged target s
  · rw [SetPosition_hit simHub s _ hc, RETURN_ON_MM_ERROR_ok _ _ rfl]
    have hK := Quiet_query_other target s q hq ha
    unfold RETURN_ON_MM_ERROR
    split
    · exact hK
    · unfold RETURN_ON_MM_ERROR_parse
      dsimp only
      split
      · exact hK
      · rw [SetOrInvalid_snd]
        exact hK.followedBy (Quiet_PropSet _ pProp _ h)

theorem ExecuteBeforeGet_dependent (hub : Hub σ) (s : CPLogic σ) (pProp : PropName)
    (index : Int) (suffix : CellSuffix) (hs : suffix ≠ CellSuffix._Type) :
    ∃ q, q ∈ ["CCA Z?", "CCB X?", "CCB Y?", "CCB Z?", "CCB F?"] ∧
      ExecuteBeforeGet hub s pProp (CellHandler index suffix) =
        FieldRead q SetLong hub s pProp index := by
  cases suffix
  · exact absurd rfl hs
  · exact ⟨"CCA Z?", by decide, rfl⟩
  · exact ⟨"CCB X?", by decide, rfl⟩
  · exact ⟨"CCB Y?", by decide, rfl⟩
  · exact ⟨"CCB Z?", by decide, rfl⟩
  · exact ⟨"CCB F?", by decide, rfl⟩

theorem Quiet_UpdateProperty (s : CPLogic SimCard) (index : Int) (suffix : CellSuffix)
    (hs : suffix ≠ CellSuffix._Type) (hb : BoundAt s index suffix = true)
    (ha : s.hub_.addressChar = s.addressChar_)
    (hc : s.currentPosition_ = toUnsigned index) :
    Quiet (GetCellPropertyName index CellSuffix._Type) s
      (UpdateProperty simHub s (GetCellPropertyName index suffix)).2 := by
  unfold UpdateProperty
  unfold BoundAt at hb
  cases hp : s.properties_ (GetCellPropertyName index suffix) with
  | none => exact Quiet.unchanged _ s
  | some p =>
    rw [hp] at hb
    dsimp only at hb ⊢
    cases hact : p.action with
    | none => exact Quiet.unchanged _ s
    | some h =>
      rw [hact] at hb
      have e : h = CellHandler index suffix := by simpa using hb
      subst e
      obtain ⟨q, hq, heq⟩ :=
        ExecuteBeforeGet_dependent simHub s (GetCellPropertyName index suffix) index suffix hs
      dsimp only
      rw [heq]
      exact Quiet_FieldRead q hq s _ index
        (by simp only [GetCellPropertyName, ne_eq, PropName.Cell.injEq, true_and]
            exact fun e => hs e.symm) ha hc

theorem Quiet_RefreshCellPropertyValues (s : CPLogic SimCard) (index : Int)
    (hb : CellBound s index = true) (ha : s.hub_.addressChar = s.addressChar_)
    (hc : s.currentPosition_ = toUnsigned index) :
    (RefreshCellPropertyValues simHub s index).1 = DEVICE_OK ∧
    (RefreshCellPropertyValues simHub s index).2.refreshProps_ = s.refreshProps_ ∧
    Quiet (GetCellPropertyName index CellSuffix._Type) s
      (RefreshCellPropertyValues simHub s index).2 := by
  simp only [CellBound, Bool.and_eq_true] at hb
  obtain ⟨⟨⟨⟨b1, b2⟩, b3⟩, b4⟩, b5⟩ := hb
  have k0 : Quiet (GetCellPropertyName index CellSuffix._Type) s
      { s with refreshProps_ := true } :=
    ⟨rfl, rfl, rfl, rfl, rfl, rfl, rfl, rfl, fun _ => rfl, ⟨[], by simp⟩⟩
  have step : ∀ (t : CPLogic SimCard) (suffix : CellSuffix),
      suffix ≠ CellSuffix._Type → BoundAt s index suffix = true →
      Quiet (GetCellPropertyName index CellSuffix._Type) s t →
      Quiet (GetCellPropertyName index CellSuffix._Type) s
        (UpdateProperty simHub t (GetCellPropertyName index suffix)).2 := by
    intro t suffix hs hbs ht
    refine ht.followedBy (Quiet_UpdateProperty t index suffix hs ?_ ?_ ?_)
    · rw [BoundAt_of_action index suffix ht.action]
      exact hbs
    · rw [ht.cardAddress, ht.addressChar_]
      exact ha
    · rw [ht.currentPosition_]
      exact hc
  have k1 := step _ CellSuffix._Config (by decide) b1 k0
  have k2 := step _ CellSuffix._InputX (by decide) b2 k1
  have k3 := step _ CellSuffix._InputY (by decide) b3 k2
  have k4 := step _ CellSuffix._InputZ (by decide) b4 k3
  have k5 := step _ CellSuffix._InputF (by decide) b5 k4
  exact ⟨rfl, rfl, ⟨k5.pointer, k5.fields, k5.cardAddress, k5.cardAxis, k5.currentPosition_,
    k5.addressChar_, k5.axisLetter_, k5.property, k5.action, k5.sent⟩⟩

theorem CellTypeAllowed_lookup (entry : Str × Int) (h : entry ∈ CellTypeAllowed) :
    CellTypeAllowed.lookup entry.1 = some entry.2 := by
  simp only [CellTypeAllowed, List.mem_cons, List.mem_singleton, List.not_mem_nil,
    or_false] at h
  rcases h with rfl | rfl | rfl | rfl | rfl | rfl | rfl | rfl | rfl | rfl <;> rfl

/-- The simulated hub reads back the code it was sent as text. -/
theorem simHub_parse_echo (st : SimCard) (entry : Str × Int) (h : entry ∈ CellTypeAllowed) :
    simHub.ParseAnswerAfterEquals
      { st with serialAnswer := ":A Y=".toList ++ (toString entry.2).toList }
      = (DEVICE_OK, entry.2) := by
  simp only [CellTypeAllowed, List.mem_cons, List.mem_singleton, List.not_mem_nil,
    or_false] at h
  rcases h with rfl | rfl | rfl | rfl | rfl | rfl | rfl | rfl | rfl | rfl <;> rfl

theorem simHub_move_acknowledged (s : CPLogic SimCard) (n : Nat)
    (hx : s.hub_.axisLetter = s.axisLetter_) :
    simHub.QueryCommandVerify s.hub_ ("M " ++ s.axisLetter_ ++ "=" ++ toString n) ":A" 0 =
      (DEVICE_OK, { s.hub_ with pointer := (toString n).toList, serialAnswer := ":A".toList }) := by
  show ((if ":A".toList.isPrefixOf (s.hub_.receive _).serialAnswer then DEVICE_OK
      else DEVICE_SERIAL_INVALID_RESPONSE), s.hub_.receive _) = _
  rw [← hx, SimCard.receive_move]
  rfl

theorem SetPosition_sim (s : CPLogic SimCard) (n : Nat)
    (hx : s.hub_.axisLetter = s.axisLetter_) :
    (SetPosition simHub s n).1 = DEVICE_OK ∧
    (SetPosition simHub s n).2.hub_.addressChar = s.hub_.addressChar ∧
    (SetPosition simHub s n).2.hub_.fields = s.hub_.fields := by
  by_cases hc : s.currentPosition_ = n
  · rw [SetPosition_hit simHub s n hc]
    exact ⟨rfl, rfl, rfl⟩
  · have hq := simHub_move_acknowledged s n hx
    rw [SetPosition_move simHub s n hc (by rw [hq])]
    dsimp only
    rw [hq]
    exact ⟨rfl, rfl, rfl⟩

theorem QueryCommandVerify_fst (hub : Hub σ) (s : CPLogic σ) (command expected : String)
    (d : Nat) :
    (QueryCommandVerify hub s command expected d).1 =
      (hub.QueryCommandVerify s.hub_ command expected d).1 := rfl

theorem QueryCommandVerify_hub (hub : Hub σ) (s : CPLogic σ) (command expected : String)
    (d : Nat) :
    (QueryCommandVerify hub s command expected d).2.hub_ =
      (hub.QueryCommandVerify s.hub_ command expected d).2 := rfl

theorem QueryCommandVerify_currentPosition (hub : Hub σ) (s : CPLogic σ)
    (command expected : String) (d : Nat) :
    (QueryCommandVerify hub s command expected d).2.currentPosition_ = s.currentPosition_ :=
  rfl

theorem QueryCommandVerify_properties (hub : Hub σ) (s : CPLogic σ)
    (command expected : String) (d : Nat) :
    (QueryCommandVerify hub s command expected d).2.properties_ = s.properties_ := rfl

theorem simHub_type_write_acknowledged (s : CPLogic SimCard) (x : String)
    (ha : s.hub_.addressChar = s.addressChar_) :
    simHub.QueryCommandVerify s.hub_ (String.singleton s.addressChar_ ++ "CCA Y=" ++ x) ":A" 0
      = (DEVICE_OK, { s.hub_ with fields := ((s.hub_.pointer, "CCA Y"), x.toList) :: s.hub_.fields,
                                  serialAnswer := ":A".toList }) := by
  show ((if ":A".toList.isPrefixOf (s.hub_.receive _).serialAnswer then DEVICE_OK
      else DEVICE_SERIAL_INVALID_RESPONSE), s.hub_.receive _) = _
  rw [← ha, SimCard.receive_write_type]
  rfl

theorem simHub_type_query_acknowledged (s : CPLogic SimCard)
    (ha : s.hub_.addressChar = s.addressChar_) :
    simHub.QueryCommandVerify s.hub_ (String.singleton s.addressChar_ ++ "CCA Y?") ":A" 0
      = (DEVICE_OK, { s.hub_ with serialAnswer := ":A Y=".toList ++
                        (s.hub_.fields.lookup (s.hub_.pointer, "CCA Y")).getD ['0'] }) := by
  show ((if ":A".toList.isPrefixOf (s.hub_.receive _).serialAnswer then DEVICE_OK
      else DEVICE_SERIAL_INVALID_RESPONSE), s.hub_.receive _) = _
  rw [← ha, SimCard.receive_query_type]
  rfl

/-- The `AfterSet` branch of `OnCellType` on the simulated hub, once the code of the written
name is known: what holds afterwards. -/
theorem type_write_core (s : CPLogic SimCard) (index code : Int)
    (hG : GetCurrentPropertyData s (GetCellPropertyName index CellSuffix._Type)
      = (DEVICE_OK, code))
    (ha : s.hub_.addressChar = s.addressChar_) (hx : s.hub_.axisLetter = s.axisLetter_)
    (hb : CellBound s index = true) :
    ∃ w, OnCellType simHub s (GetCellPropertyName index CellSuffix._Type)
        ActionType.AfterSet index = (DEVICE_OK, w) ∧
      w.hub_.addressChar = w.addressChar_ ∧ w.addressChar_ = s.addressChar_ ∧
      w.currentPosition_ = toUnsigned index ∧
      List.lookup (w.hub_.pointer, "CCA Y") w.hub_.fields = some (toString code).toList ∧
      w.properties_ (GetCellPropertyName index CellSuffix._Type)
        = s.properties_ (GetCellPropertyName index CellSuffix._Type) ∧
      (⟨String.singleton s.addressChar_ ++ "CCA Y=" ++ toString code, ":A", 0,
          toUnsigned index⟩ : BusCommand) ∈ issued s w := by
  have e0 : OnCellType simHub s (GetCellPropertyName index CellSuffix._Type)
      ActionType.AfterSet index =
      RETURN_ON_MM_ERROR (SetPosition simHub s (toUnsigned index)) fun s1 =>
      RETURN_ON_MM_ERROR
        (QueryCommandVerify simHub s1
          (String.singleton s1.addressChar_ ++ "CCA Y=" ++ toString code) ":A" 0)
        fun s2 =>
      RETURN_ON_MM_ERROR (RefreshCellPropertyValues simHub s2 index) fun s3 =>
        (DEVICE_OK, s3) := by
    simp only [OnCellType, reduceCtorEq, if_false, if_true, RETURN_ON_MM_ERROR_parse, hG]
    rfl
  rw [e0]
  -- the pointer move
  obtain ⟨hm, hma, _⟩ := SetPosition_sim s (toUnsigned index) hx
  have hmc := SetPosition_currentPosition simHub s (toUnsigned index) hm
  have hmS := Steps_SetPosition (toUnsigned index) simHub s (toUnsigned index)
  have hmT := SetPosition_properties_ne simHub s (toUnsigned index)
    (GetCellPropertyName index CellSuffix._Type) (by simp [GetCellPropertyName])
  rw [RETURN_ON_MM_ERROR_ok _ _ hm]
  generalize (SetPosition simHub s (toUnsigned index)).2 = sA at hma hmc hmS hmT ⊢
  have haA : sA.hub_.addressChar = sA.addressChar_ := by rw [hma, hmS.addressChar_, ha]
  have hbA : CellBound sA index = true := by
    simp only [CellBound] at hb ⊢
    simp only [BoundAt_of_action index _ hmS.action]
    exact hb
  -- the write command
  have hq := simHub_type_write_acknowledged sA (toString code) haA
  have hq1 : (QueryCommandVerify simHub sA
      (String.singleton sA.addressChar_ ++ "CCA Y=" ++ toString code) ":A" 0).1
      = DEVICE_OK := by
    rw [QueryCommandVerify_fst, hq]
  have hqh : (QueryCommandVerify simHub sA
      (String.singleton sA.addressChar_ ++ "CCA Y=" ++ toString code) ":A" 0).2.hub_
      = { sA.hub_ with fields := ((sA.hub_.pointer, "CCA Y"), (toString code).toList) ::
                         sA.hub_.fields, serialAnswer := ":A".toList } := by
    rw [QueryCommandVerify_hub, hq]
  have hqS := Steps_query_at simHub sA
    (String.singleton sA.addressChar_ ++ "CCA Y=" ++ toString code) ":A" 0
  have hqs := QueryCommandVerify_sent simHub sA
    (String.singleton sA.addressChar_ ++ "CCA Y=" ++ toString code) ":A" 0
  have hqc := QueryCommandVerify_currentPosition simHub sA
    (String.singleton sA.addressChar_ ++ "CCA Y=" ++ toString code) ":A" 0
  have hqp := QueryCommandVerify_properties simHub sA
    (String.singleton sA.addressChar_ ++ "CCA Y=" ++ toString code) ":A" 0
  rw [RETURN_ON_MM_ERROR_ok _ _ hq1]
  generalize (QueryCommandVerify simHub sA
      (String.singleton sA.addressChar_ ++ "CCA Y=" ++ toString code) ":A" 0).2 = sB
    at hqh hqS hqs hqc hqp ⊢
  have haB : sB.hub_.addressChar = sB.addressChar_ := by
    rw [hqh, hqS.addressChar_]
    exact haA
  have hcB : sB.currentPosition_ = toUnsigned index := by rw [hqc, hmc]
  have hbB : CellBound sB index = true := by
    simp only [CellBound] at hbA ⊢
    simp only [BoundAt_of_action index _ hqS.action]
    exact hbA
  -- the re-reads
  obtain ⟨hr1, _, hrQ⟩ := Quiet_RefreshCellPropertyValues sB index hbB haB hcB
  rw [RETURN_ON_MM_ERROR_ok _ _ hr1]
  refine ⟨_, rfl, ?_, ?_, ?_, ?_, ?_, ?_⟩
  · rw [hrQ.cardAddress, hrQ.addressChar_]
    exact haB
  · rw [hrQ.addressChar_, hqS.addressChar_, hmS.addressChar_]
  · rw [hrQ.currentPosition_]
    exact hcB
  · rw [hrQ.pointer, hrQ.fields, hqh]
    simp [List.lookup]
  · rw [hrQ.property, hqp, hmT]
  · obtain ⟨lA, eA, _⟩ := hmS.sent
    obtain ⟨lR, eR⟩ := hrQ.sent
    rw [issued_of_append s _ (lA ++ [⟨String.singleton sA.addressChar_ ++ "CCA Y=" ++
      toString code, ":A", 0, sA.currentPosition_⟩] ++ lR)
      (by rw [eR, hqs, eA]; simp only [List.append_assoc])]
    rw [hmS.addressChar_, hmc]
    simp

/-- The forced read of a cell type on the simulated hub, when the card holds the text of
`entry.2` for the field `CCA Y` under its pointer. -/
theorem type_read_core (t : CPLogic SimCard) (index : Int) (entry : Str × Int)
    (hentry : entry ∈ CellTypeAllowed)
    (ha : t.hub_.addressChar = t.addressChar_)
    (hc : t.currentPosition_ = toUnsigned index)
    (hl : List.lookup (t.hub_.pointer, "CCA Y") t.hub_.fields = some (toString entry.2).toList)
    (hex : (t.properties_ (GetCellPropertyName index CellSuffix._Type)).isSome = true)
    (hr : t.refreshProps_ = true) :
    (OnCellType simHub t (GetCellPropertyName index CellSuffix._Type) ActionType.BeforeGet
      index).1 = DEVICE_OK ∧
    PropValue
      (OnCellType simHub t (GetCellPropertyName index CellSuffix._Type) ActionType.BeforeGet
        index).2 (GetCellPropertyName index CellSuffix._Type) = some (Value.str entry.1) ∧
    issued t
      (OnCellType simHub t (GetCellPropertyName index CellSuffix._Type) ActionType.BeforeGet
        index).2
      = [⟨String.singleton t.addressChar_ ++ "CCA Y?", ":A", 0, toUnsigned index⟩] := by
  have hit := SetPosition_hit simHub t (toUnsigned index) hc
  have hqa := simHub_type_query_acknowledged t ha
  rw [hl] at hqa
  have e := OnCellType_read simHub t (GetCellPropertyName index CellSuffix._Type) index entry.2
    (by simp [hr]) (by rw [hit]) (by rw [hit, hqa])
    (by rw [hit, hqa]; exact simHub_parse_echo t.hub_ entry hentry)
  rw [e, hit, SetTypeCode_of_mem _ _ entry.2 entry.1 hentry, SetOrInvalid_PropSet]
  refine ⟨rfl, PropSet_value _ _ _ ?_, ?_⟩
  · rw [QueryCommandVerify_properties]
    exact hex
  · apply issued_of_append
    rw [PropSet_frame, ← hc]
    rfl

/-- C10: against the simulated card, which stores what is written and echoes it on query:
for every cell index `index` in `1..N` (`N` the cell count, an `unsigned int`) and every type
code `entry.2` in `0..9` with its name `entry.1`, on a driver whose card is the simulated
card and whose cell properties are as `OnAdvancedProperties` creates them: the write of the
name to the type property of the cell succeeds and sends `<addr>CCA Y=<code>` with the
pointer at `index`; the read of the property that follows, with refresh forced, succeeds,
sends exactly `<addr>CCA Y?` with the pointer at `index`, and the property then holds the
name of the code that was written. -/
theorem cell_type_round_trip (s : CPLogic SimCard) (index : Int) (entry : Str × Int)
    (hentry : entry ∈ CellTypeAllowed) (h1 : 1 ≤ index) (hN : index ≤ s.numCells_)
    (hcells : s.numCells_ < 4294967296)
    (ha : s.hub_.addressChar = s.addressChar_) (hx : s.hub_.axisLetter = s.axisLetter_)
    (hall : (s.properties_ (GetCellPropertyName index CellSuffix._Type)).map Property.allowed
      = some CellTypeAllowed)
    (hb : CellBound s index = true) :
    (WriteCellType simHub s index entry.1).1 = DEVICE_OK ∧
    (⟨String.singleton s.addressChar_ ++ "CCA Y=" ++ toString entry.2, ":A", 0,
        index.toNat⟩ : BusCommand) ∈ issued s (WriteCellType simHub s index entry.1).2 ∧
    (ReadCellTypeForced simHub (WriteCellType simHub s index entry.1).2 index).1
      = DEVICE_OK ∧
    issued (WriteCellType simHub s index entry.1).2
      (ReadCellTypeForced simHub (WriteCellType simHub s index entry.1).2 index).2
      = [⟨String.singleton s.addressChar_ ++ "CCA Y?", ":A", 0, index.toNat⟩] ∧
    PropValue (ReadCellTypeForced simHub (WriteCellType simHub s index entry.1).2 index).2
      (GetCellPropertyName index CellSuffix._Type) = some (Value.str entry.1) := by
  have hu : toUnsigned index = index.toNat := by
    unfold toUnsigned
    rw [Int.emod_eq_of_lt (by omega) (by omega)]
  obtain ⟨p, hp, hpa⟩ : ∃ p, s.properties_ (GetCellPropertyName index CellSuffix._Type)
      = some p ∧ p.allowed = CellTypeAllowed := by
    cases h : s.properties_ (GetCellPropertyName index CellSuffix._Type) with
    | none => rw [h] at hall; cases hall
    | some p => rw [h] at hall; exact ⟨p, rfl, by simpa using hall⟩
  -- the state in which the handler runs for the write
  have f := PropSet_frame s (GetCellPropertyName index CellSuffix._Type) (Value.str entry.1)
  have hT : (PropSet s (GetCellPropertyName index CellSuffix._Type)
      (Value.str entry.1)).2.properties_ (GetCellPropertyName index CellSuffix._Type) =
      some { p with value := Value.str entry.1 } := by
    simp [PropSet, hp]
  have hG : GetCurrentPropertyData
      (PropSet s (GetCellPropertyName index CellSuffix._Type) (Value.str entry.1)).2
      (GetCellPropertyName index CellSuffix._Type) = (DEVICE_OK, entry.2) := by
    unfold GetCurrentPropertyData
    rw [hT]
    simp [hpa, CellTypeAllowed_lookup entry hentry]
  have hb' : CellBound
      (PropSet s (GetCellPropertyName index CellSuffix._Type) (Value.str entry.1)).2 index
      = true := by
    simp only [CellBound] at hb ⊢
    simp only [BoundAt_of_action index _ (PropSet_action s _ _)]
    exact hb
  obtain ⟨w, hw, wa, wa', wc, wl, wp, wi⟩ := type_write_core
    (PropSet s (GetCellPropertyName index CellSuffix._Type) (Value.str entry.1)).2 index
    entry.2 hG (by rw [f]; exact ha) (by rw [f]; exact hx) hb'
  have hw' : WriteCellType simHub s index entry.1 = (DEVICE_OK, w) := hw
  have fa : (PropSet s (GetCellPropertyName index CellSuffix._Type)
      (Value.str entry.1)).2.addressChar_ = s.addressChar_ := by rw [f]
  have wi' : (⟨String.singleton s.addressChar_ ++ "CCA Y=" ++ toString entry.2, ":A", 0,
      index.toNat⟩ : BusCommand) ∈ issued s w := by
    rw [fa, hu] at wi
    have : issued (PropSet s (GetCellPropertyName index CellSuffix._Type)
      (Value.str entry.1)).2 w = issued s w := by
      unfold issued
      rw [f]
    rw [← this]
    exact wi
  obtain ⟨r1, r2, r3⟩ := type_read_core { w with refreshProps_ := true } index entry hentry
    wa wc wl (by
      show (w.properties_ (GetCellPropertyName index CellSuffix._Type)).isSome = true
      rw [wp, hT]
      rfl) rfl
  rw [hw']
  refine ⟨rfl, wi', r1, ?_, r2⟩
  have r3' : issued w (ReadCellTypeForced simHub w index).2 =
      [⟨String.singleton w.addressChar_ ++ "CCA Y?", ":A", 0, toUnsigned index⟩] := r3
  rw [r3', wa', fa, hu]

set_option maxRecDepth 100000 in
/-- C10 at an instance: on the driver of the examples (two cells, advanced properties on),
writing `g_TypeCode3` to the type of cell 2 and reading it back with refresh forced. -/
theorem cell_type_round_trip_witness :
    (WriteCellType simHub simAdvancedCard 2 Str.g_TypeCode3).1 = DEVICE_OK ∧
    (ReadCellTypeForced simHub (WriteCellType simHub simAdvancedCard 2 Str.g_TypeCode3).2
      2).1 = DEVICE_OK ∧
    PropValue
      (ReadCellTypeForced simHub (WriteCellType simHub simAdvancedCard 2 Str.g_TypeCode3).2
        2).2 (GetCellPropertyName 2 CellSuffix._Type) = some (Value.str Str.g_TypeCode3) :=
  have h := cell_type_round_trip simAdvancedCard 2 (Str.g_TypeCode3, 3) (by decide)
    (by decide) (by decide) (by decide) (by decide) (by decide) (by decide) (by decide)
  ⟨h.1, h.2.2.1, h.2.2.2.2⟩

/-! ## Steps that create or remove no property -/

theorem SameProperties.same_state (s : CPLogic σ) : SameProperties s s := ⟨rfl, fun _ => rfl⟩

theorem SameProperties.next {s s1 s2 : CPLogic σ} (h1 : SameProperties s s1)
    (h2 : SameProperties s1 s2) : SameProperties s s2 :=
  ⟨by rw [h2.numCells_, h1.numCells_], fun name => by rw [h2.action, h1.action]⟩

theorem SameProperties.isSome_eq {s s1 : CPLogic σ} (h : SameProperties s s1)
    (name : PropName) : (s1.properties_ name).isSome = (s.properties_ name).isSome := by
  have e := h.action name
  cases h1 : s1.properties_ name <;> cases h0 : s.properties_ name <;> simp_all

theorem SameProperties_query (hub : Hub σ) (s : CPLogic σ) (command expected : String)
    (d : Nat) : SameProperties s (QueryCommandVerify hub s command expected d).2 :=
  ⟨rfl, fun _ => rfl⟩

theorem SameProperties_PropSet (s : CPLogic σ) (pProp : PropName) (v : Value) :
    SameProperties s (PropSet s pProp v).2 :=
  ⟨by rw [PropSet_frame], PropSet_action s pProp v⟩

theorem SameProperties_of_Steps {n : Nat} {s s1 : CPLogic σ} (h : Steps n s s1)
    (hn : s1.numCells_ = s.numCells_) : SameProperties s s1 := ⟨hn, h.action⟩

theorem SetPosition_numCells (hub : Hub σ) (s : CPLogic σ) (n : Nat) :
    (SetPosition hub s n).2.numCells_ = s.numCells_ :=
  have h : Untouched PropName.g_AxisLetterPropertyName s (SetPosition hub s n).2 :=
    Untouched_SetPosition hub s n (by decide)
  h.numCells_

theorem SameProperties_SetPosition (hub : Hub σ) (s : CPLogic σ) (n : Nat) :
    SameProperties s (SetPosition hub s n).2 :=
  ⟨SetPosition_numCells hub s n, (Steps_SetPosition 0 hub s n).action⟩

theorem SameProperties_store_long (s : CPLogic σ) (pProp : PropName) (tmp : Int) :
    SameProperties s (SetLong s pProp tmp).2 := SameProperties_PropSet s pProp _

theorem SameProperties_SetTypeCode (s : CPLogic σ) (pProp : PropName) (tmp : Int) :
    SameProperties s (SetTypeCode s pProp tmp).2 := by
  unfold SetTypeCode
  repeat' split
  all_goals first | exact SameProperties_PropSet s pProp _ | exact SameProperties.same_state s

theorem SameProperties_SetSourceCode (s : CPLogic σ) (pProp : PropName) (tmp : Int) :
    SameProperties s (SetSourceCode s pProp tmp).2 := by
  unfold SetSourceCode
  repeat' split
  all_goals first | exact SameProperties_PropSet s pProp _ | exact SameProperties.same_state s

/-- A send, a parse and a store in a row, as every read branch has them. -/
theorem SameProperties_read_tail (hub : Hub σ) (s : CPLogic σ) (command expected : String)
    {α : Type} (parse : σ → Int × α) (store : CPLogic σ → α → Bool × CPLogic σ)
    (hstore : ∀ t v, SameProperties t (store t v).2) :
    SameProperties s
      (RETURN_ON_MM_ERROR (QueryCommandVerify hub s command expected 0) fun s1 =>
        RETURN_ON_MM_ERROR_parse (parse s1.hub_) s1 fun v =>
        SetOrInvalid (store s1 v) fun s2 => (DEVICE_OK, s2)).2 := by
  unfold RETURN_ON_MM_ERROR
  split
  · exact SameProperties_query hub s _ _ _
  · unfold RETURN_ON_MM_ERROR_parse
    dsimp only
    split
    · exact SameProperties_query hub s _ _ _
    · rw [SetOrInvalid_snd]
      exact (SameProperties_query hub s _ _ _).next (hstore _ _)

theorem SameProperties_FieldRead (query : String)
    (store : CPLogic σ → PropName → Int → Bool × CPLogic σ)
    (hstore : ∀ s p tmp, SameProperties s (store s p tmp).2)
    (hub : Hub σ) (s : CPLogic σ) (pProp : PropName) (index : Int) :
    SameProperties s (FieldRead query store hub s pProp index).2 := by
  unfold FieldRead
  split
  · exact SameProperties.same_state s
  · unfold RETURN_ON_MM_ERROR
    split
    · exact SameProperties_SetPosition hub s _
    · exact (SameProperties_SetPosition hub s _).next
        (SameProperties_read_tail hub _ _ _ hub.ParseAnswerAfterEquals
          (fun t v => store t pProp v) (fun t v => hstore t pProp v))

theorem SameProperties_RefreshCurrentPosition (hub : Hub σ) (s : CPLogic σ) :
    SameProperties s (RefreshCurrentPosition hub s).2 := by
  unfold RefreshCurrentPosition RETURN_ON_MM_ERROR
  split
  · exact ⟨rfl, fun _ => rfl⟩
  · dsimp only
    split <;> exact ⟨rfl, fun _ => rfl⟩

theorem SameProperties_OnPointerPosition_BeforeGet (hub : Hub σ) (s : CPLogic σ)
    (pProp : PropName) : SameProperties s (OnPointerPosition_BeforeGet hub s pProp).2 := by
  unfold OnPointerPosition_BeforeGet
  split
  · exact SameProperties.same_state s
  · dsimp only
    unfold SetOrInvalid
    have h1 := (SameProperties_RefreshCurrentPosition hub s).next
      (SameProperties_PropSet (RefreshCurrentPosition hub s).2 pProp
        (Value.int (RefreshCurrentPosition hub s).2.currentPosition_))
    split
    · exact h1
    · exact ⟨h1.numCells_, h1.action⟩

theorem SameProperties_ExecuteBeforeGet (hub : Hub σ) (s : CPLogic σ) (pProp : PropName)
    (h : Handler) : SameProperties s (ExecuteBeforeGet hub s pProp h).2 := by
  cases h with
  | OnPointerPosition => exact SameProperties_OnPointerPosition_BeforeGet hub s pProp
  | OnPLogicOutputState =>
    exact SameProperties_read_tail hub s _ _ hub.ParseAnswerAfterPosition2
      (fun t v => PropSet t pProp (Value.int v)) (fun t v => SameProperties_PropSet t pProp _)
  | OnFrontpanelOutputState =>
    exact SameProperties_read_tail hub s _ _ hub.ParseAnswerAfterPosition2
      (fun t v => PropSet t pProp (Value.int v)) (fun t v => SameProperties_PropSet t pProp _)
  | OnBackplaneOutputState =>
    exact SameProperties_read_tail hub s _ _ hub.ParseAnswerAfterPosition2
      (fun t v => PropSet t pProp (Value.int v)) (fun t v => SameProperties_PropSet t pProp _)
  | OnTriggerSource =>
    show SameProperties s (OnTriggerSource hub s pProp ActionType.BeforeGet).2
    simp only [OnTriggerSource, if_true]
    split
    · exact SameProperties.same_state s
    · exact SameProperties_read_tail hub s _ _ hub.ParseAnswerAfterEquals
        (fun t v => SetSourceCode t pProp v) (fun t v => SameProperties_SetSourceCode t pProp v)
  | OnRefreshProperties => exact SameProperties.same_state s
  | OnSaveCardSettings => exact SameProperties.same_state s
  | OnAdvancedProperties => exact SameProperties.same_state s
  | OnCellType index =>
    exact SameProperties_FieldRead "CCA Y?" SetTypeCode SameProperties_SetTypeCode hub s _ index
  | OnCellConfig index =>
    exact SameProperties_FieldRead "CCA Z?" SetLong SameProperties_store_long hub s _ index
  | OnInputX index =>
    exact SameProperties_FieldRead "CCB X?" SetLong SameProperties_store_long hub s _ index
  | OnInputY index =>
    exact SameProperties_FieldRead "CCB Y?" SetLong SameProperties_store_long hub s _ index
  | OnInputZ index =>
    exact SameProperties_FieldRead "CCB Z?" SetLong SameProperties_store_long hub s _ index
  | OnInputF index =>
    exact SameProperties_FieldRead "CCB F?" SetLong SameProperties_store_long hub s _ index
  | OnIOSourceAddress index =>
    exact SameProperties_FieldRead "CCA Z?" SetLong SameProperties_store_long hub s _ index

theorem SameProperties_UpdateProperty (hub : Hub σ) (s : CPLogic σ) (name : PropName) :
    SameProperties s (UpdateProperty hub s name).2 := by
  unfold UpdateProperty
  cases s.properties_ name with
  | none => exact SameProperties.same_state s
  | some p =>
    dsimp only
    cases p.action with
    | none => exact SameProperties.same_state s
    | some h => exact SameProperties_ExecuteBeforeGet hub s name h

theorem SameProperties_AddAllowedValue (s : CPLogic σ) (name : PropName) (value : Str)
    (data : Int) : SameProperties s (AddAllowedValue s name value data).2 := by
  unfold AddAllowedValue
  cases hp : s.properties_ name with
  | none => exact SameProperties.same_state s
  | some p =>
    dsimp only
    split
    · exact SameProperties.same_state s
    · refine ⟨rfl, fun name' => ?_⟩
      by_cases e : name' = name
      · subst e
        simp [hp]
      · simp [Function.update_noteq e]

theorem CreateProperty_existing (s : CPLogic σ) (name : PropName) (v : Value)
    (readOnly : Bool) (pAct : Option Handler) (h : (s.properties_ name).isSome = true) :
    (CreateProperty s name v readOnly pAct).2 = s := by
  unfold CreateProperty
  cases hp : s.properties_ name with
  | none => rw [hp] at h; cases h
  | some p => rfl

theorem SameProperties.grows {s s1 : CPLogic σ} (h : SameProperties s s1) : Grows s s1 :=
  ⟨h.numCells_, fun name hn => by rw [h.isSome_eq]; exact hn⟩

theorem Grows.andGrows {s s1 s2 : CPLogic σ} (h1 : Grows s s1) (h2 : Grows s1 s2) :
    Grows s s2 :=
  ⟨by rw [h2.numCells_, h1.numCells_], fun name hn => h2.present name (h1.present name hn)⟩

theorem Grows_CreateProperty (s : CPLogic σ) (name : PropName) (v : Value) (readOnly : Bool)
    (pAct : Option Handler) :
    Grows s (CreateProperty s name v readOnly pAct).2 ∧
      ((CreateProperty s name v readOnly pAct).2.properties_ name).isSome = true := by
  unfold CreateProperty
  cases hp : s.properties_ name with
  | some p => exact ⟨⟨rfl, fun _ h => h⟩, by dsimp only; rw [hp]; rfl⟩
  | none =>
    refine ⟨⟨rfl, fun name' h => ?_⟩, by simp⟩
    by_cases e : name' = name
    · subst e
      rw [hp] at h
      cases h
    · simpa [Function.update_noteq e] using h

theorem GrowsWith_start (s : CPLogic σ) : GrowsWith [] s s :=
  ⟨⟨rfl, fun _ h => h⟩, fun _ h => by cases h⟩

theorem GrowsWith_same {names : List PropName} {s t t1 : CPLogic σ}
    (h : GrowsWith names s t) (h1 : SameProperties t t1) : GrowsWith names s t1 :=
  ⟨h.1.andGrows h1.grows, fun name hn => h1.grows.present name (h.2 name hn)⟩

theorem GrowsWith_create {names : List PropName} {s t : CPLogic σ} (name : PropName)
    (v : Value) (readOnly : Bool) (pAct : Option Handler) (h : GrowsWith names s t) :
    GrowsWith (name :: names) s (CreateProperty t name v readOnly pAct).2 := by
  obtain ⟨hg, hn⟩ := Grows_CreateProperty t name v readOnly pAct
  refine ⟨h.1.andGrows hg, fun name' hm => ?_⟩
  rcases List.mem_cons.1 hm with rfl | hm
  · exact hn
  · exact hg.present name' (h.2 name' hm)

theorem SameProperties_create_existing {s t : CPLogic σ} (name : PropName) (v : Value)
    (readOnly : Bool) (pAct : Option Handler) (h : SameProperties s t)
    (hs : (s.properties_ name).isSome = true) :
    SameProperties s (CreateProperty t name v readOnly pAct).2 := by
  rw [CreateProperty_existing t name v readOnly pAct (by rw [h.isSome_eq]; exact hs)]
  exact h

/-- One pass of the first loop creates the six properties of the cell and removes none. -/
theorem AdvancedCell_grows (hub : Hub σ) (s : CPLogic σ) (i : Nat) :
    GrowsWith
      [GetCellPropertyName i CellSuffix._InputF, GetCellPropertyName i CellSuffix._InputZ,
       GetCellPropertyName i CellSuffix._InputY, GetCellPropertyName i CellSuffix._InputX,
       GetCellPropertyName i CellSuffix._Config, GetCellPropertyName i CellSuffix._Type]
      s (AdvancedCell hub s i) := by
  unfold AdvancedCell
  dsimp only
  repeat first
    | refine GrowsWith_same ?_ (SameProperties_UpdateProperty hub _ _)
    | refine GrowsWith_same ?_ (SameProperties_AddAllowedValue _ _ _ _)
    | refine GrowsWith_create _ _ _ _ ?_
  exact GrowsWith_start s

theorem AdvancedCell_present (hub : Hub σ) (s : CPLogic σ) (i : Nat) (suffix : CellSuffix) :
    ((AdvancedCell hub s i).properties_ (GetCellPropertyName i suffix)).isSome = true := by
  apply (AdvancedCell_grows hub s i).2
  cases suffix <;> simp

/-- One pass of the first loop over a cell whose six properties exist creates nothing. -/
theorem AdvancedCell_same (hub : Hub σ) (s : CPLogic σ) (i : Nat)
    (hex : ∀ suffix, (s.properties_ (GetCellPropertyName i suffix)).isSome = true) :
    SameProperties s (AdvancedCell hub s i) := by
  unfold AdvancedCell
  dsimp only
  repeat first
    | refine SameProperties.next ?_ (SameProperties_UpdateProperty hub _ _)
    | refine SameProperties.next ?_ (SameProperties_AddAllowedValue _ _ _ _)
    | refine SameProperties_create_existing _ _ _ _ ?_ (hex _)
  exact SameProperties.same_state s

theorem AdvancedFrontpanel_grows (hub : Hub σ) (s : CPLogic σ) (i : Nat) :
    GrowsWith [GetIOFrontpanelPropertyName i] s (AdvancedFrontpanel hub s i) :=
  GrowsWith_same (GrowsWith_create _ _ _ _ (GrowsWith_start s))
    (SameProperties_UpdateProperty hub _ _)

theorem AdvancedFrontpanel_same (hub : Hub σ) (s : CPLogic σ) (i : Nat)
    (hex : (s.properties_ (GetIOFrontpanelPropertyName i)).isSome = true) :
    SameProperties s (AdvancedFrontpanel hub s i) :=
  (SameProperties_create_existing _ _ _ _ (SameProperties.same_state s) hex).next
    (SameProperties_UpdateProperty hub _ _)

theorem AdvancedBackplane_grows (hub : Hub σ) (s : CPLogic σ) (i : Nat) :
    GrowsWith [GetIOBackplanePropertyName i] s (AdvancedBackplane hub s i) :=
  GrowsWith_same (GrowsWith_create _ _ _ _ (GrowsWith_start s))
    (SameProperties_UpdateProperty hub _ _)

theorem AdvancedBackplane_same (hub : Hub σ) (s : CPLogic σ) (i : Nat)
    (hex : (s.properties_ (GetIOBackplanePropertyName i)).isSome = true) :
    SameProperties s (AdvancedBackplane hub s i) :=
  (SameProperties_create_existing _ _ _ _ (SameProperties.same_state s) hex).next
    (SameProperties_UpdateProperty hub _ _)

/-- A loop whose every pass removes nothing and creates the property `name i` leaves, at its
end, the property of every index it ran over. -/
theorem foldl_grows (f : CPLogic σ → Nat → CPLogic σ) (name : Nat → PropName)
    (hf : ∀ t i, Grows t (f t i) ∧ ((f t i).properties_ (name i)).isSome = true) :
    ∀ (l : List Nat) (s : CPLogic σ),
      Grows s (l.foldl f s) ∧ ∀ i ∈ l, ((l.foldl f s).properties_ (name i)).isSome = true
  | [], s => ⟨⟨rfl, fun _ h => h⟩, fun _ h => by cases h⟩
  | a :: l, s => by
    obtain ⟨hg, hp⟩ := foldl_grows f name hf l (f s a)
    refine ⟨(hf s a).1.andGrows hg, fun i hi => ?_⟩
    rcases List.mem_cons.1 hi with rfl | hi
    · exact hg.present _ (hf s i).2
    · exact hp i hi

/-- A loop whose every pass keeps the properties as they are keeps them as they are. -/
theorem foldl_same (f : CPLogic σ → Nat → CPLogic σ) (s : CPLogic σ) :
    ∀ (l : List Nat) (t : CPLogic σ), SameProperties s t →
      (∀ t i, i ∈ l → SameProperties s t → SameProperties s (f t i)) →
      SameProperties s (l.foldl f t)
  | [], _, h, _ => h
  | a :: l, t, h, hf =>
    foldl_same f s l (f t a) (hf t a (List.mem_cons_self a l) h)
      (fun t i hi => hf t i (List.mem_cons_of_mem a hi))

theorem AdvancedExist_iff (s : CPLogic σ) :
    AdvancedExist s = true ↔
      (∀ i ∈ List.range' 1 s.numCells_, ∀ suffix : CellSuffix,
        (s.properties_ (GetCellPropertyName i suffix)).isSome = true) ∧
      (∀ i ∈ List.range' PLOGIC_FRONTPANEL_START_ADDRESS 8,
        (s.properties_ (GetIOFrontpanelPropertyName i)).isSome = true) ∧
      (∀ i ∈ List.range' PLOGIC_BACKPLANE_START_ADDRESS 8,
        (s.properties_ (GetIOBackplanePropertyName i)).isSome = true) := by
  unfold AdvancedExist
  rw [Bool.and_eq_true, Bool.and_eq_true, List.all_eq_true, List.all_eq_true,
    List.all_eq_true, and_assoc]
  refine and_congr (forall_congr' fun i => forall_congr' fun _ => ?_) Iff.rfl
  rw [List.all_eq_true]
  constructor
  · intro h suffix
    exact h suffix (by cases suffix <;> simp [cellSuffixes])
  · intro h suffix _
    exact h suffix

/-- The three loops of `OnAdvancedProperties`, from any state: nothing is removed and all the
advanced properties exist afterwards. -/
theorem advanced_loops_create (hub : Hub σ) (s : CPLogic σ) (pProp : PropName)
    (hyes : PropGetStr s pProp = some Str.g_YesState) :
    AdvancedExist (OnAdvancedProperties hub s pProp ActionType.AfterSet).2 = true := by
  simp only [OnAdvancedProperties, reduceCtorEq, if_false, if_true, hyes]
  obtain ⟨g1, p1⟩ : Grows { s with refreshProps_ := true }
      ((List.range' 1 s.numCells_).foldl (AdvancedCell hub) { s with refreshProps_ := true }) ∧
      ∀ i ∈ List.range' 1 s.numCells_, ∀ suffix : CellSuffix,
        (((List.range' 1 s.numCells_).foldl (AdvancedCell hub)
          { s with refreshProps_ := true }).properties_
            (GetCellPropertyName i suffix)).isSome = true := by
    refine ⟨(foldl_grows (AdvancedCell hub)
      (fun i => GetCellPropertyName i CellSuffix._Type)
      (fun t i => ⟨(AdvancedCell_grows hub t i).1, AdvancedCell_present hub t i _⟩) _ _).1,
      fun i hi suffix => ?_⟩
    exact (foldl_grows (AdvancedCell hub) (fun i => GetCellPropertyName i suffix)
      (fun t i => ⟨(AdvancedCell_grows hub t i).1, AdvancedCell_present hub t i _⟩) _ _).2 i hi
  generalize (List.range' 1 s.numCells_).foldl (AdvancedCell hub)
    { s with refreshProps_ := true } = s1 at g1 p1 ⊢
  obtain ⟨g2, p2⟩ := foldl_grows (AdvancedFrontpanel hub)
    (fun i => GetIOFrontpanelPropertyName i)
    (fun t i => ⟨(AdvancedFrontpanel_grows hub t i).1,
      (AdvancedFrontpanel_grows hub t i).2 _ (List.mem_singleton_self _)⟩)
    (List.range' PLOGIC_FRONTPANEL_START_ADDRESS 8) s1
  have e2 : PLOGIC_FRONTPANEL_END_ADDRESS - PLOGIC_FRONTPANEL_START_ADDRESS + 1 = 8 := rfl
  have e3 : PLOGIC_BACKPLANE_END_ADDRESS - PLOGIC_BACKPLANE_START_ADDRESS + 1 = 8 := rfl
  rw [e2, e3]
  generalize (List.range' PLOGIC_FRONTPANEL_START_ADDRESS 8).foldl (AdvancedFrontpanel hub) s1
    = s2 at g2 p2 ⊢
  obtain ⟨g3, p3⟩ := foldl_grows (AdvancedBackplane hub)
    (fun i => GetIOBackplanePropertyName i)
    (fun t i => ⟨(AdvancedBackplane_grows hub t i).1,
      (AdvancedBackplane_grows hub t i).2 _ (List.mem_singleton_self _)⟩)
    (List.range' PLOGIC_BACKPLANE_START_ADDRESS 8) s2
  generalize (List.range' PLOGIC_BACKPLANE_START_ADDRESS 8).foldl (AdvancedBackplane hub) s2
    = s3 at g3 p3 ⊢
  rw [AdvancedExist_iff]
  have hn : s3.numCells_ = s.numCells_ := by rw [g3.numCells_, g2.numCells_, g1.numCells_]
  refine ⟨fun i hi suffix => ?_, fun i hi => ?_, fun i hi => ?_⟩
  · exact g3.present _ (g2.present _ (p1 i (by simpa only [hn] using hi) suffix))
  · exact g3.present _ (p2 i hi)
  · exact p3 i hi

/-- The three loops of `OnAdvancedProperties`, from a state in which all the advanced
properties exist: the properties stay as they are. -/
theorem advanced_loops_again (hub : Hub σ) (t : CPLogic σ) (pProp : PropName)
    (hen : AdvancedExist t = true) (hyes : PropGetStr t pProp = some Str.g_YesState) :
    SameProperties t (OnAdvancedProperties hub t pProp ActionType.AfterSet).2 ∧
      (OnAdvancedProperties hub t pProp ActionType.AfterSet).2.refreshProps_
        = t.refreshProps_ := by
  simp only [OnAdvancedProperties, reduceCtorEq, if_false, if_true, hyes, and_true]
  obtain ⟨x1, x2, x3⟩ := (AdvancedExist_iff t).1 hen
  have e2 : PLOGIC_FRONTPANEL_END_ADDRESS - PLOGIC_FRONTPANEL_START_ADDRESS + 1 = 8 := rfl
  have e3 : PLOGIC_BACKPLANE_END_ADDRESS - PLOGIC_BACKPLANE_START_ADDRESS + 1 = 8 := rfl
  rw [e2, e3]
  have h0 : SameProperties t { t with refreshProps_ := true } := ⟨rfl, fun _ => rfl⟩
  have h1 := foldl_same (AdvancedCell hub) t (List.range' 1 t.numCells_) _ h0
    (fun u i hi hu => hu.next (AdvancedCell_same hub u i
      (fun suffix => by rw [hu.isSome_eq]; exact x1 i hi suffix)))
  have h2 := foldl_same (AdvancedFrontpanel hub) t
    (List.range' PLOGIC_FRONTPANEL_START_ADDRESS 8) _ h1
    (fun u i hi hu => hu.next (AdvancedFrontpanel_same hub u i
      (by rw [hu.isSome_eq]; exact x2 i hi)))
  have h3 := foldl_same (AdvancedBackplane hub) t
    (List.range' PLOGIC_BACKPLANE_START_ADDRESS 8) _ h2
    (fun u i hi hu => hu.next (AdvancedBackplane_same hub u i
      (by rw [hu.isSome_eq]; exact x3 i hi)))
  exact ⟨h3.numCells_, h3.action⟩

theorem AdvancedExist_of_same {s s1 : CPLogic σ} (h : SameProperties s s1)
    (hen : AdvancedExist s = true) : AdvancedExist s1 = true := by
  rw [AdvancedExist_iff] at hen ⊢
  simp only [h.numCells_, h.isSome_eq]
  exact hen

/-! ## C11: further writes to the advanced-properties toggle -/

set_option maxRecDepth 100000 in
/-- C11, as stated, fails for a second write of `g_YesState`: on the driver of the examples
with the advanced properties switched on, the handler run again for `AfterSet` with the toggle
holding `g_YesState` issues 53 bus commands, the first two being the move to cell 1 and the
read of its type; and when the cached pointer stood at 2 before that write it stands at 48
after it. -/
theorem second_yes_write_reads_again :
    (issued (advancedCard 3)
      (OnAdvancedProperties (scriptHub 0 3)
        (PropSet (advancedCard 3) PropName.g_AdvancedPropertiesPropertyName
          (Value.str Str.g_YesState)).2
        PropName.g_AdvancedPropertiesPropertyName ActionType.AfterSet).2).length = 53 ∧
    (issued (advancedCard 3)
      (OnAdvancedProperties (scriptHub 0 3)
        (PropSet (advancedCard 3) PropName.g_AdvancedPropertiesPropertyName
          (Value.str Str.g_YesState)).2
        PropName.g_AdvancedPropertiesPropertyName ActionType.AfterSet).2).take 2
      = [⟨"M E=1", ":A", 0, 48⟩, ⟨"1CCA Y?", ":A", 0, 1⟩] ∧
    (SetPosition (scriptHub 0 3) (advancedCard 3) 2).2.currentPosition_ = 2 ∧
    (OnAdvancedProperties (scriptHub 0 3)
      (PropSet (SetPosition (scriptHub 0 3) (advancedCard 3) 2).2
        PropName.g_AdvancedPropertiesPropertyName (Value.str Str.g_YesState)).2
      PropName.g_AdvancedPropertiesPropertyName ActionType.AfterSet).2.currentPosition_
      = 48 := by
  decide

/-- C11, amended: a first run of the toggle handler for `AfterSet` with the property holding
`g_YesState` makes all the advanced properties exist (first part).  A further run with the
property holding `g_NoState` is a no-op: it returns `DEVICE_OK`, leaves the driver as it is
and issues no bus command (second part).  A further run with the property holding
`g_YesState`, in a state `t` in which all the advanced properties exist, returns `DEVICE_OK`,
creates and removes no property, keeps the binding of every property and the cell count,
leaves the refresh flag unchanged, and all the advanced properties still exist afterwards
(third part); nothing is said there about bus commands or the cached pointer. -/
theorem advanced_toggle_further_write (hub : Hub σ) (s t : CPLogic σ) (pProp : PropName) :
    (PropGetStr s pProp = some Str.g_YesState →
      AdvancedExist (OnAdvancedProperties hub s pProp ActionType.AfterSet).2 = true) ∧
    (PropGetStr t pProp = some Str.g_NoState →
      OnAdvancedProperties hub t pProp ActionType.AfterSet = (DEVICE_OK, t) ∧
      issued t (OnAdvancedProperties hub t pProp ActionType.AfterSet).2 = []) ∧
    (AdvancedExist t = true → PropGetStr t pProp = some Str.g_YesState →
      (OnAdvancedProperties hub t pProp ActionType.AfterSet).1 = DEVICE_OK ∧
      (∀ name, ((OnAdvancedProperties hub t pProp ActionType.AfterSet).2.properties_
          name).isSome = (t.properties_ name).isSome) ∧
      (∀ name, ((OnAdvancedProperties hub t pProp ActionType.AfterSet).2.properties_
          name).map Property.action = (t.properties_ name).map Property.action) ∧
      (OnAdvancedProperties hub t pProp ActionType.AfterSet).2.numCells_ = t.numCells_ ∧
      (OnAdvancedProperties hub t pProp ActionType.AfterSet).2.refreshProps_
        = t.refreshProps_ ∧
      AdvancedExist (OnAdvancedProperties hub t pProp ActionType.AfterSet).2 = true) := by
  refine ⟨advanced_loops_create hub s pProp, fun hno => ?_, fun hen hyes => ?_⟩
  · have e : OnAdvancedProperties hub t pProp ActionType.AfterSet = (DEVICE_OK, t) := by
      simp only [OnAdvancedProperties, reduceCtorEq, if_false, if_true, hno,
        Option.some.injEq]
    rw [e]
    exact ⟨rfl, issued_self t⟩
  · obtain ⟨h, hr⟩ := advanced_loops_again hub t pProp hen hyes
    refine ⟨?_, h.isSome_eq, h.action, h.numCells_, hr, AdvancedExist_of_same h hen⟩
    simp only [OnAdvancedProperties, reduceCtorEq, if_false, if_true, hyes]

set_option maxRecDepth 100000 in
/-- C11 (amended) at instances: the first write of `g_YesState` after `Initialize` makes the
advanced properties exist; a write of `g_NoState` after that issues nothing; a second write
of `g_YesState` leaves the refresh flag `false` and the config property of cell 2 in place. -/
theorem advanced_toggle_further_write_witness :
    AdvancedExist (advancedCard 3) = true ∧
    issued (PropSet (advancedCard 3) PropName.g_AdvancedPropertiesPropertyName
        (Value.str Str.g_NoState)).2
      (OnAdvancedProperties (scriptHub 0 3)
        (PropSet (advancedCard 3) PropName.g_AdvancedPropertiesPropertyName
          (Value.str Str.g_NoState)).2
        PropName.g_AdvancedPropertiesPropertyName ActionType.AfterSet).2 = [] ∧
    (OnAdvancedProperties (scriptHub 0 3)
      (PropSet (advancedCard 3) PropName.g_AdvancedPropertiesPropertyName
        (Value.str Str.g_YesState)).2
      PropName.g_AdvancedPropertiesPropertyName ActionType.AfterSet).2.refreshProps_ = false ∧
    ((OnAdvancedProperties (scriptHub 0 3)
      (PropSet (advancedCard 3) PropName.g_AdvancedPropertiesPropertyName
        (Value.str Str.g_YesState)).2
      PropName.g_AdvancedPropertiesPropertyName ActionType.AfterSet).2.properties_
        (GetCellPropertyName 2 CellSuffix._Config)).isSome = true :=
  have h := advanced_toggle_further_write (scriptHub 0 3)
    (PropSet (initializedCard 3) PropName.g_AdvancedPropertiesPropertyName
      (Value.str Str.g_YesState)).2
    (PropSet (advancedCard 3) PropName.g_AdvancedPropertiesPropertyName
      (Value.str Str.g_YesState)).2
    PropName.g_AdvancedPropertiesPropertyName
  have h2 := advanced_toggle_further_write (scriptHub 0 3)
    (PropSet (initializedCard 3) PropName.g_AdvancedPropertiesPropertyName
      (Value.str Str.g_YesState)).2
    (PropSet (advancedCard 3) PropName.g_AdvancedPropertiesPropertyName
      (Value.str Str.g_NoState)).2
    PropName.g_AdvancedPropertiesPropertyName
  have h3 := h.2.2 (by decide) (by decide)
  ⟨h.1 (by decide), (h2.2.1 (by decide)).2, by rw [h3.2.2.2.2.1]; decide,
    by rw [h3.2.1]; decide⟩

/-! ## C12: the re-reads after a cell type write -/

/-- The commands issued by a send under `RETURN_ON_MM_ERROR` that is followed by a `Set`. -/
theorem issued_query_then_set (hub : Hub σ) (s : CPLogic σ) (command : String) (d : Nat)
    (pProp : PropName) (v : Value) :
    issued s
      (RETURN_ON_MM_ERROR (QueryCommandVerify hub s command ":A" d) fun s1 =>
        (DEVICE_OK, (PropSet s1 pProp v).2)).2
      = [⟨command, ":A", d, s.currentPosition_⟩] := by
  apply issued_of_append
  unfold RETURN_ON_MM_ERROR
  split
  · rfl
  · dsimp only
    rw [PropSet_frame]
    rfl

/-- C13: in the save-settings handler (run for `AfterSet` while the property holds the state
`v`): the save-X state and the save-Y state both emit the same wire command `<addr>SS X`,
the save-Z state emits `<addr>SS Z` (each with expected answer `:A` and 200 ms delay), and
either sentinel state (original or done) emits no command and returns `DEVICE_OK` with the
driver unchanged. -/
theorem save_settings_wire_command (hub : Hub σ) (s : CPLogic σ) (pProp : PropName) (v : Str)
    (hval : PropGetStr s pProp = some v) :
    ((v = Str.g_SaveSettingsX ∨ v = Str.g_SaveSettingsY) →
      issued s (OnSaveCardSettings hub s pProp ActionType.AfterSet).2 =
        [⟨String.singleton s.addressChar_ ++ "SS " ++ "X", ":A", 200, s.currentPosition_⟩]) ∧
    (v = Str.g_SaveSettingsZ →
      issued s (OnSaveCardSettings hub s pProp ActionType.AfterSet).2 =
        [⟨String.singleton s.addressChar_ ++ "SS " ++ "Z", ":A", 200, s.currentPosition_⟩]) ∧
    ((v = Str.g_SaveSettingsOrig ∨ v = Str.g_SaveSettingsDone) →
      OnSaveCardSettings hub s pProp ActionType.AfterSet = (DEVICE_OK, s) ∧
      issued s (OnSaveCardSettings hub s pProp ActionType.AfterSet).2 = []) := by
  refine ⟨?_, ?_, ?_⟩
  · rintro (rfl | rfl) <;>
      · simp only [OnSaveCardSettings, if_true, hval, Option.some.injEq, reduceCtorEq, if_false]
        exact issued_query_then_set hub s _ 200 pProp _
  · rintro rfl
    simp only [OnSaveCardSettings, if_true, hval, Option.some.injEq, reduceCtorEq, if_false]
    exact issued_query_then_set hub s _ 200 pProp _
  · rintro (rfl | rfl) <;>
      · simp only [OnSaveCardSettings, if_true, hval, Option.some.injEq, reduceCtorEq, if_false]
        exact ⟨trivial, issued_self s⟩

set_option maxRecDepth 100000 in
/-- C13 at instances: after `Initialize`, the property holding `g_SaveSettingsY` gives the
command `1SS X`, as `g_SaveSettingsX` does. -/
theorem save_settings_wire_command_witness :
    issued (initializedCard 3)
      (OnSaveCardSettings (scriptHub 0 0)
        (PropSet (initializedCard 3) PropName.g_SaveSettingsPropertyName
          (Value.str Str.g_SaveSettingsY)).2
        PropName.g_SaveSettingsPropertyName ActionType.AfterSet).2
      = [⟨"1SS X", ":A", 200, 3⟩] ∧
    issued (initializedCard 3)
      (OnSaveCardSettings (scriptHub 0 0)
        (PropSet (initializedCard 3) PropName.g_SaveSettingsPropertyName
          (Value.str Str.g_SaveSettingsX)).2
        PropName.g_SaveSettingsPropertyName ActionType.AfterSet).2
      = [⟨"1SS X", ":A", 200, 3⟩] :=
  ⟨(save_settings_wire_command (scriptHub 0 0)
      (PropSet (initializedCard 3) PropName.g_SaveSettingsPropertyName
        (Value.str Str.g_SaveSettingsY)).2
      PropName.g_SaveSettingsPropertyName Str.g_SaveSettingsY (by decide)).1 (Or.inr rfl),
    (save_settings_wire_command (scriptHub 0 0)
      (PropSet (initializedCard 3) PropName.g_SaveSettingsPropertyName
        (Value.str Str.g_SaveSettingsX)).2
      PropName.g_SaveSettingsPropertyName Str.g_SaveSettingsX (by decide)).1 (Or.inl rfl)⟩

end ASIPLogic
